import Mathlib

/-!
# The stage controller `smc100ccCtrl` and the host monitor `sysMonitor`

The definitions of both applications come first, the theorems after them.  The
host monitor has its own introduction, at `namespace sysMonitor`.

A shallow embedding of `src/apps/smc100ccCtrl/smc100ccCtrl.hpp`: the connection
state machine `appLogic`, the protocol helpers (`testConnection`, `setUpMoving`,
`moveToPosition`, `checkPosition`, `getPosition`, `getLastError`) and the
new-property callback of the `position` property.

Conventions of the embedding.

* `std::string` is a list of characters (`Str`).
* `float` and `double` values are the rationals they denote.  Where the source
  rounds, the embedding rounds with the definitions of `namespace ieee754`: the
  constant `error_band` is the `float` nearest to the literal `0.05`, and the
  subtraction in `checkPosition` is rounded to `double`.  Numbers that come from
  outside (`std::stof`, the elements of a property) are taken as they are.
  Infinities and NaN are not values of the embedding.
* The member state of the C++ object is the record `World`; every member function
  takes a `World` and returns its result together with the new `World`.
* The transport, the udev discovery and the C++ library calls the source makes are
  not code of the file.  They are the fields of `Env`.  Each call to the outside
  is appended to `World.trace`, and the answer of the outside to a call is a
  function of the number of calls made before it, so that a theorem quantified
  over `Env` covers every behaviour of the device and of the host.
* `log<...>` calls are appended to `World.logs` with the source line of the call.
* The callback of the `position` property waits in an empty loop for the state
  to leave `OPERATING`, which only another thread can bring about.
  `newCallBack_m_indiP_position` is the callback alone;
  `newCallBack_m_indiP_position_polled` is the callback with the polling thread
  running whole ticks of `appLogic` while it waits.
-/

/-!
## Binary floating point

The roundings that the sources rely on, on exact rationals: round to nearest,
ties to even, in the formats `float` (binary32) and `double` (binary64).
-/

namespace ieee754

/-- Rounding to the nearest integer, a tie going to the even one. -/
def roundHalfEven (q : ℚ) : Int :=
  if q - ⌊q⌋ < 1 / 2 then ⌊q⌋
  else if 1 / 2 < q - ⌊q⌋ then ⌊q⌋ + 1
  else if ⌊q⌋ % 2 = 0 then ⌊q⌋
  else ⌊q⌋ + 1

/-- The value nearest to `q` in the binary format with `p` significant bits
whose least normal exponent is `emin`, a tie going to the even significand.  In
the binade `2 ^ e <= |q| < 2 ^ (e + 1)` the values of the format are the
multiples of `2 ^ (e - (p - 1))`; below `2 ^ emin` they are the multiples of
`2 ^ (emin - (p - 1))`.  The exponent has no upper limit here: a magnitude that
the format would turn into an infinity is rounded like any other. -/
def roundBinary (p : Nat) (emin : Int) (q : ℚ) : ℚ :=
  let e : Int := max (Int.log 2 |q|) emin
  (roundHalfEven (q / (2 : ℚ) ^ (e - (p - 1))) : ℚ) * (2 : ℚ) ^ (e - (p - 1))

/-- The conversion to `float`: 24 significant bits, least normal exponent
`-126`. -/
def toFloat (q : ℚ) : ℚ :=
  roundBinary 24 (-126) q

/-- The conversion to `double`, and the rounding of a `double` operation: 53
significant bits, least normal exponent `-1022`. -/
def toDouble (q : ℚ) : ℚ :=
  roundBinary 53 (-1022) q

/-- The rational `r` is a value of the format: a multiple of the unit of a
binade `e`, of magnitude below `2 ^ (e + 1)`. -/
def Representable (p : Nat) (emin : Int) (r : ℚ) : Prop :=
  ∃ (N e : Int), emin ≤ e ∧ r = N * (2 : ℚ) ^ (e - (p - 1)) ∧ |r| < (2 : ℚ) ^ (e + 1)

end ieee754

namespace smc100ccCtrl

/-- A `std::string`. -/
abbrev Str := List Char

/-- The application state codes that `smc100ccCtrl.hpp` names.  The enumeration
itself is declared by the application framework. -/
inductive stateCodes where
  | UNINITIALIZED
  | INITIALIZED
  | NODEVICE
  | NOTCONNECTED
  | CONNECTED
  | READY
  | OPERATING
  | ERROR
  | FAILURE
  deriving DecidableEq, Repr

/-- One call from the controller to the outside world. -/
inductive Event where
  | getDeviceName
  | euidCalled
  | connect
  | euidReal
  | ttyWrite (buffer : Str)
  | ttyWriteRead (buffer : Str)
  deriving DecidableEq, Repr

/-- The log types the controller uses. -/
inductive LogKind where
  | text_log
  | software_error
  | software_critical
  deriving DecidableEq, Repr

/-- One log record: its type, the source line of the `log` call, its message. -/
structure LogEntry where
  kind : LogKind
  line : Nat
  msg : Str
  deriving DecidableEq, Repr

/-- What the source uses and does not define: the tty error codes, the C++
library conversions, and the answers of udev and of the serial line.  The first
argument of the four calls is the number of calls made so far. -/
structure Env where
  TTY_E_NOERROR : Int
  TTY_E_DEVNOTFOUND : Int
  TTY_E_NODEVNAMES : Int
  ttyErrorString : Int → Str
  to_string : ℚ → Str
  stof : Str → Option ℚ
  getDeviceName : Nat → Int × Str
  connect : Nat → Int
  ttyWrite : Nat → Str → Int
  ttyWriteRead : Nat → Str → Int × Str

/-- The member state of the controller object, together with the record of its
calls to the outside (`trace`) and of its log (`logs`). -/
structure World where
  m_state : stateCodes
  m_stateLogged : Bool
  m_target : ℚ
  m_deviceName : Str
  m_idVendor : Str
  m_idProduct : Str
  m_serial : Str
  indi_current : ℚ
  indi_target : Option ℚ
  trace : List Event
  logs : List LogEntry

/-- The received property of a new-property notification.  `current` and
`target` are the results of `ipRecv["current"].get<float>()` and
`ipRecv["target"].get<float>()`, `none` when the call throws. -/
structure IndiProperty where
  name : Str
  current : Option ℚ
  target : Option ℚ

/-- Modelled from the spec: the framework's state setter `state(s)`, which is not
in the source tree. A change of state clears the "state logged" mark, so that
each entry into a state is logged once. -/
def state (w : World) (s : stateCodes) : World :=
  if w.m_state = s then w else { w with m_state := s, m_stateLogged := false }

/-- Modelled from the spec: the framework's `stateLogged()`, which is not in the
source tree. It reports whether the current state was logged already and marks
it logged. -/
def stateLogged (w : World) : Bool × World :=
  (w.m_stateLogged, { w with m_stateLogged := true })

/-- A call of `log<kind>(...)` at source line `line`. -/
def log (w : World) (kind : LogKind) (line : Nat) (msg : Str) : World :=
  { w with logs := w.logs ++ [⟨kind, line, msg⟩] }

/-- The call `tty::usbDevice::getDeviceName()`: the return code, and the world
with `m_deviceName` as udev reports it. -/
def getDeviceName (E : Env) (w : World) : Int × World :=
  let r := E.getDeviceName w.trace.length
  (r.1, { w with m_deviceName := r.2, trace := w.trace ++ [Event.getDeviceName] })

/-- The call `euidCalled()`. -/
def euidCalled (w : World) : World :=
  { w with trace := w.trace ++ [Event.euidCalled] }

/-- The call `euidReal()`. -/
def euidReal (w : World) : World :=
  { w with trace := w.trace ++ [Event.euidReal] }

/-- The call `connect()` of the tty device. -/
def connect (E : Env) (w : World) : Int × World :=
  (E.connect w.trace.length, { w with trace := w.trace ++ [Event.connect] })

/-- The call `MagAOX::tty::ttyWrite(buffer, m_fileDescrip, 2000)`. -/
def ttyWrite (E : Env) (w : World) (buffer : Str) : Int × World :=
  (E.ttyWrite w.trace.length buffer, { w with trace := w.trace ++ [Event.ttyWrite buffer] })

/-- The call `MagAOX::tty::ttyWriteRead(output, buffer, "\r\n", false,
m_fileDescrip, 2000, 2000)`: the return code, the output, the new world. -/
def ttyWriteRead (E : Env) (w : World) (buffer : Str) : Int × Str × World :=
  let r := E.ttyWriteRead w.trace.length buffer
  (r.1, r.2, { w with trace := w.trace ++ [Event.ttyWriteRead buffer] })

/-- The frame of the status query. -/
def buffer_TS : Str := "1TS\r\n\r\n".toList

/-- The frame of the position query. -/
def buffer_TP : Str := "1TP\r\n\r\n".toList

/-- The frame of the error query. -/
def buffer_TE : Str := "1TE\r\n\r\n".toList

/-- The frame of the home command. -/
def buffer_OR : Str := "1OR\r\n\r\n".toList

/-- The frame of the move-absolute command of `moveToPosition`. -/
def buffer_PA (E : Env) (pos : ℚ) : Str :=
  "1PA".toList ++ E.to_string pos ++ "\r\n\r\n".toList

/-- The `switch(status)` of `getLastError`: the message of a case, `none` when
no case matches (the switch has no default). -/
def errorSwitch (status : Char) : Option Str :=
  if status = 'A' then some "Unknown message code or floating point controller address.".toList
  else if status = 'B' then some "Controller address not correct.".toList
  else if status = 'C' then some "Parameter missing or out of range.".toList
  else if status = 'D' then some "Command not allowed.".toList
  else if status = 'E' then some "Home sequence already started.".toList
  else if status = 'F' then some "ESP stage name unknown.".toList
  else if status = 'G' then some "Displacement out of limits.".toList
  else if status = 'H' then some "Command not allowed in NOT REFERENCED state.".toList
  else if status = 'I' then some "Command not allowed in CONFIGURATION state.".toList
  else if status = 'J' then some "Command not allowed in DISABLE state.".toList
  else if status = 'K' then some "Command not allowed in READY state.".toList
  else if status = 'L' then some "Command not allowed in HOMING state.".toList
  else if status = 'M' then some "UCommand not allowed in MOVING state.".toList
  else if status = 'N' then some "Current position out of software limit.".toList
  else if status = 'S' then some "Communication Time Out.".toList
  else if status = 'U' then some "Error during EEPROM access.".toList
  else if status = 'V' then some "Error during command execution.".toList
  else if status = 'W' then some "Command not allowed for PP version.".toList
  else if status = 'X' then some "Command not allowed for CC version.".toList
  else none

/-- The function `smc100ccCtrl::getLastError(std::string& errorString)`: the
return value, the value of `errorString` after the call, the new world. -/
def getLastError (E : Env) (w : World) (errorString : Str) : Int × Str × World :=
  let r := ttyWriteRead E w buffer_TE
  let rv := r.1
  let output := r.2.1
  let w := r.2.2
  if rv ≠ E.TTY_E_NOERROR then
    (-1, E.ttyErrorString rv, w)
  else
    match output[3]? with
    | none => (-1, "Unknown output; controller not responding correctly.".toList, w)
    | some status =>
      if status = '@' then
        (0, errorString, w)
      else
        match errorSwitch status with
        | some msg => (-1, msg, w)
        | none => (-1, errorString, w)

/-- The function `smc100ccCtrl::setUpMoving()`. -/
def setUpMoving (E : Env) (w : World) : Int × World :=
  let r := ttyWrite E w buffer_OR
  let rv := r.1
  let w := r.2
  if rv ≠ E.TTY_E_NOERROR then
    (-1, log w LogKind.software_error 471 (E.ttyErrorString rv))
  else
    (0, state w stateCodes.READY)

/-- The function `smc100ccCtrl::testConnection()`.  `output.substr(0, 7)` cannot
throw, so the `catch` is never taken. -/
def testConnection (E : Env) (w : World) : Int × World :=
  let r := ttyWriteRead E w buffer_TS
  let rv := r.1
  let output := r.2.1
  let w := r.2.2
  if rv ≠ E.TTY_E_NOERROR then
    (-1, log w LogKind.software_error 398 (E.ttyErrorString rv))
  else if output.take 7 = "1TS0000".toList then
    let w := if w.m_state = stateCodes.CONNECTED then (setUpMoving E w).2 else w
    (0, w)
  else
    (-1, log w LogKind.software_error 417 ("Error occured: ".toList ++ output))

/-- The function `smc100ccCtrl::moveToPosition(float pos)`. -/
def moveToPosition (E : Env) (w : World) (pos : ℚ) : Int × World :=
  let r := ttyWrite E w (buffer_PA E pos)
  let rv := r.1
  let w := r.2
  if rv ≠ E.TTY_E_NOERROR then
    (-1, log w LogKind.software_error 490 (E.ttyErrorString rv))
  else
    let w := state w stateCodes.OPERATING
    let e := getLastError E w []
    if e.1 = 0 then
      (0, e.2.2)
    else
      (-1, log e.2.2 LogKind.software_error 503 e.2.1)

/-- The local `float error_band = 0.05` of `checkPosition`: the literal is a
`double`, and the initialisation converts it to `float`. -/
def error_band : ℚ := ieee754.toFloat (ieee754.toDouble 0.05)

/-- The function `smc100ccCtrl::checkPosition(const float& current)`.
`output.substr(0, 9)` cannot throw, so the `catch` is never taken.  `m_target` is
a `double` and `current` a `float`: the difference is taken in `double`, and
`error_band` is compared as the `double` that it is. -/
def checkPosition (E : Env) (w : World) (current : ℚ) : Int × World :=
  let r := ttyWriteRead E w buffer_TS
  let rv := r.1
  let output := r.2.1
  let w := r.2.2
  if rv ≠ E.TTY_E_NOERROR then
    (-1, log w LogKind.software_error 523 (E.ttyErrorString rv))
  else if output.take 9 = "1TS000028".toList then
    (0, w)
  else if |ieee754.toDouble (w.m_target - current)| > error_band then
    (-1, log w LogKind.software_error 542
      ("Current and target don't match when controller is not moving: Current: ".toList
        ++ E.to_string current ++ " & Target: ".toList ++ E.to_string w.m_target))
  else
    (0, state w stateCodes.READY)

/-- The function `smc100ccCtrl::getPosition(float& current)`: the return value,
the value of `current` after the call, the new world.  `output.substr(3)` throws
when the output has fewer than three characters, `std::stof` when the rest is
not a number; both are caught. -/
def getPosition (E : Env) (w : World) (current : ℚ) : Int × ℚ × World :=
  let r := ttyWriteRead E w buffer_TP
  let rv := r.1
  let output := r.2.1
  let w := r.2.2
  if rv ≠ E.TTY_E_NOERROR then
    (-1, current, log w LogKind.software_error 573 (E.ttyErrorString rv))
  else
    match (if output.length < 3 then none else E.stof (output.drop 3)) with
    | some v => (0, v, w)
    | none =>
      (-1, current, log w LogKind.software_error 584
        "Error occured: Unexpected output in getPosition()".toList)

/-- The message `"USB Device " << m_idVendor << ":" << m_idProduct << ":" <<
m_serial << tail` that `appLogic` builds for its text logs. -/
def usbDeviceMsg (w : World) (tail : Str) : Str :=
  "USB Device ".toList ++ w.m_idVendor ++ ":".toList ++ w.m_idProduct ++ ":".toList
    ++ w.m_serial ++ tail

/-- The function `smc100ccCtrl::callCommand()`: its body is a comment. -/
def callCommand (w : World) : Int × World :=
  (0, w)

/-- The block `if( state() == stateCodes::NODEVICE )` of `appLogic`, source
lines 215-250.  The first component is `some rv` when the block returns `rv`
from `appLogic`, `none` when control falls through to the next block. -/
def appLogic_NODEVICE (E : Env) (w : World) : Option Int × World :=
  if w.m_state = stateCodes.NODEVICE then
    let r := getDeviceName E w
    let rv := r.1
    let w := r.2
    if rv < 0 ∧ rv ≠ E.TTY_E_DEVNOTFOUND ∧ rv ≠ E.TTY_E_NODEVNAMES then
      let l := stateLogged (state w stateCodes.FAILURE)
      let w := if !l.1 then log l.2 LogKind.software_critical 223 (E.ttyErrorString rv) else l.2
      (some (-1), w)
    else if rv = E.TTY_E_DEVNOTFOUND ∨ rv = E.TTY_E_NODEVNAMES then
      let l := stateLogged (state w stateCodes.NODEVICE)
      let w := if !l.1 then
          log l.2 LogKind.text_log 235 (usbDeviceMsg l.2 " not found in udev".toList)
        else l.2
      (some 0, w)
    else
      let l := stateLogged (state w stateCodes.NOTCONNECTED)
      let w := if !l.1 then
          (callCommand (log l.2 LogKind.text_log 246
            (usbDeviceMsg l.2 (" found in udev as ".toList ++ l.2.m_deviceName)))).2
        else l.2
      (none, w)
  else
    (none, w)

/-- The block `if( state() == stateCodes::NOTCONNECTED )` of `appLogic`, source
lines 252-303. -/
def appLogic_NOTCONNECTED (E : Env) (w : World) : Option Int × World :=
  if w.m_state = stateCodes.NOTCONNECTED then
    let c := connect E (euidCalled w)
    let rv := c.1
    let w := euidReal c.2
    if rv < 0 then
      let r := getDeviceName E w
      let nrv := r.1
      let w := r.2
      if nrv < 0 ∧ nrv ≠ E.TTY_E_DEVNOTFOUND ∧ nrv ≠ E.TTY_E_NODEVNAMES then
        let l := stateLogged (state w stateCodes.FAILURE)
        let w := if !l.1 then log l.2 LogKind.software_critical 264 (E.ttyErrorString nrv) else l.2
        (some (-1), w)
      else if nrv = E.TTY_E_DEVNOTFOUND ∨ nrv = E.TTY_E_NODEVNAMES then
        let l := stateLogged (state w stateCodes.NODEVICE)
        let w := if !l.1 then
            log l.2 LogKind.text_log 276 (usbDeviceMsg l.2 " no longer found in udev".toList)
          else l.2
        (some 0, w)
      else
        let l := stateLogged (state w stateCodes.FAILURE)
        let w := if !l.1 then log l.2 LogKind.software_error 283 (E.ttyErrorString rv) else l.2
        (some (-1), w)
    else
      let t := testConnection E w
      let w :=
        if t.1 = 0 then state t.2 stateCodes.CONNECTED
        else
          let e := getLastError E t.2 []
          if e.1 ≠ 0 then log e.2.2 LogKind.software_error 292 e.2.1 else e.2.2
      if w.m_state = stateCodes.CONNECTED then
        let l := stateLogged w
        let w := if !l.1 then
            log l.2 LogKind.text_log 301 ("Connected to stage(s) on ".toList ++ l.2.m_deviceName)
          else l.2
        (none, w)
      else
        (none, w)
  else
    (none, w)

/-- The block `if( state() == stateCodes::CONNECTED || state() == stateCodes::READY
|| state() == stateCodes::OPERATING)` of `appLogic`, source lines 305-342.  The
block never returns from `appLogic`. -/
def appLogic_CONNECTED (E : Env) (w : World) : World :=
  if w.m_state = stateCodes.CONNECTED ∨ w.m_state = stateCodes.READY
      ∨ w.m_state = stateCodes.OPERATING then
    let t := testConnection E w
    if t.1 ≠ 0 then
      let w := state t.2 stateCodes.NOTCONNECTED
      let e := getLastError E w []
      if e.1 ≠ 0 then log e.2.2 LogKind.software_error 315 e.2.1 else e.2.2
    else
      let p := getPosition E t.2 (-99)
      let rv := p.1
      let current := p.2.1
      let e := getLastError E p.2.2 []
      let w := if e.1 ≠ 0 ∧ e.2.1.length ≠ 0 then
          log e.2.2 LogKind.software_error 325 e.2.1
        else e.2.2
      let w := if rv = 0 then { w with indi_current := current }
        else log w LogKind.software_error 331
          "There's been an error with getting current controller position.".toList
      let c := checkPosition E w current
      let w := if c.1 ≠ 0 then
          log c.2 LogKind.software_error 335 "There's been an error with movement.".toList
        else c.2
      let e := getLastError E w []
      if e.1 ≠ 0 ∧ e.2.1.length ≠ 0 then
        log e.2.2 LogKind.software_error 339 e.2.1
      else e.2.2
  else
    w

/-- The block `if( state() == stateCodes::ERROR )` of `appLogic`, source lines
344-375. -/
def appLogic_ERROR (E : Env) (w : World) : Option Int × World :=
  if w.m_state = stateCodes.ERROR then
    let r := getDeviceName E w
    let rv := r.1
    let w := r.2
    if rv < 0 ∧ rv ≠ E.TTY_E_DEVNOTFOUND ∧ rv ≠ E.TTY_E_NODEVNAMES then
      let l := stateLogged (state w stateCodes.FAILURE)
      let w := if !l.1 then log l.2 LogKind.software_critical 352 (E.ttyErrorString rv) else l.2
      (some rv, w)
    else if rv = E.TTY_E_DEVNOTFOUND ∨ rv = E.TTY_E_NODEVNAMES then
      let l := stateLogged (state w stateCodes.NODEVICE)
      let w := if !l.1 then
          log l.2 LogKind.text_log 365 (usbDeviceMsg l.2 " not found in udev".toList)
        else l.2
      (some 0, w)
    else
      let l := stateLogged (state w stateCodes.FAILURE)
      let w := if !l.1 then
          log l.2 LogKind.text_log 373
            "Error NOT due to loss of USB connection.  I can't fix it myself.".toList
        else l.2
      (none, w)
  else
    (none, w)

/-- The function `smc100ccCtrl::appLogic()`, one poll tick: the return value and
the new world. -/
def appLogic (E : Env) (w : World) : Int × World :=
  if w.m_state = stateCodes.INITIALIZED then
    (-1, log w LogKind.text_log 211 "In appLogic but in state INITIALIZED.".toList)
  else
    let a := appLogic_NODEVICE E w
    match a.1 with
    | some rv => (rv, a.2)
    | none =>
      let b := appLogic_NOTCONNECTED E a.2
      match b.1 with
      | some rv => (rv, b.2)
      | none =>
        let d := appLogic_ERROR E (appLogic_CONNECTED E b.2)
        match d.1 with
        | some rv => (rv, d.2)
        | none => (0, d.2)

/-- The name under which `appStartup` registers `m_indiP_position`. -/
def m_indiP_position_name : Str := "position".toList

/-- The new-property callback `INDI_NEWCALLBACK_DEFN(smc100ccCtrl,
m_indiP_position)`, run with no other thread changing the state.  The result is
`none` when the call does not return: the loop `while (state() ==
stateCodes::OPERATING);` has an empty body, so it spins for as long as the state
is `OPERATING`.  Otherwise it is the return value and the new world. -/
def newCallBack_m_indiP_position (E : Env) (w : World) (ipRecv : IndiProperty) :
    Option (Int × World) :=
  if ipRecv.name = m_indiP_position_name then
    let current : ℚ := ipRecv.current.getD (-99)
    let target : ℚ := ipRecv.target.getD (-99)
    let target := if target = -99 then current else target
    if target ≤ 0 then
      some (0, w)
    else
      let w := { w with indi_target := some target, m_target := target }
      if w.m_state = stateCodes.OPERATING then
        none
      else
        some (moveToPosition E w target)
  else
    some (-1, w)

/-- The callback `INDI_NEWCALLBACK_DEFN(smc100ccCtrl, m_indiP_position)` up to
its loop `while (state() == stateCodes::OPERATING);`, source lines 693-717.
Either the call has returned (`Sum.inl`, the return value and the world), or it
stands at the loop (`Sum.inr`) with its local `target`, having taken the lock
and set `m_target`. -/
def newCallBack_m_indiP_position_enter (w : World) (ipRecv : IndiProperty) :
    (Int × World) ⊕ (ℚ × World) :=
  if ipRecv.name = m_indiP_position_name then
    let current : ℚ := ipRecv.current.getD (-99)
    let target : ℚ := ipRecv.target.getD (-99)
    let target := if target = -99 then current else target
    if target ≤ 0 then
      Sum.inl (0, w)
    else
      Sum.inr (target, { w with indi_target := some target, m_target := target })
  else
    Sum.inl (-1, w)

/-- The loop `while (state() == stateCodes::OPERATING);` of the callback and the
`return moveToPosition(target);` after it, source lines 719-723, with the polling
thread running.  The loop reads the state: outside `OPERATING` the callback goes
on and returns what `moveToPosition` returns; in `OPERATING` it stays in the
loop, and the polling thread, whose `appLogic` takes no lock, runs its next
tick.  The callback is taken to read the state between two ticks: `appLogic`
never calls `state(stateCodes::OPERATING)`, so a state that has left `OPERATING`
during a tick is still outside it at the end of the tick.  When the callback is
still in the loop after `n` ticks the result is `none`, with the world
reached. -/
def newCallBack_m_indiP_position_wait (E : Env) (target : ℚ) :
    Nat → World → Option Int × World
  | 0, w =>
    if w.m_state = stateCodes.OPERATING then (none, w)
    else (some (moveToPosition E w target).1, (moveToPosition E w target).2)
  | n + 1, w =>
    if w.m_state = stateCodes.OPERATING then
      newCallBack_m_indiP_position_wait E target n (appLogic E w).2
    else (some (moveToPosition E w target).1, (moveToPosition E w target).2)

/-- The callback `INDI_NEWCALLBACK_DEFN(smc100ccCtrl, m_indiP_position)` with
the polling thread running while it waits, for at most `n` ticks: the return
value, or `none` when the callback is still in its loop, and the world.  With
`n = 0` this is `newCallBack_m_indiP_position`. -/
def newCallBack_m_indiP_position_polled (E : Env) (w : World) (ipRecv : IndiProperty)
    (n : Nat) : Option Int × World :=
  match newCallBack_m_indiP_position_enter w ipRecv with
  | Sum.inl r => (some r.1, r.2)
  | Sum.inr r => newCallBack_m_indiP_position_wait E r.1 n r.2

/-- The value of the local variable `current` of `appLogic` when it is passed
to `checkPosition`, in a tick whose liveness test passes: `-99`, overwritten by
`getPosition` when that succeeds. -/
def appLogic_current (E : Env) (w : World) : ℚ :=
  (getPosition E (testConnection E w).2 (-99)).2.1

/-- The world in which the `CONNECTED` block of a tick runs `checkPosition`, when
the liveness test passes. -/
def appLogic_beforeCheck (E : Env) (w : World) : World :=
  let t := testConnection E w
  let p := getPosition E t.2 (-99)
  let e := getLastError E p.2.2 []
  let w := if e.1 ≠ 0 ∧ e.2.1.length ≠ 0 then
      log e.2.2 LogKind.software_error 325 e.2.1
    else e.2.2
  if p.1 = 0 then { w with indi_current := p.2.1 }
  else log w LogKind.software_error 331
    "There's been an error with getting current controller position.".toList

/-- The rest of the `CONNECTED` block of a tick after `checkPosition` has
returned `c`. -/
def appLogic_afterCheck (E : Env) (c : Int × World) : World :=
  let w := if c.1 ≠ 0 then
      log c.2 LogKind.software_error 335 "There's been an error with movement.".toList
    else c.2
  let e := getLastError E w []
  if e.1 ≠ 0 ∧ e.2.1.length ≠ 0 then
    log e.2.2 LogKind.software_error 339 e.2.1
  else e.2.2

/-- The case labels of the `switch(status)` of `getLastError`, in source order. -/
def caseLabels : List Char :=
  ['A', 'B', 'C', 'D', 'E', 'F', 'G', 'H', 'I', 'J', 'K', 'L', 'M', 'N', 'S', 'U', 'V', 'W', 'X']

/-- A character that `getLastError` recognises as a device error code: it is not
`'@'`, and whenever the exchange succeeds with this character at offset 3 of the
reply, `getLastError` returns `-1` and sets `errorString` to one non-empty
message that belongs to the character. -/
def recognised (c : Char) : Prop :=
  c ≠ '@' ∧ ∃ msg : Str, msg ≠ [] ∧
    ∀ (E : Env) (w : World) (errorString : Str),
      (E.ttyWriteRead w.trace.length buffer_TE).1 = E.TTY_E_NOERROR →
      (E.ttyWriteRead w.trace.length buffer_TE).2[3]? = some c →
      (getLastError E w errorString).1 = -1 ∧ (getLastError E w errorString).2.1 = msg

/-! ## Concrete inputs

An environment in which every call gets the same answer, and a world with an
empty history, used to evaluate the functions on concrete inputs. -/

/-- An environment with fixed answers: `dev` from udev, `conn` from `connect`,
`wr` from each `ttyWrite`, `replies` from each `ttyWriteRead`.  The tty codes are
`0`, `-42033` and `-42031`, and `to_string` prints `10.000000`, the text of the
one target that the examples move to. -/
def fixedEnv (dev : Int × Str) (conn : Int) (wr : Int) (replies : Str → Int × Str)
    (stof : Str → Option ℚ) : Env where
  TTY_E_NOERROR := 0
  TTY_E_DEVNOTFOUND := -42033
  TTY_E_NODEVNAMES := -42031
  ttyErrorString := fun _ => "tty error".toList
  to_string := fun _ => "10.000000".toList
  stof := stof
  getDeviceName := fun _ => dev
  connect := fun _ => conn
  ttyWrite := fun _ _ => wr
  ttyWriteRead := fun _ b => replies b

/-- A world in state `s` with target `target`, nothing logged, nothing called. -/
def freshWorld (s : stateCodes) (target : ℚ) : World where
  m_state := s
  m_stateLogged := false
  m_target := target
  m_deviceName := "/dev/ttyUSB0".toList
  m_idVendor := "104d".toList
  m_idProduct := "3000".toList
  m_serial := "A1".toList
  indi_current := 0
  indi_target := none
  trace := []
  logs := []

/-- A device that answers the three queries with `ts`, `tp` and `te`. -/
def fixedReplies (ts tp te : Str) (b : Str) : Int × Str :=
  if b = buffer_TS then (0, ts) else if b = buffer_TP then (0, tp) else (0, te)

/-- A device whose every exchange fails with code `-42024`. -/
def deadReplies (_b : Str) : Int × Str :=
  (-42024, [])

/-- A number parser that knows the two position texts of the examples. -/
def fixedStof (s : Str) : Option ℚ :=
  if s = "9.5".toList then some 9.5 else if s = "10.02".toList then some 10.02 else none

/-- A host on which udev does not list the device. -/
def absentEnv : Env :=
  fixedEnv (-42033, []) 0 0 deadReplies fixedStof

/-- A device that is listed and opens, and then answers nothing. -/
def deadEnv : Env :=
  fixedEnv (0, "/dev/ttyUSB0".toList) 0 0 deadReplies fixedStof

/-- A stage stopped at `9.5`, with no error pending. -/
def stoppedAt9_5 : Env :=
  fixedEnv (0, "/dev/ttyUSB0".toList) 0 0
    (fixedReplies "1TS00000A".toList "1TP9.5".toList "1TE@".toList) fixedStof

/-- A stage stopped at `10.02`, with no error pending. -/
def stoppedAt10_02 : Env :=
  fixedEnv (0, "/dev/ttyUSB0".toList) 0 0
    (fixedReplies "1TS00000A".toList "1TP10.02".toList "1TE@".toList) fixedStof

/-- A stage stopped at `0`, with no error pending. -/
def stoppedAt0 : Env :=
  fixedEnv (0, "/dev/ttyUSB0".toList) 0 0
    (fixedReplies "1TS00000A".toList "1TP0".toList "1TE@".toList)
    (fun s => if s = "0".toList then some 0 else none)

/-- A stage that reports it is moving, at `9.5`. -/
def movingEnv : Env :=
  fixedEnv (0, "/dev/ttyUSB0".toList) 0 0
    (fixedReplies "1TS000028".toList "1TP9.5".toList "1TE@".toList) fixedStof

/-- A device that answers the error query with a character no case handles. -/
def unknownCodeEnv : Env :=
  fixedEnv (0, "/dev/ttyUSB0".toList) 0 0
    (fixedReplies "1TS00000A".toList "1TP9.5".toList "1TEZ".toList) fixedStof

/-- A notification for the `position` property. -/
def notification (current target : Option ℚ) : IndiProperty where
  name := m_indiP_position_name
  current := current
  target := target

/-- The events of `new` extend the trace of `old`, and each added event
satisfies `P`. -/
def Extends (P : Event → Prop) (old new : World) : Prop :=
  ∃ l : List Event, new.trace = old.trace ++ l ∧ ∀ e ∈ l, P e

/-- The frames of the source: a `ttyWrite` carries the home frame or a
move-absolute frame, a `ttyWriteRead` one of the three query frames. -/
def frameOK (E : Env) : Event → Prop
  | Event.ttyWrite b => b = buffer_OR ∨ ∃ pos : ℚ, b = buffer_PA E pos
  | Event.ttyWriteRead b => b = buffer_TS ∨ b = buffer_TP ∨ b = buffer_TE
  | _ => True

/-- The world of the `NOTCONNECTED` block after `euidCalled(); connect();
euidReal();`. -/
def afterConnect (E : Env) (w : World) : World :=
  euidReal (connect E (euidCalled w)).2

/-- A host on which the discovery mechanism itself fails, with code `-42032`. -/
def brokenUdevEnv : Env :=
  fixedEnv (-42032, []) 0 0 deadReplies fixedStof

/-- A device that udev lists and that cannot be opened. -/
def busyPortEnv : Env :=
  fixedEnv (0, "/dev/ttyUSB0".toList) (-1) 0 deadReplies fixedStof

/-- A device that cannot be opened and that udev no longer lists. -/
def unpluggedEnv : Env :=
  fixedEnv (-42033, []) (-1) 0 deadReplies fixedStof

/-- A device that cannot be opened on a host whose discovery mechanism fails. -/
def brokenUdevBusyEnv : Env :=
  fixedEnv (-42032, []) (-1) 0 deadReplies fixedStof

/-- A return code of `getDeviceName` that `appLogic` treats as a failure of the
discovery mechanism: negative, and neither of the two absence codes. -/
abbrev fatalCode (E : Env) (rv : Int) : Prop :=
  rv < 0 ∧ rv ≠ E.TTY_E_DEVNOTFOUND ∧ rv ≠ E.TTY_E_NODEVNAMES

/-- A return code of `getDeviceName` that reports the device absent. -/
abbrev absentCode (E : Env) (rv : Int) : Prop :=
  rv = E.TTY_E_DEVNOTFOUND ∨ rv = E.TTY_E_NODEVNAMES

/-- A return code of `getDeviceName` with which `appLogic` takes the device as
found: neither a failure of the mechanism nor an absence code. -/
abbrev foundCode (E : Env) (rv : Int) : Prop :=
  0 ≤ rv ∧ rv ≠ E.TTY_E_DEVNOTFOUND ∧ rv ≠ E.TTY_E_NODEVNAMES

/-- The liveness test sent as call number `n` passes: the exchange succeeds and
the reply starts `1TS0000`. -/
abbrev allClear (E : Env) (n : Nat) : Prop :=
  (E.ttyWriteRead n buffer_TS).1 = E.TTY_E_NOERROR
    ∧ (E.ttyWriteRead n buffer_TS).2.take 7 = "1TS0000".toList

/-- A device that udev lists at the first call and no longer afterwards, and
that cannot be opened. -/
def vanishingEnv : Env :=
  { fixedEnv (0, "/dev/ttyUSB0".toList) (-1) 0 deadReplies fixedStof with
    getDeviceName := fun n => if n = 0 then (0, "/dev/ttyUSB0".toList) else (-42033, []) }

/-- A device that udev lists at the first call, that cannot be opened, on a host
whose discovery mechanism fails afterwards. -/
def breakingUdevEnv : Env :=
  { fixedEnv (0, "/dev/ttyUSB0".toList) (-1) 0 deadReplies fixedStof with
    getDeviceName := fun n => if n = 0 then (0, "/dev/ttyUSB0".toList) else (-42032, []) }

/-- A device that opens and whose status reply is not all-clear. -/
def faultyStatusEnv : Env :=
  fixedEnv (0, "/dev/ttyUSB0".toList) 0 0
    (fixedReplies "1TS00200A".toList "1TP9.5".toList "1TE@".toList) fixedStof

/-- A device whose port accepts no write: every `ttyWrite` fails with `-42013`. -/
def writeFailsEnv : Env :=
  fixedEnv (0, "/dev/ttyUSB0".toList) 0 (-42013)
    (fixedReplies "1TS00000A".toList "1TP9.5".toList "1TE@".toList) fixedStof

/-- A device whose status reply is empty, with no transport error. -/
def emptyStatusEnv : Env :=
  fixedEnv (0, "/dev/ttyUSB0".toList) 0 0
    (fixedReplies [] "1TP10.02".toList "1TE@".toList) fixedStof

/-- A device whose position reply is `1T`, shorter than the three-character
header. -/
def shortPositionEnv : Env :=
  fixedEnv (0, "/dev/ttyUSB0".toList) 0 0
    (fixedReplies "1TS00000A".toList "1T".toList "1TE@".toList) fixedStof

/-- A device whose position reply carries no number after the header. -/
def garbledPositionEnv : Env :=
  fixedEnv (0, "/dev/ttyUSB0".toList) 0 0
    (fixedReplies "1TS00000A".toList "1TPxyz".toList "1TE@".toList) fixedStof

/-- A stage that accepts the write of a move and then reports the error `C`,
parameter missing or out of range. -/
def rejectedMoveEnv : Env :=
  fixedEnv (0, "/dev/ttyUSB0".toList) 0 0
    (fixedReplies "1TS00000A".toList "1TP9.5".toList "1TEC".toList) fixedStof

/-- The environment `E` with a device that answers every error query, without
transport error, with the reply `r`. -/
def withErrorReply (E : Env) (r : Str) : Env :=
  { E with ttyWriteRead := fun n b => if b = buffer_TE then (E.TTY_E_NOERROR, r)
      else E.ttyWriteRead n b }

/-- The function `smc100ccCtrl::appStartup()`.  The registration macro
`REG_INDI_NEWPROP` is not in the source tree and is taken to succeed; the
property gets its element `current`, set to `0`, and its element `target`,
without a value. -/
def appStartup (w : World) : Int × World :=
  let w := { w with indi_current := 0, indi_target := none }
  if w.m_state = stateCodes.UNINITIALIZED then
    (-1, log w LogKind.text_log 188 "In appStartup but in state UNINITIALIZED.".toList)
  else if w.m_deviceName = [] then
    (0, state w stateCodes.NODEVICE)
  else
    let w := state w stateCodes.NOTCONNECTED
    (0, log w LogKind.text_log 202
      (usbDeviceMsg w (" found in udev as ".toList ++ w.m_deviceName)))

/-- The worlds that the controller can be in: the one a successful `appStartup`
leaves, and from there on any poll tick and any callback that returns. -/
inductive Reachable (E : Env) : World → Prop where
  | startup (w : World) (h : (appStartup w).1 = 0) : Reachable E (appStartup w).2
  | tick (w : World) (h : Reachable E w) : Reachable E (appLogic E w).2
  | submit (w : World) (ipRecv : IndiProperty) (rv : Int) (w1 : World) (h : Reachable E w)
      (hcb : newCallBack_m_indiP_position E w ipRecv = some (rv, w1)) : Reachable E w1

end smc100ccCtrl

/-!
# The host monitor `sysMonitor`

A shallow embedding of the parsing and threshold functions of
`src/apps/sysMonitor/sysMonitor.hpp`.  A `std::string` is the list of its
characters (bytes).  A `float` is the rational it denotes; the one division whose
divisor is read from the input, in `parseRamUsage`, has the IEEE results for a
zero divisor, and an `int` threshold that is compared with a `float` is
converted with `ieee754.toFloat`.  The quotients of `parseRamUsage` and
`parseDiskUsage` are the exact ones, which the code rounds to `float`.  `std::stof` is a parameter: it returns the number, or throws
`std::invalid_argument` or `std::out_of_range`.  A function that can let an
exception escape returns an `Except`.
-/

namespace sysMonitor

/-- A `std::string`. -/
abbrev Str := List Char

/-- The exceptions that the parsing functions meet. -/
inductive Exn where
  | invalid_argument
  | out_of_range
  deriving DecidableEq, Repr

/-- A `float` that a division can produce. -/
inductive FloatVal where
  | finite (q : ℚ)
  | posInf
  | negInf
  | nan
  deriving DecidableEq

/-- The member variables that the embedded functions read or write, with the
messages of `log<software_error>` (`logs`) and the lines written to `std::cout`
(`out`). -/
structure Monitor where
  m_warningCoreTemp : Int
  m_criticalCoreTemp : Int
  m_warningDiskTemp : Int
  m_criticalDiskTemp : Int
  logs : List Str
  out : List Str

/-- A call of `log<software_error>` with message `msg`. -/
def log (M : Monitor) (msg : Str) : Monitor :=
  { M with logs := M.logs ++ [msg] }

/-- The whitespace of `operator>>` in the "C" locale. -/
def isspace (c : Char) : Bool :=
  c = ' ' || c = '\t' || c = '\n' || c = '\x0b' || c = '\x0c' || c = '\r'

/-- The loop of `tokens`: `cur` is the token being read. -/
def tokensAux : Str → Str → List Str
  | [], cur => if cur = [] then [] else [cur]
  | c :: cs, cur =>
    if isspace c then
      if cur = [] then tokensAux cs [] else cur :: tokensAux cs []
    else tokensAux cs (cur ++ [c])

/-- The vector `tokens{std::istream_iterator<std::string>{iss}, {}}`: the
whitespace-separated words of the line. -/
def tokens (line : Str) : List Str :=
  tokensAux line []

/-- The division `a / b` of two finite floats. -/
def fdiv (a b : ℚ) : FloatVal :=
  if b = 0 then
    if 0 < a then FloatVal.posInf else if a < 0 then FloatVal.negInf else FloatVal.nan
  else FloatVal.finite (a / b)

/-- The comparison `x > 1`. -/
def FloatVal.gt_one : FloatVal → Bool
  | FloatVal.finite q => decide (1 < q)
  | FloatVal.posInf => true
  | FloatVal.negInf => false
  | FloatVal.nan => false

/-- The comparison `x == 0`. -/
def FloatVal.eq_zero : FloatVal → Bool
  | FloatVal.finite q => decide (q = 0)
  | _ => false

/-- The conversion of a `float` to `int`: truncation toward zero. -/
def truncToInt (q : ℚ) : Int :=
  Int.tdiv q.num q.den

/-- The loop of `criticalCoreTemperature`: the rest of `v`, `coreNum`, `rv`, and
the lines written so far.  A comparison of the `float` temperature with an `int`
threshold converts the threshold to `float`. -/
def criticalCoreTemperature_loop (M : Monitor) : List ℚ → Nat → Int → List Str → Int × List Str
  | [], _, rv, out => (rv, out)
  | temp :: v, coreNum, rv, out =>
    if ieee754.toFloat (M.m_warningCoreTemp : ℚ) ≤ temp
        ∧ temp < ieee754.toFloat (M.m_criticalCoreTemp : ℚ) then
      criticalCoreTemperature_loop M v (coreNum + 1) (if rv < 2 then 1 else rv)
        (out ++ ["Warning temperature for Core ".toList ++ (Nat.repr coreNum).toList])
    else if ieee754.toFloat (M.m_criticalCoreTemp : ℚ) ≤ temp then
      criticalCoreTemperature_loop M v (coreNum + 1) 2
        (out ++ ["Critical temperature for Core ".toList ++ (Nat.repr coreNum).toList])
    else
      criticalCoreTemperature_loop M v (coreNum + 1) rv out

/-- The function `sysMonitor::criticalCoreTemperature(std::vector<float>& v)`. -/
def criticalCoreTemperature (M : Monitor) (v : List ℚ) : Int × Monitor :=
  let r := criticalCoreTemperature_loop M v 0 0 M.out
  (r.1, { M with out := r.2 })

/-- The loop of `criticalDiskTemperature`: the rest of `v`, `rv`, and the lines
written so far.  A comparison of the `float` temperature with an `int` threshold
converts the threshold to `float`. -/
def criticalDiskTemperature_loop (M : Monitor) : List ℚ → Int → List Str → Int × List Str
  | [], rv, out => (rv, out)
  | temp :: v, rv, out =>
    if ieee754.toFloat (M.m_warningDiskTemp : ℚ) ≤ temp
        ∧ temp < ieee754.toFloat (M.m_criticalDiskTemp : ℚ) then
      criticalDiskTemperature_loop M v (if rv < 2 then 1 else rv)
        (out ++ ["Warning temperature for Disk".toList])
    else if ieee754.toFloat (M.m_criticalDiskTemp : ℚ) ≤ temp then
      criticalDiskTemperature_loop M v 2 (out ++ ["Critical temperature for Disk ".toList])
    else
      criticalDiskTemperature_loop M v rv out

/-- The function `sysMonitor::criticalDiskTemperature(std::vector<float>& v)`. -/
def criticalDiskTemperature (M : Monitor) (v : List ℚ) : Int × Monitor :=
  let r := criticalDiskTemperature_loop M v 0 M.out
  (r.1, { M with out := r.2 })

/-- The function `sysMonitor::parseRamUsage(std::string line, float& ramUsage)`:
the return value, the value of `ramUsage` after the call, the monitor.  Both
exception types are caught; `tokens.at(i)` throws `std::out_of_range` when the
line has no word `i`.  C++ leaves the order of the two operands of the division
open; the left one is evaluated first here, which matters only for whether a
failure is logged. -/
def parseRamUsage (stof : Str → Except Exn ℚ) (M : Monitor) (line : Str)
    (ramUsage : FloatVal) : Int × FloatVal × Monitor :=
  if line.length ≤ 1 then (-1, ramUsage, M)
  else
    match (tokens line)[0]? with
    | none => (-1, ramUsage, M)
    | some t0 =>
      if t0 ≠ "Mem:".toList then (-1, ramUsage, M)
      else
        match (tokens line)[2]? with
        | none => (-1, ramUsage, M)
        | some t2 =>
          match stof t2 with
          | Except.error Exn.invalid_argument =>
            (-1, ramUsage, log M "Invalid read occured when parsing RAM usage.".toList)
          | Except.error Exn.out_of_range => (-1, ramUsage, M)
          | Except.ok used =>
            match (tokens line)[1]? with
            | none => (-1, ramUsage, M)
            | some t1 =>
              match stof t1 with
              | Except.error Exn.invalid_argument =>
                (-1, ramUsage, log M "Invalid read occured when parsing RAM usage.".toList)
              | Except.error Exn.out_of_range => (-1, ramUsage, M)
              | Except.ok total =>
                if (fdiv used total).gt_one ∨ (fdiv used total).eq_zero then
                  (-1, FloatVal.finite (-1), M)
                else (0, fdiv used total, M)

/-- The body common to the three branches of `parseDiskUsage`:
`tokens.at(4).pop_back()` and the conversion `std::stof(tokens.at(4))/100`.  The
result is the return value, the usage when one is stored, and the monitor. -/
def parseDiskUsage_value (stof : Str → Except Exn ℚ) (M : Monitor) (toks : List Str) :
    Int × Option ℚ × Monitor :=
  match toks[4]? with
  | none => (-1, none, M)
  | some t4 =>
    match stof t4.dropLast with
    | Except.error Exn.invalid_argument =>
      (-1, none, log M "Invalid read occured when parsing drive usage.".toList)
    | Except.error Exn.out_of_range => (-1, none, M)
    | Except.ok v => (0, some (v / 100), M)

/-- The function `sysMonitor::parseDiskUsage(std::string line, float& rootUsage,
float& dataUsage, float& bootUsage)`: the return value, the three usages after
the call, the monitor. -/
def parseDiskUsage (stof : Str → Except Exn ℚ) (M : Monitor) (line : Str)
    (rootUsage dataUsage bootUsage : ℚ) : Int × ℚ × ℚ × ℚ × Monitor :=
  if line.length ≤ 1 then (-1, rootUsage, dataUsage, bootUsage, M)
  else
    match (tokens line)[5]? with
    | none => (-1, rootUsage, dataUsage, bootUsage, M)
    | some t5 =>
      if t5 = "/".toList then
        let r := parseDiskUsage_value stof M (tokens line)
        (r.1, r.2.1.getD rootUsage, dataUsage, bootUsage, r.2.2)
      else if t5 = "/data".toList then
        let r := parseDiskUsage_value stof M (tokens line)
        (r.1, rootUsage, r.2.1.getD dataUsage, bootUsage, r.2.2)
      else if t5 = "/boot".toList then
        let r := parseDiskUsage_value stof M (tokens line)
        (r.1, rootUsage, dataUsage, r.2.1.getD bootUsage, r.2.2)
      else (-1, rootUsage, dataUsage, bootUsage, M)

/-- The `try` blocks of `parseCPUTemperatures` that read a limit from word `i`
of the line: four `pop_back()`, `erase(0, 1)`, `std::stof`.  Only
`std::invalid_argument` is caught there (result `none`); `std::out_of_range`,
from `tokens.at(i)` or from `std::stof`, escapes.  A `pop_back()` on an empty
string, which C++ leaves undefined, does nothing here. -/
def readLimit (stof : Str → Except Exn ℚ) (toks : List Str) (i : Nat) :
    Except Exn (Option Int) :=
  match toks[i]? with
  | none => Except.error Exn.out_of_range
  | some t =>
    match stof (t.dropLast.dropLast.dropLast.dropLast.drop 1) with
    | Except.error Exn.invalid_argument => Except.ok none
    | Except.error Exn.out_of_range => Except.error Exn.out_of_range
    | Except.ok v => Except.ok (some (truncToInt v))

/-- The function `sysMonitor::parseCPUTemperatures(std::string line, float&
temps)`: the exception that escapes, or the return value, the value of `temps`
after the call, and the monitor.  `line.substr(17, 4)` throws
`std::out_of_range` when the line has fewer than 17 characters, outside every
`try`. -/
def parseCPUTemperatures (stof : Str → Except Exn ℚ) (M : Monitor) (line : Str) (temps : ℚ) :
    Except Exn (Int × ℚ × Monitor) :=
  if line.length ≤ 1 then Except.ok (-1, temps, M)
  else if line.take 5 = "Core ".toList then
    if line.length < 17 then Except.error Exn.out_of_range
    else
      match stof ((line.drop 17).take 4) with
      | Except.error Exn.invalid_argument =>
        Except.ok (-1, temps,
          log M "Invalid read occured when parsing CPU temperatures.".toList)
      | Except.error Exn.out_of_range => Except.error Exn.out_of_range
      | Except.ok temp =>
        match (if M.m_warningCoreTemp = 0 then readLimit stof (tokens line) 5
            else Except.ok (some M.m_warningCoreTemp)) with
        | Except.error e => Except.error e
        | Except.ok none =>
          Except.ok (-1, temp,
            log M "Invalid read occured when parsing warning CPU temperatures.".toList)
        | Except.ok (some warn) =>
          match (if M.m_criticalCoreTemp = 0 then readLimit stof (tokens line) 8
              else Except.ok (some M.m_criticalCoreTemp)) with
          | Except.error e => Except.error e
          | Except.ok none =>
            Except.ok (-1, temp,
              log { M with m_warningCoreTemp := warn }
                "Invalid read occured when parsing critical CPU temperatures.".toList)
          | Except.ok (some crit) =>
            Except.ok (0, temp, { M with m_warningCoreTemp := warn, m_criticalCoreTemp := crit })
  else Except.ok (-1, temps, M)

/-- The alarm level as the documentation of `criticalCoreTemperature` and
`criticalDiskTemperature` states it: `2` if a temperature is at or above `crit`,
otherwise `1` if one is at or above `warn`, otherwise `0`. -/
def alarmLevel (warn crit : ℚ) (v : List ℚ) : Int :=
  if v.any (fun t => decide (crit ≤ t)) then 2
  else if v.any (fun t => decide (warn ≤ t)) then 1
  else 0

/-- A number parser that knows the texts of the examples. -/
def tableStof (s : Str) : Except Exn ℚ :=
  if s = "100".toList then Except.ok 100
  else if s = "-50".toList then Except.ok (-50)
  else if s = "39".toList then Except.ok 39
  else Except.error Exn.invalid_argument

/-- A monitor with the thresholds `warn` and `crit` for cores and disks, nothing
logged, nothing written. -/
def freshMonitor (warn crit : Int) : Monitor where
  m_warningCoreTemp := warn
  m_criticalCoreTemp := crit
  m_warningDiskTemp := warn
  m_criticalDiskTemp := crit
  logs := []
  out := []

end sysMonitor

namespace ieee754

/-! ## Lemmas on rounding -/

/-- Rounding to an integer does not cross an integer from below. -/
theorem roundHalfEven_le (q : ℚ) (N : Int) (h : q ≤ N) : roundHalfEven q ≤ N := by
  have hfl : (⌊q⌋ : ℚ) ≤ q := Int.floor_le q
  have hf : ⌊q⌋ ≤ N := by exact_mod_cast hfl.trans h
  unfold roundHalfEven
  split_ifs with h1 h2 h3
  · exact hf
  · have h4 : (⌊q⌋ : ℚ) < N := by linarith
    have h5 : ⌊q⌋ < N := by exact_mod_cast h4
    omega
  · exact hf
  · have h4 : (⌊q⌋ : ℚ) < N := by linarith [not_lt.mp h1]
    have h5 : ⌊q⌋ < N := by exact_mod_cast h4
    omega

/-- Rounding to an integer does not cross an integer from above. -/
theorem le_roundHalfEven (q : ℚ) (N : Int) (h : (N : ℚ) ≤ q) : N ≤ roundHalfEven q := by
  have hf : N ≤ ⌊q⌋ := Int.le_floor.mpr h
  unfold roundHalfEven
  split_ifs <;> omega

/-- An integer rounds to itself. -/
theorem roundHalfEven_intCast (n : Int) : roundHalfEven (n : ℚ) = n :=
  le_antisymm (roundHalfEven_le _ _ le_rfl) (le_roundHalfEven _ _ le_rfl)

/-- Rounding to an integer, away from a tie. -/
theorem roundHalfEven_eq (q : ℚ) (n : Int) (h1 : (n : ℚ) - 1 / 2 < q) (h2 : q < n + 1 / 2) :
    roundHalfEven q = n := by
  unfold roundHalfEven
  by_cases hq : (n : ℚ) ≤ q
  · have hf : ⌊q⌋ = n := Int.floor_eq_iff.mpr ⟨hq, by linarith⟩
    rw [hf, if_pos (by linarith)]
  · have hf : ⌊q⌋ = n - 1 := Int.floor_eq_iff.mpr ⟨by push_cast; linarith, by push_cast; linarith⟩
    rw [hf, if_neg (by push_cast; linarith), if_pos (by push_cast; linarith)]
    omega

/-- Rounding to an integer, at a tie. -/
theorem roundHalfEven_tie (q : ℚ) (n : Int) (h : q = n + 1 / 2) :
    roundHalfEven q = if n % 2 = 0 then n else n + 1 := by
  have hf : ⌊q⌋ = n := Int.floor_eq_iff.mpr ⟨by linarith, by linarith⟩
  unfold roundHalfEven
  rw [hf, if_neg (by linarith), if_neg (by linarith)]

/-- Zero rounds to zero. -/
theorem roundBinary_zero (p : Nat) (emin : Int) : roundBinary p emin 0 = 0 := by
  unfold roundBinary
  simp only [zero_div]
  rw [show (0 : ℚ) = ((0 : Int) : ℚ) by norm_num, roundHalfEven_intCast]
  simp

/-- The binade of a magnitude below `2 ^ (e + 1)` is at most `e`. -/
theorem log_abs_lt (x : ℚ) (e : Int) (hx0 : x ≠ 0) (h : |x| < (2 : ℚ) ^ (e + 1)) :
    Int.log 2 |x| ≤ e := by
  have := (Int.lt_zpow_iff_log_lt (by norm_num : 1 < 2) (abs_pos.mpr hx0)).mp
    (by exact_mod_cast h : |x| < ((2 : ℕ) : ℚ) ^ (e + 1))
  omega

/-- A magnitude is at least the least value of its binade. -/
theorem zpow_log_abs_le (x : ℚ) (hx0 : x ≠ 0) : (2 : ℚ) ^ (Int.log 2 |x|) ≤ |x| := by
  have := Int.zpow_log_le_self (by norm_num : 1 < 2) (abs_pos.mpr hx0)
  exact_mod_cast this

/-- The binade of a magnitude of at least `2 ^ e` is at least `e`. -/
theorem le_log_abs (x : ℚ) (e : Int) (hx0 : x ≠ 0) (h : (2 : ℚ) ^ e ≤ |x|) :
    e ≤ Int.log 2 |x| :=
  (Int.zpow_le_iff_le_log (by norm_num : 1 < 2) (abs_pos.mpr hx0)).mp
    (by exact_mod_cast h : ((2 : ℕ) : ℚ) ^ e ≤ |x|)


/-- The unit of a binade splits the unit of a lower one. -/
theorem unit_split (p : Nat) (e ex : Int) (N : Int) (h : ex ≤ e) :
    (N : ℚ) * (2 : ℚ) ^ (e - (p - 1))
      = ((N * 2 ^ (e - ex).toNat : Int) : ℚ) * (2 : ℚ) ^ (ex - (p - 1)) := by
  have h2 : (2 : ℚ) ≠ 0 := by norm_num
  have hk : (((e - ex).toNat : Nat) : Int) = e - ex := Int.toNat_of_nonneg (by omega)
  push_cast
  rw [mul_assoc, ← zpow_natCast, hk, ← zpow_add₀ h2]
  congr 2
  ring

/-- The least value of a binade is `2 ^ (p - 1)` units. -/
theorem binade_units (p : Nat) (hp : 1 ≤ p) (l : Int) :
    (2 : ℚ) ^ l = (((2 : Int) ^ (p - 1) : Int) : ℚ) * (2 : ℚ) ^ (l - (p - 1)) := by
  have h2 : (2 : ℚ) ≠ 0 := by norm_num
  have hk : (((p - 1 : Nat) : Nat) : Int) = (p : Int) - 1 := by omega
  push_cast
  rw [← zpow_natCast, hk, ← zpow_add₀ h2]
  congr 1
  ring

/-- Rounding does not cross a value of the format from below. -/
theorem roundBinary_le (p : Nat) (emin : Int) (hp : 1 ≤ p) (x r : ℚ)
    (hr : Representable p emin r) (hx : x ≤ r) : roundBinary p emin x ≤ r := by
  obtain ⟨N, e, he, hN, hlt⟩ := hr
  by_cases hx0 : x = 0
  · rw [hx0, roundBinary_zero]
    rw [hx0] at hx
    exact hx
  have hu : ∀ z : Int, (0 : ℚ) < (2 : ℚ) ^ z := fun z => zpow_pos (by norm_num) z
  unfold roundBinary
  simp only []
  by_cases hcase : max (Int.log 2 |x|) emin ≤ e
  · have hM := unit_split p e (max (Int.log 2 |x|) emin) N hcase
    rw [← hN] at hM
    have h1 : x / (2 : ℚ) ^ (max (Int.log 2 |x|) emin - (p - 1))
        ≤ ((N * 2 ^ (e - max (Int.log 2 |x|) emin).toNat : Int) : ℚ) := by
      rw [div_le_iff₀ (hu _), ← hM]
      exact hx
    have h2 := roundHalfEven_le _ _ h1
    calc _ ≤ ((N * 2 ^ (e - max (Int.log 2 |x|) emin).toNat : Int) : ℚ)
          * (2 : ℚ) ^ (max (Int.log 2 |x|) emin - (p - 1)) :=
          mul_le_mul_of_nonneg_right (by exact_mod_cast h2) (hu _).le
      _ = r := hM.symm
  · have hmax : max (Int.log 2 |x|) emin = Int.log 2 |x| := by
      rcases max_cases (Int.log 2 |x|) emin with h | h <;> omega
    rw [hmax] at hcase ⊢
    have h2 := zpow_log_abs_le x hx0
    generalize Int.log 2 |x| = l at hcase h2 ⊢
    have h3 : (2 : ℚ) ^ (e + 1) ≤ (2 : ℚ) ^ l :=
      zpow_le_zpow_right₀ (by norm_num) (by omega)
    have hneg : x < 0 := by
      by_contra hc
      rw [abs_of_nonneg (not_lt.mp hc)] at h2
      linarith [le_abs_self r]
    rw [abs_of_neg hneg] at h2
    have hK := binade_units p hp l
    have h1 : x / (2 : ℚ) ^ (l - (p - 1)) ≤ ((-(2 : Int) ^ (p - 1) : Int) : ℚ) := by
      rw [div_le_iff₀ (hu _)]
      push_cast
      push_cast at hK
      rw [neg_mul, ← hK]
      linarith
    have h4 := roundHalfEven_le _ _ h1
    have h5 : (roundHalfEven (x / (2 : ℚ) ^ (l - (p - 1))) : ℚ) * (2 : ℚ) ^ (l - (p - 1))
        ≤ ((-(2 : Int) ^ (p - 1) : Int) : ℚ) * (2 : ℚ) ^ (l - (p - 1)) :=
      mul_le_mul_of_nonneg_right (by exact_mod_cast h4) (hu _).le
    have h6 : ((-(2 : Int) ^ (p - 1) : Int) : ℚ) * (2 : ℚ) ^ (l - (p - 1))
        = -(2 : ℚ) ^ l := by
      rw [hK]
      push_cast
      ring
    linarith [neg_abs_le r]

/-- Rounding does not cross a value of the format from above. -/
theorem le_roundBinary (p : Nat) (emin : Int) (hp : 1 ≤ p) (x r : ℚ)
    (hr : Representable p emin r) (hx : r ≤ x) : r ≤ roundBinary p emin x := by
  obtain ⟨N, e, he, hN, hlt⟩ := hr
  by_cases hx0 : x = 0
  · rw [hx0, roundBinary_zero]
    rw [hx0] at hx
    exact hx
  have hu : ∀ z : Int, (0 : ℚ) < (2 : ℚ) ^ z := fun z => zpow_pos (by norm_num) z
  unfold roundBinary
  simp only []
  by_cases hcase : max (Int.log 2 |x|) emin ≤ e
  · have hM := unit_split p e (max (Int.log 2 |x|) emin) N hcase
    rw [← hN] at hM
    have h1 : ((N * 2 ^ (e - max (Int.log 2 |x|) emin).toNat : Int) : ℚ)
        ≤ x / (2 : ℚ) ^ (max (Int.log 2 |x|) emin - (p - 1)) := by
      rw [le_div_iff₀ (hu _), ← hM]
      exact hx
    have h2 := le_roundHalfEven _ _ h1
    calc r = ((N * 2 ^ (e - max (Int.log 2 |x|) emin).toNat : Int) : ℚ)
          * (2 : ℚ) ^ (max (Int.log 2 |x|) emin - (p - 1)) := hM
      _ ≤ _ := mul_le_mul_of_nonneg_right (by exact_mod_cast h2) (hu _).le
  · have hmax : max (Int.log 2 |x|) emin = Int.log 2 |x| := by
      rcases max_cases (Int.log 2 |x|) emin with h | h <;> omega
    rw [hmax] at hcase ⊢
    have h2 := zpow_log_abs_le x hx0
    generalize Int.log 2 |x| = l at hcase h2 ⊢
    have h3 : (2 : ℚ) ^ (e + 1) ≤ (2 : ℚ) ^ l :=
      zpow_le_zpow_right₀ (by norm_num) (by omega)
    have hpos : 0 < x := by
      by_contra hc
      rw [abs_of_nonpos (not_lt.mp hc)] at h2
      linarith [neg_abs_le r]
    rw [abs_of_pos hpos] at h2
    have hK := binade_units p hp l
    have h1 : (((2 : Int) ^ (p - 1) : Int) : ℚ) ≤ x / (2 : ℚ) ^ (l - (p - 1)) := by
      rw [le_div_iff₀ (hu _), ← hK]
      exact h2
    have h4 := le_roundHalfEven _ _ h1
    have h5 : (((2 : Int) ^ (p - 1) : Int) : ℚ) * (2 : ℚ) ^ (l - (p - 1))
        ≤ (roundHalfEven (x / (2 : ℚ) ^ (l - (p - 1))) : ℚ) * (2 : ℚ) ^ (l - (p - 1)) :=
      mul_le_mul_of_nonneg_right (by exact_mod_cast h4) (hu _).le
    rw [← hK] at h5
    linarith [le_abs_self r]

/-- The values of a format are symmetric about zero. -/
theorem Representable.neg (p : Nat) (emin : Int) (r : ℚ) (hr : Representable p emin r) :
    Representable p emin (-r) := by
  obtain ⟨N, e, he, hN, hlt⟩ := hr
  refine ⟨-N, e, he, ?_, ?_⟩
  · rw [hN]
    push_cast
    ring
  · rw [abs_neg]
    exact hlt

/-- A value of the format rounds to itself. -/
theorem roundBinary_of_representable (p : Nat) (emin : Int) (hp : 1 ≤ p) (r : ℚ)
    (hr : Representable p emin r) : roundBinary p emin r = r :=
  le_antisymm (roundBinary_le p emin hp r r hr le_rfl) (le_roundBinary p emin hp r r hr le_rfl)

/-- Rounding keeps a magnitude at or below a value of the format. -/
theorem abs_roundBinary_le (p : Nat) (emin : Int) (hp : 1 ≤ p) (x r : ℚ)
    (hr : Representable p emin r) (hx : |x| ≤ r) : |roundBinary p emin x| ≤ r :=
  abs_le.mpr ⟨le_roundBinary p emin hp x (-r) (hr.neg) (abs_le.mp hx).1,
    roundBinary_le p emin hp x r hr (abs_le.mp hx).2⟩

/-- Rounding keeps a magnitude at or above a value of the format. -/
theorem le_abs_roundBinary (p : Nat) (emin : Int) (hp : 1 ≤ p) (x r : ℚ)
    (hr : Representable p emin r) (hx : r ≤ |x|) : r ≤ |roundBinary p emin x| := by
  rcases le_abs.mp hx with h | h
  · exact (le_roundBinary p emin hp x r hr h).trans (le_abs_self _)
  · have h1 := roundBinary_le p emin hp x (-r) (hr.neg) (by linarith)
    exact (by linarith : r ≤ -roundBinary p emin x).trans (neg_le_abs _)

/-- Rounding in a known binade. -/
theorem roundBinary_eq (p : Nat) (emin : Int) (x : ℚ) (e n : Int) (he : emin ≤ e)
    (h1 : (2 : ℚ) ^ e ≤ |x|) (h2 : |x| < (2 : ℚ) ^ (e + 1))
    (hn : roundHalfEven (x / (2 : ℚ) ^ (e - (p - 1))) = n) :
    roundBinary p emin x = n * (2 : ℚ) ^ (e - (p - 1)) := by
  have hx0 : x ≠ 0 := by
    intro h
    rw [h, abs_zero] at h1
    exact absurd h1 (not_le.mpr (zpow_pos (by norm_num) e))
  have hl : Int.log 2 |x| = e :=
    le_antisymm (log_abs_lt x e hx0 h2) (le_log_abs x e hx0 h1)
  unfold roundBinary
  simp only []
  rw [hl, max_eq_left he, hn]

/-- An integer of magnitude at most `2 ^ 24` is a `float`. -/
theorem representable_int (n : Int) (h : |n| ≤ 2 ^ 24) : Representable 24 (-126) (n : ℚ) := by
  by_cases h1 : |n| < 2 ^ 24
  · refine ⟨n, 23, by norm_num, by norm_num, ?_⟩
    have : |(n : ℚ)| < 2 ^ 24 := by exact_mod_cast h1
    norm_num
    exact this
  · have h2 : |n| = 2 ^ 24 := le_antisymm h (not_lt.mp h1)
    have h3 : n = 2 ^ 24 ∨ n = -2 ^ 24 := by
      rcases abs_cases n with ⟨h4, _⟩ | ⟨h4, _⟩ <;> omega
    rcases h3 with h3 | h3
    · refine ⟨2 ^ 23, 24, by norm_num, ?_, ?_⟩ <;> rw [h3] <;> norm_num
    · refine ⟨-2 ^ 23, 24, by norm_num, ?_, ?_⟩ <;> rw [h3] <;> norm_num

/-- An integer of magnitude at most `2 ^ 24` converts to `float` exactly. -/
theorem toFloat_int (n : Int) (h : |n| ≤ 2 ^ 24) : toFloat (n : ℚ) = n :=
  roundBinary_of_representable 24 (-126) (by norm_num) _ (representable_int n h)

/-- The integer `2 ^ 24 + 1` converts to the `float` `2 ^ 24`. -/
theorem toFloat_16777217 : toFloat 16777217 = 16777216 := by
  have h := roundBinary_eq 24 (-126) 16777217 24 8388608 (by norm_num)
    (by norm_num [abs_of_pos]) (by norm_num [abs_of_pos])
    (by
      rw [roundHalfEven_tie _ 8388608 (by norm_num)]
      decide)
  unfold toFloat
  rw [h]
  norm_num

/-- The `double` nearest to `0.05`. -/
theorem toDouble_0_05 : toDouble 0.05 = 7205759403792794 / 144115188075855872 := by
  have h := roundBinary_eq 53 (-1022) 0.05 (-5) 7205759403792794 (by norm_num)
    (by norm_num [abs_of_pos]) (by norm_num [abs_of_pos])
    (roundHalfEven_eq _ _ (by norm_num) (by norm_num))
  unfold toDouble
  rw [h]
  norm_num

/-- The `float` nearest to the `double` nearest to `0.05`. -/
theorem toFloat_toDouble_0_05 : toFloat (toDouble 0.05) = 13421773 / 268435456 := by
  rw [toDouble_0_05]
  have h := roundBinary_eq 24 (-126) (7205759403792794 / 144115188075855872) (-5) 13421773
    (by norm_num) (by norm_num [abs_of_pos]) (by norm_num [abs_of_pos])
    (roundHalfEven_eq _ _ (by norm_num) (by norm_num))
  unfold toFloat
  rw [h]
  norm_num

/-- The `float` nearest to `0.05` is a `double`. -/
theorem representable_0_05f : Representable 53 (-1022) (13421773 / 268435456) :=
  ⟨13421773 * 2 ^ 29, -5, by norm_num, by norm_num, by norm_num [abs_of_pos]⟩

end ieee754

namespace smc100ccCtrl

/-! ## Lemmas -/

@[simp] theorem log_m_state (w : World) (k : LogKind) (l : Nat) (m : Str) :
    (log w k l m).m_state = w.m_state := rfl

@[simp] theorem log_trace (w : World) (k : LogKind) (l : Nat) (m : Str) :
    (log w k l m).trace = w.trace := rfl

@[simp] theorem log_m_target (w : World) (k : LogKind) (l : Nat) (m : Str) :
    (log w k l m).m_target = w.m_target := rfl

@[simp] theorem log_logs (w : World) (k : LogKind) (l : Nat) (m : Str) :
    (log w k l m).logs = w.logs ++ [⟨k, l, m⟩] := rfl

@[simp] theorem state_m_state (w : World) (s : stateCodes) : (state w s).m_state = s := by
  unfold state
  split
  · assumption
  · rfl

@[simp] theorem state_trace (w : World) (s : stateCodes) : (state w s).trace = w.trace := by
  unfold state
  split <;> rfl

@[simp] theorem state_m_target (w : World) (s : stateCodes) :
    (state w s).m_target = w.m_target := by
  unfold state
  split <;> rfl

@[simp] theorem state_logs (w : World) (s : stateCodes) : (state w s).logs = w.logs := by
  unfold state
  split <;> rfl

theorem state_same (w : World) : state w w.m_state = w := by
  simp [state]

@[simp] theorem stateLogged_m_state (w : World) : (stateLogged w).2.m_state = w.m_state := rfl

@[simp] theorem stateLogged_trace (w : World) : (stateLogged w).2.trace = w.trace := rfl

@[simp] theorem stateLogged_m_target (w : World) :
    (stateLogged w).2.m_target = w.m_target := rfl

@[simp] theorem stateLogged_logs (w : World) : (stateLogged w).2.logs = w.logs := rfl

@[simp] theorem getDeviceName_m_state (E : Env) (w : World) :
    (getDeviceName E w).2.m_state = w.m_state := rfl

@[simp] theorem getDeviceName_trace (E : Env) (w : World) :
    (getDeviceName E w).2.trace = w.trace ++ [Event.getDeviceName] := rfl

@[simp] theorem getDeviceName_rv (E : Env) (w : World) :
    (getDeviceName E w).1 = (E.getDeviceName w.trace.length).1 := rfl

@[simp] theorem ttyWriteRead_rv (E : Env) (w : World) (b : Str) :
    (ttyWriteRead E w b).1 = (E.ttyWriteRead w.trace.length b).1 := rfl

@[simp] theorem ttyWriteRead_output (E : Env) (w : World) (b : Str) :
    (ttyWriteRead E w b).2.1 = (E.ttyWriteRead w.trace.length b).2 := rfl

@[simp] theorem ttyWriteRead_m_state (E : Env) (w : World) (b : Str) :
    (ttyWriteRead E w b).2.2.m_state = w.m_state := rfl

@[simp] theorem ttyWriteRead_trace (E : Env) (w : World) (b : Str) :
    (ttyWriteRead E w b).2.2.trace = w.trace ++ [Event.ttyWriteRead b] := rfl

@[simp] theorem ttyWriteRead_m_target (E : Env) (w : World) (b : Str) :
    (ttyWriteRead E w b).2.2.m_target = w.m_target := rfl

@[simp] theorem ttyWriteRead_logs (E : Env) (w : World) (b : Str) :
    (ttyWriteRead E w b).2.2.logs = w.logs := rfl

@[simp] theorem ttyWrite_rv (E : Env) (w : World) (b : Str) :
    (ttyWrite E w b).1 = E.ttyWrite w.trace.length b := rfl

@[simp] theorem ttyWrite_m_state (E : Env) (w : World) (b : Str) :
    (ttyWrite E w b).2.m_state = w.m_state := rfl

@[simp] theorem ttyWrite_trace (E : Env) (w : World) (b : Str) :
    (ttyWrite E w b).2.trace = w.trace ++ [Event.ttyWrite b] := rfl

@[simp] theorem ttyWrite_m_target (E : Env) (w : World) (b : Str) :
    (ttyWrite E w b).2.m_target = w.m_target := rfl

@[simp] theorem ttyWrite_logs (E : Env) (w : World) (b : Str) :
    (ttyWrite E w b).2.logs = w.logs := rfl

/-- The error query changes neither the state nor the target, and is one
exchange on the line. -/
theorem getLastError_frame (E : Env) (w : World) (s : Str) :
    (getLastError E w s).2.2.m_state = w.m_state
      ∧ (getLastError E w s).2.2.m_target = w.m_target
      ∧ (getLastError E w s).2.2.trace = w.trace ++ [Event.ttyWriteRead buffer_TE]
      ∧ (getLastError E w s).2.2.logs = w.logs := by
  unfold getLastError
  simp only []
  split
  · simp
  · split
    · simp
    · split
      · simp
      · split <;> simp

@[simp] theorem getLastError_m_state (E : Env) (w : World) (s : Str) :
    (getLastError E w s).2.2.m_state = w.m_state := (getLastError_frame E w s).1

@[simp] theorem getLastError_m_target (E : Env) (w : World) (s : Str) :
    (getLastError E w s).2.2.m_target = w.m_target := (getLastError_frame E w s).2.1

@[simp] theorem getLastError_trace (E : Env) (w : World) (s : Str) :
    (getLastError E w s).2.2.trace = w.trace ++ [Event.ttyWriteRead buffer_TE] :=
  (getLastError_frame E w s).2.2.1

@[simp] theorem getLastError_logs (E : Env) (w : World) (s : Str) :
    (getLastError E w s).2.2.logs = w.logs := (getLastError_frame E w s).2.2.2

/-- The position query changes neither the state nor the target, and is one
exchange on the line. -/
theorem getPosition_frame (E : Env) (w : World) (c : ℚ) :
    (getPosition E w c).2.2.m_state = w.m_state
      ∧ (getPosition E w c).2.2.m_target = w.m_target
      ∧ (getPosition E w c).2.2.trace = w.trace ++ [Event.ttyWriteRead buffer_TP] := by
  unfold getPosition
  simp only []
  split
  · simp
  · split <;> simp

@[simp] theorem getPosition_m_state (E : Env) (w : World) (c : ℚ) :
    (getPosition E w c).2.2.m_state = w.m_state := (getPosition_frame E w c).1

@[simp] theorem getPosition_m_target (E : Env) (w : World) (c : ℚ) :
    (getPosition E w c).2.2.m_target = w.m_target := (getPosition_frame E w c).2.1

@[simp] theorem getPosition_trace (E : Env) (w : World) (c : ℚ) :
    (getPosition E w c).2.2.trace = w.trace ++ [Event.ttyWriteRead buffer_TP] :=
  (getPosition_frame E w c).2.2

/-- A failed liveness test returns `-1`, keeps the state and the target, and is
one exchange on the line. -/
theorem testConnection_fail (E : Env) (w : World)
    (h : (E.ttyWriteRead w.trace.length buffer_TS).1 ≠ E.TTY_E_NOERROR
      ∨ (E.ttyWriteRead w.trace.length buffer_TS).2.take 7 ≠ "1TS0000".toList) :
    (testConnection E w).1 = -1 ∧ (testConnection E w).2.m_state = w.m_state
      ∧ (testConnection E w).2.m_target = w.m_target
      ∧ (testConnection E w).2.trace = w.trace ++ [Event.ttyWriteRead buffer_TS] := by
  unfold testConnection
  simp only []
  split
  · simp
  · split
    · rename_i h1 h2
      rcases h with h | h
      · exact absurd h (by simpa using h1)
      · exact absurd h2 (by simpa using h)
    · simp

/-- A passed liveness test outside `CONNECTED` returns `0` and only records the
exchange. -/
theorem testConnection_pass (E : Env) (w : World)
    (hrv : (E.ttyWriteRead w.trace.length buffer_TS).1 = E.TTY_E_NOERROR)
    (hout : (E.ttyWriteRead w.trace.length buffer_TS).2.take 7 = "1TS0000".toList)
    (hs : w.m_state ≠ stateCodes.CONNECTED) :
    testConnection E w = (0, (ttyWriteRead E w buffer_TS).2.2) := by
  unfold testConnection
  simp [hrv, hout, hs]

/-- A tick that starts in `CONNECTED`, `READY` or `OPERATING` skips the first two
blocks of `appLogic`. -/
theorem appLogic_of_connected (E : Env) (w : World)
    (h : w.m_state = stateCodes.CONNECTED ∨ w.m_state = stateCodes.READY
      ∨ w.m_state = stateCodes.OPERATING) :
    appLogic E w = ((appLogic_ERROR E (appLogic_CONNECTED E w)).1.getD 0,
      (appLogic_ERROR E (appLogic_CONNECTED E w)).2) := by
  have h1 : w.m_state ≠ stateCodes.INITIALIZED := by rcases h with h | h | h <;> simp [h]
  have h2 : w.m_state ≠ stateCodes.NODEVICE := by rcases h with h | h | h <;> simp [h]
  have h3 : w.m_state ≠ stateCodes.NOTCONNECTED := by rcases h with h | h | h <;> simp [h]
  unfold appLogic
  simp only [h1, if_false, appLogic_NODEVICE, h2, appLogic_NOTCONNECTED, h3]
  cases (appLogic_ERROR E (appLogic_CONNECTED E w)).1 <;> rfl

/-- The `ERROR` block does nothing outside `ERROR`. -/
theorem appLogic_ERROR_of_ne (E : Env) (w : World) (h : w.m_state ≠ stateCodes.ERROR) :
    appLogic_ERROR E w = (none, w) := by
  unfold appLogic_ERROR
  simp [h]

/-- The world after the `CONNECTED` block when the liveness test fails. -/
theorem appLogic_CONNECTED_fail (E : Env) (w : World)
    (h0 : w.m_state = stateCodes.CONNECTED ∨ w.m_state = stateCodes.READY
      ∨ w.m_state = stateCodes.OPERATING)
    (h : (E.ttyWriteRead w.trace.length buffer_TS).1 ≠ E.TTY_E_NOERROR
      ∨ (E.ttyWriteRead w.trace.length buffer_TS).2.take 7 ≠ "1TS0000".toList) :
    (appLogic_CONNECTED E w).m_state = stateCodes.NOTCONNECTED
      ∧ (appLogic_CONNECTED E w).trace
        = w.trace ++ [Event.ttyWriteRead buffer_TS, Event.ttyWriteRead buffer_TE] := by
  obtain ⟨t1, -, -, t4⟩ := testConnection_fail E w h
  unfold appLogic_CONNECTED
  simp only [h0, if_true, t1]
  simp only [ne_eq, show ¬ ((-1 : Int) = 0) by decide, not_false_eq_true, if_true]
  split <;> simp [t4]

/-- The tolerance of `checkPosition` as a rational: the `float` nearest to
`0.05`, a little above `1/20`. -/
theorem error_band_eq : error_band = 13421773 / 268435456 :=
  ieee754.toFloat_toDouble_0_05

/-- A difference of magnitude at most the tolerance passes the test of
`checkPosition`: the rounding of the subtraction does not lift it above. -/
theorem within_error_band (x : ℚ) (h : |x| ≤ 13421773 / 268435456) :
    |ieee754.toDouble x| ≤ error_band := by
  rw [error_band_eq]
  exact ieee754.abs_roundBinary_le 53 (-1022) (by norm_num) x _ ieee754.representable_0_05f h

/-- A difference of magnitude at least `r`, a `double` above the tolerance,
fails the test of `checkPosition`. -/
theorem beyond_error_band (x r : ℚ) (hr : ieee754.Representable 53 (-1022) r)
    (hlt : 13421773 / 268435456 < r) (h : r ≤ |x|) :
    |ieee754.toDouble x| > error_band := by
  rw [error_band_eq]
  exact lt_of_lt_of_le hlt (ieee754.le_abs_roundBinary 53 (-1022) (by norm_num) x r hr h)

/-- A difference of magnitude at least `1/2` fails the test of `checkPosition`. -/
theorem beyond_error_band_half (x : ℚ) (h : 1 / 2 ≤ |x|) :
    |ieee754.toDouble x| > error_band :=
  beyond_error_band x (1 / 2)
    ⟨2 ^ 52, -1, by norm_num, by norm_num, by norm_num [abs_of_pos]⟩ (by norm_num) h

/-- The check of a stopped stage that is off target: `-1`, an error logged, the
state kept. -/
theorem checkPosition_mismatch (E : Env) (w : World) (current : ℚ)
    (hrv : (E.ttyWriteRead w.trace.length buffer_TS).1 = E.TTY_E_NOERROR)
    (hout : (E.ttyWriteRead w.trace.length buffer_TS).2.take 9 ≠ "1TS000028".toList)
    (hband : |ieee754.toDouble (w.m_target - current)| > error_band) :
    (checkPosition E w current).1 = -1
      ∧ (checkPosition E w current).2.m_state = w.m_state
      ∧ (checkPosition E w current).2.trace = w.trace ++ [Event.ttyWriteRead buffer_TS] := by
  unfold checkPosition
  simp only [ttyWriteRead_rv, ttyWriteRead_output, ttyWriteRead_m_target]
  rw [if_neg (not_not.mpr hrv), if_neg hout, if_pos hband]
  simp

/-- The check of a stopped stage whose computed difference is within the
tolerance: `0`, state `READY`. -/
theorem checkPosition_reached_band (E : Env) (w : World) (current : ℚ)
    (hrv : (E.ttyWriteRead w.trace.length buffer_TS).1 = E.TTY_E_NOERROR)
    (hout : (E.ttyWriteRead w.trace.length buffer_TS).2.take 9 ≠ "1TS000028".toList)
    (hband : |ieee754.toDouble (w.m_target - current)| ≤ error_band) :
    (checkPosition E w current).1 = 0
      ∧ (checkPosition E w current).2.m_state = stateCodes.READY
      ∧ (checkPosition E w current).2.trace = w.trace ++ [Event.ttyWriteRead buffer_TS] := by
  unfold checkPosition
  simp only [ttyWriteRead_rv, ttyWriteRead_output, ttyWriteRead_m_target]
  rw [if_neg (not_not.mpr hrv), if_neg hout, if_neg (not_lt.mpr hband)]
  simp

/-- The check of a stopped stage that is on target: `0`, state `READY`. -/
theorem checkPosition_reached (E : Env) (w : World) (current : ℚ)
    (hrv : (E.ttyWriteRead w.trace.length buffer_TS).1 = E.TTY_E_NOERROR)
    (hout : (E.ttyWriteRead w.trace.length buffer_TS).2.take 9 ≠ "1TS000028".toList)
    (hband : |w.m_target - current| ≤ 0.05) :
    (checkPosition E w current).1 = 0
      ∧ (checkPosition E w current).2.m_state = stateCodes.READY
      ∧ (checkPosition E w current).2.trace = w.trace ++ [Event.ttyWriteRead buffer_TS] :=
  checkPosition_reached_band E w current hrv hout
    (within_error_band _ (hband.trans (by norm_num)))

/-- The check of a moving stage: `0`, nothing changed but the record of the
exchange. -/
theorem checkPosition_moving (E : Env) (w : World) (current : ℚ)
    (hrv : (E.ttyWriteRead w.trace.length buffer_TS).1 = E.TTY_E_NOERROR)
    (hout : (E.ttyWriteRead w.trace.length buffer_TS).2.take 9 = "1TS000028".toList) :
    checkPosition E w current = (0, (ttyWriteRead E w buffer_TS).2.2) := by
  unfold checkPosition
  simp only [ttyWriteRead_rv, ttyWriteRead_output]
  rw [if_neg (not_not.mpr hrv), if_pos hout]

theorem appLogic_CONNECTED_split (E : Env) (w : World)
    (h0 : w.m_state = stateCodes.CONNECTED ∨ w.m_state = stateCodes.READY
      ∨ w.m_state = stateCodes.OPERATING)
    (ht : (testConnection E w).1 = 0) :
    appLogic_CONNECTED E w = appLogic_afterCheck E
      (checkPosition E (appLogic_beforeCheck E w) (appLogic_current E w)) := by
  unfold appLogic_CONNECTED appLogic_afterCheck appLogic_beforeCheck appLogic_current
  simp only [h0, if_true, ht, ne_eq, not_true_eq_false, if_false]

theorem appLogic_beforeCheck_frame (E : Env) (w : World)
    (hrv : (E.ttyWriteRead w.trace.length buffer_TS).1 = E.TTY_E_NOERROR)
    (hout : (E.ttyWriteRead w.trace.length buffer_TS).2.take 7 = "1TS0000".toList)
    (hs : w.m_state ≠ stateCodes.CONNECTED) :
    (appLogic_beforeCheck E w).m_state = w.m_state
      ∧ (appLogic_beforeCheck E w).m_target = w.m_target
      ∧ (appLogic_beforeCheck E w).trace = w.trace ++ [Event.ttyWriteRead buffer_TS,
          Event.ttyWriteRead buffer_TP, Event.ttyWriteRead buffer_TE] := by
  unfold appLogic_beforeCheck
  simp only [testConnection_pass E w hrv hout hs]
  refine ⟨?_, ?_, ?_⟩ <;> split <;> split <;> simp

theorem appLogic_afterCheck_frame (E : Env) (c : Int × World) :
    (appLogic_afterCheck E c).m_state = c.2.m_state
      ∧ (appLogic_afterCheck E c).m_target = c.2.m_target
      ∧ (appLogic_afterCheck E c).trace = c.2.trace ++ [Event.ttyWriteRead buffer_TE] := by
  unfold appLogic_afterCheck
  simp only []
  refine ⟨?_, ?_, ?_⟩ <;> split_ifs <;> simp

theorem appLogic_afterCheck_logs (E : Env) (c : Int × World) (h : c.1 ≠ 0) :
    (⟨LogKind.software_error, 335, "There's been an error with movement.".toList⟩ : LogEntry)
      ∈ (appLogic_afterCheck E c).logs := by
  unfold appLogic_afterCheck
  simp only [h, ne_eq, not_false_eq_true, if_true]
  split_ifs <;> simp

/-- A reply that starts with the moving status starts with the all-clear
header. -/
theorem take7_of_take9 (r : Str) (h : r.take 9 = "1TS000028".toList) :
    r.take 7 = "1TS0000".toList := by
  have h1 : (r.take 9).take 7 = r.take 7 := by
    rw [List.take_take]
    rfl
  rw [← h1, h]
  rfl

/-- A tick from `READY` or `OPERATING` with a passing liveness test ends in the
state in which its `checkPosition` leaves it, and returns `0` unless that state
is `ERROR`. -/
theorem appLogic_pass (E : Env) (w : World)
    (h0 : w.m_state = stateCodes.READY ∨ w.m_state = stateCodes.OPERATING)
    (hrv : (E.ttyWriteRead w.trace.length buffer_TS).1 = E.TTY_E_NOERROR)
    (hout : (E.ttyWriteRead w.trace.length buffer_TS).2.take 7 = "1TS0000".toList)
    (hne : (checkPosition E (appLogic_beforeCheck E w) (appLogic_current E w)).2.m_state
      ≠ stateCodes.ERROR) :
    appLogic E w = (0, appLogic_afterCheck E
      (checkPosition E (appLogic_beforeCheck E w) (appLogic_current E w))) := by
  have hs : w.m_state ≠ stateCodes.CONNECTED := by rcases h0 with h | h <;> simp [h]
  have ht : (testConnection E w).1 = 0 := by rw [testConnection_pass E w hrv hout hs]
  rw [appLogic_of_connected E w (Or.inr h0), appLogic_CONNECTED_split E w (Or.inr h0) ht,
    appLogic_ERROR_of_ne]
  · rfl
  · rw [(appLogic_afterCheck_frame E _).1]
    exact hne

/-- The tick's status query of `checkPosition` is its fourth exchange. -/
theorem appLogic_beforeCheck_length (E : Env) (w : World)
    (h0 : w.m_state = stateCodes.READY ∨ w.m_state = stateCodes.OPERATING)
    (hrv : (E.ttyWriteRead w.trace.length buffer_TS).1 = E.TTY_E_NOERROR)
    (hout : (E.ttyWriteRead w.trace.length buffer_TS).2.take 7 = "1TS0000".toList) :
    (appLogic_beforeCheck E w).trace.length = w.trace.length + 3 := by
  have hs : w.m_state ≠ stateCodes.CONNECTED := by rcases h0 with h | h <;> simp [h]
  rw [(appLogic_beforeCheck_frame E w hrv hout hs).2.2]
  simp

/-- A tick in `OPERATING` whose stage has stopped off target: the check returns
`-1`, the error is logged, the state stays `OPERATING`, the tick returns `0`. -/
theorem appLogic_OPERATING_mismatch (E : Env) (w : World)
    (h0 : w.m_state = stateCodes.OPERATING)
    (hrv : (E.ttyWriteRead w.trace.length buffer_TS).1 = E.TTY_E_NOERROR)
    (hout : (E.ttyWriteRead w.trace.length buffer_TS).2.take 7 = "1TS0000".toList)
    (hrv2 : (E.ttyWriteRead (w.trace.length + 3) buffer_TS).1 = E.TTY_E_NOERROR)
    (hout2 : (E.ttyWriteRead (w.trace.length + 3) buffer_TS).2.take 9 ≠ "1TS000028".toList)
    (hband : |ieee754.toDouble (w.m_target - appLogic_current E w)| > error_band) :
    (checkPosition E (appLogic_beforeCheck E w) (appLogic_current E w)).1 = -1
      ∧ (appLogic E w).2.m_state = stateCodes.OPERATING
      ∧ (appLogic E w).1 = 0
      ∧ (⟨LogKind.software_error, 335, "There's been an error with movement.".toList⟩ :
          LogEntry) ∈ (appLogic E w).2.logs := by
  have hs : w.m_state ≠ stateCodes.CONNECTED := by simp [h0]
  have hf := appLogic_beforeCheck_frame E w hrv hout hs
  have hl := appLogic_beforeCheck_length E w (Or.inr h0) hrv hout
  have hc := checkPosition_mismatch E (appLogic_beforeCheck E w) (appLogic_current E w)
    (by rw [hl]; exact hrv2) (by rw [hl]; exact hout2) (by rw [hf.2.1]; exact hband)
  have hst : (checkPosition E (appLogic_beforeCheck E w) (appLogic_current E w)).2.m_state
      = stateCodes.OPERATING := by rw [hc.2.1, hf.1, h0]
  have ha := appLogic_pass E w (Or.inr h0) hrv hout (by rw [hst]; decide)
  refine ⟨hc.1, ?_, ?_, ?_⟩
  · rw [ha]
    show (appLogic_afterCheck E _).m_state = _
    rw [(appLogic_afterCheck_frame E _).1, hst]
  · rw [ha]
  · rw [ha]
    exact appLogic_afterCheck_logs E _ (by rw [hc.1]; decide)

/-- A tick in `OPERATING` whose stage is moving keeps the state. -/
theorem appLogic_OPERATING_moving (E : Env) (w : World)
    (h0 : w.m_state = stateCodes.OPERATING)
    (hrv : (E.ttyWriteRead w.trace.length buffer_TS).1 = E.TTY_E_NOERROR)
    (hout : (E.ttyWriteRead w.trace.length buffer_TS).2.take 9 = "1TS000028".toList)
    (hrv2 : (E.ttyWriteRead (w.trace.length + 3) buffer_TS).1 = E.TTY_E_NOERROR)
    (hout2 : (E.ttyWriteRead (w.trace.length + 3) buffer_TS).2.take 9 = "1TS000028".toList) :
    (appLogic E w).2.m_state = stateCodes.OPERATING
      ∧ (appLogic E w).1 = 0
      ∧ (checkPosition E (appLogic_beforeCheck E w) (appLogic_current E w)).1 = 0 := by
  have hs : w.m_state ≠ stateCodes.CONNECTED := by simp [h0]
  have hout7 := take7_of_take9 _ hout
  have hf := appLogic_beforeCheck_frame E w hrv hout7 hs
  have hl := appLogic_beforeCheck_length E w (Or.inr h0) hrv hout7
  have hc := checkPosition_moving E (appLogic_beforeCheck E w) (appLogic_current E w)
    (by rw [hl]; exact hrv2) (by rw [hl]; exact hout2)
  have hst : (checkPosition E (appLogic_beforeCheck E w) (appLogic_current E w)).2.m_state
      = stateCodes.OPERATING := by rw [hc]; simp [hf.1, h0]
  have ha := appLogic_pass E w (Or.inr h0) hrv hout7 (by rw [hst]; decide)
  refine ⟨?_, ?_, ?_⟩
  · rw [ha]
    show (appLogic_afterCheck E _).m_state = _
    rw [(appLogic_afterCheck_frame E _).1, hst]
  · rw [ha]
  · rw [hc]

/-- Outside the case labels the switch sets nothing. -/
theorem errorSwitch_of_not_mem (c : Char) (h : c ∉ caseLabels) : errorSwitch c = none := by
  simp only [caseLabels, List.mem_cons, List.mem_singleton, List.not_mem_nil, or_false,
    not_or] at h
  obtain ⟨hA, hB, hC, hD, hE, hF, hG, hH, hI, hJ, hK, hL, hM, hN, hS, hU, hV, hW, hX⟩ := h
  unfold errorSwitch
  rw [if_neg hA, if_neg hB, if_neg hC, if_neg hD, if_neg hE, if_neg hF, if_neg hG, if_neg hH,
    if_neg hI, if_neg hJ, if_neg hK, if_neg hL, if_neg hM, if_neg hN, if_neg hS, if_neg hU,
    if_neg hV, if_neg hW, if_neg hX]

/-- At a case label the switch sets a message that is not empty. -/
theorem errorSwitch_of_mem (c : Char) (h : c ∈ caseLabels) :
    ∃ m : Str, errorSwitch c = some m ∧ m ≠ [] := by
  simp only [caseLabels, List.mem_cons, List.mem_singleton, List.not_mem_nil, or_false] at h
  rcases h with h | h | h | h | h | h | h | h | h | h | h | h | h | h | h | h | h | h | h <;>
    subst h <;> exact ⟨_, rfl, by decide⟩

/-- The three outcomes of `getLastError` after a successful exchange. -/
theorem getLastError_char (E : Env) (w : World) (s : Str) (c : Char)
    (hrv : (E.ttyWriteRead w.trace.length buffer_TE).1 = E.TTY_E_NOERROR)
    (hc : (E.ttyWriteRead w.trace.length buffer_TE).2[3]? = some c) :
    (getLastError E w s).1 = (if c = '@' then 0 else -1)
      ∧ (getLastError E w s).2.1 = (if c = '@' then s else (errorSwitch c).getD s) := by
  unfold getLastError
  simp only [ttyWriteRead_rv, ttyWriteRead_output, hrv, hc, ne_eq, not_true_eq_false, if_false]
  by_cases h : c = '@'
  · simp [h]
  · simp only [h, if_false]
    cases errorSwitch c <;> simp

theorem not_at_of_mem_caseLabels (c : Char) (h : c ∈ caseLabels) : c ≠ '@' := by
  intro hc
  subst hc
  revert h
  decide

/-- The recognised characters are the case labels of the switch. -/
theorem recognised_iff (c : Char) : recognised c ↔ c ∈ caseLabels := by
  constructor
  · rintro ⟨hne, msg, hmsg, h⟩
    by_contra hmem
    have hnone : errorSwitch c = none := errorSwitch_of_not_mem c hmem
    have hE := h (fixedEnv (0, []) 0 0 (fun _ => (0, ['1', 'T', 'E', c])) fixedStof)
      (freshWorld stateCodes.READY 0) [] rfl rfl
    have hg := getLastError_char (fixedEnv (0, []) 0 0 (fun _ => (0, ['1', 'T', 'E', c])) fixedStof)
      (freshWorld stateCodes.READY 0) [] c rfl rfl
    rw [hg.2, if_neg hne, hnone] at hE
    exact hmsg hE.2.symm
  · intro hmem
    refine ⟨not_at_of_mem_caseLabels c hmem, ?_⟩
    obtain ⟨m, hsw, hm⟩ := errorSwitch_of_mem c hmem
    refine ⟨m, hm, ?_⟩
    intro E w s hrv hc
    have hg := getLastError_char E w s c hrv hc
    rw [if_neg (not_at_of_mem_caseLabels c hmem)] at hg
    rw [if_neg (not_at_of_mem_caseLabels c hmem), hsw] at hg
    exact ⟨hg.1, hg.2⟩

/-- The two outcomes of `moveToPosition`. -/
theorem moveToPosition_spec (E : Env) (w : World) (pos : ℚ) :
    (moveToPosition E w pos).2.m_target = w.m_target
      ∧ (moveToPosition E w pos).2.trace = w.trace ++ Event.ttyWrite (buffer_PA E pos) ::
          (if E.ttyWrite w.trace.length (buffer_PA E pos) = E.TTY_E_NOERROR
            then [Event.ttyWriteRead buffer_TE] else [])
      ∧ (E.ttyWrite w.trace.length (buffer_PA E pos) = E.TTY_E_NOERROR →
          (moveToPosition E w pos).2.m_state = stateCodes.OPERATING)
      ∧ (E.ttyWrite w.trace.length (buffer_PA E pos) ≠ E.TTY_E_NOERROR →
          (moveToPosition E w pos).2.m_state = w.m_state ∧ (moveToPosition E w pos).1 = -1) := by
  unfold moveToPosition
  simp only [ttyWrite_rv]
  by_cases h : E.ttyWrite w.trace.length (buffer_PA E pos) = E.TTY_E_NOERROR
  · simp only [h, ne_eq, not_true_eq_false, if_false, if_true]
    refine ⟨?_, ?_, ?_, ?_⟩
    · split_ifs <;> simp
    · split_ifs <;> simp
    · intro _
      split_ifs <;> simp
    · intro h1
      exact h1.elim
  · simp [h]

/-- The callback outside `OPERATING`, for an effective target above zero: it
returns what `moveToPosition` returns, after recording the target. -/
theorem newCallBack_move (E : Env) (w : World) (ipRecv : IndiProperty) (t : ℚ)
    (hname : ipRecv.name = m_indiP_position_name)
    (heff : (if ipRecv.target.getD (-99) = -99 then ipRecv.current.getD (-99)
      else ipRecv.target.getD (-99)) = t)
    (hpos : 0 < t) (hs : w.m_state ≠ stateCodes.OPERATING) :
    ∃ (rv : Int) (w1 : World),
      newCallBack_m_indiP_position E w ipRecv = some (rv, w1)
        ∧ w1.m_target = t
        ∧ w1.trace = w.trace ++ Event.ttyWrite (buffer_PA E t) ::
            (if E.ttyWrite w.trace.length (buffer_PA E t) = E.TTY_E_NOERROR
              then [Event.ttyWriteRead buffer_TE] else [])
        ∧ (E.ttyWrite w.trace.length (buffer_PA E t) = E.TTY_E_NOERROR →
            w1.m_state = stateCodes.OPERATING)
        ∧ (E.ttyWrite w.trace.length (buffer_PA E t) ≠ E.TTY_E_NOERROR →
            w1.m_state = w.m_state ∧ rv = -1) := by
  have hm := moveToPosition_spec E { w with indi_target := some t, m_target := t } t
  refine ⟨_, _, ?_, hm.1, hm.2.1, hm.2.2.1, hm.2.2.2⟩
  unfold newCallBack_m_indiP_position
  simp only [hname, if_true, heff, not_le.mpr hpos, if_false, hs]

/-- The callback for an effective target at or below zero. -/
theorem newCallBack_ignore (E : Env) (w : World) (ipRecv : IndiProperty)
    (hname : ipRecv.name = m_indiP_position_name)
    (heff : (if ipRecv.target.getD (-99) = -99 then ipRecv.current.getD (-99)
      else ipRecv.target.getD (-99)) ≤ 0) :
    newCallBack_m_indiP_position E w ipRecv = some (0, w) := by
  unfold newCallBack_m_indiP_position
  simp only [hname, if_true, heff]

/-- The `NODEVICE` block when udev does not list the device. -/
theorem appLogic_NODEVICE_absent (E : Env) (w : World)
    (h0 : w.m_state = stateCodes.NODEVICE)
    (habs : (E.getDeviceName w.trace.length).1 = E.TTY_E_DEVNOTFOUND
      ∨ (E.getDeviceName w.trace.length).1 = E.TTY_E_NODEVNAMES) :
    (appLogic_NODEVICE E w).1 = some 0
      ∧ (appLogic_NODEVICE E w).2.m_state = stateCodes.NODEVICE
      ∧ (appLogic_NODEVICE E w).2.trace = w.trace ++ [Event.getDeviceName] := by
  have h1 : ¬ ((E.getDeviceName w.trace.length).1 < 0
      ∧ (E.getDeviceName w.trace.length).1 ≠ E.TTY_E_DEVNOTFOUND
      ∧ (E.getDeviceName w.trace.length).1 ≠ E.TTY_E_NODEVNAMES) := by
    rintro ⟨-, h2, h3⟩
    rcases habs with h | h
    · exact h2 h
    · exact h3 h
  unfold appLogic_NODEVICE
  rw [if_pos h0]
  simp only [getDeviceName_rv]
  rw [if_neg h1, if_pos habs]
  refine ⟨rfl, ?_, ?_⟩ <;> split_ifs <;> simp

/-- A tick whose `NODEVICE` block returns. -/
theorem appLogic_of_NODEVICE_return (E : Env) (w : World) (rv : Int)
    (hI : w.m_state ≠ stateCodes.INITIALIZED) (h : (appLogic_NODEVICE E w).1 = some rv) :
    appLogic E w = (rv, (appLogic_NODEVICE E w).2) := by
  unfold appLogic
  rw [if_neg hI]
  simp only [h]

/-- A reply too short to hold a status character: `-1`. -/
theorem getLastError_short (E : Env) (w : World) (s : Str)
    (hrv : (E.ttyWriteRead w.trace.length buffer_TE).1 = E.TTY_E_NOERROR)
    (hc : (E.ttyWriteRead w.trace.length buffer_TE).2[3]? = none) :
    (getLastError E w s).1 = -1 := by
  unfold getLastError
  simp only [ttyWriteRead_rv, ttyWriteRead_output, hrv, hc, ne_eq, not_true_eq_false, if_false]

/-- A failed exchange: `-1`, and the error string is the text of the tty code. -/
theorem getLastError_transport (E : Env) (w : World) (s : Str)
    (hrv : (E.ttyWriteRead w.trace.length buffer_TE).1 ≠ E.TTY_E_NOERROR) :
    (getLastError E w s).1 = -1
      ∧ (getLastError E w s).2.1
        = E.ttyErrorString (E.ttyWriteRead w.trace.length buffer_TE).1 := by
  unfold getLastError
  simp only [ttyWriteRead_rv, ttyWriteRead_output, hrv, ne_eq, not_false_eq_true, if_true]
  exact ⟨trivial, trivial⟩

/-! ## Properties of the specification -/

/-- C1. A poll tick of `appLogic` that begins in `NODEVICE` and in which
`getDeviceName` reports the device absent (`TTY_E_DEVNOTFOUND` or
`TTY_E_NODEVNAMES`) returns `0` and ends in `NODEVICE` (so not in `FAILURE`), and
its only call to the outside is the discovery: no `connect`, no tty read or
write. -/
theorem C1_absent_device_stays_NODEVICE (E : Env) (w : World)
    (h0 : w.m_state = stateCodes.NODEVICE)
    (habs : (E.getDeviceName w.trace.length).1 = E.TTY_E_DEVNOTFOUND
      ∨ (E.getDeviceName w.trace.length).1 = E.TTY_E_NODEVNAMES) :
    (appLogic E w).1 = 0
      ∧ (appLogic E w).2.m_state = stateCodes.NODEVICE
      ∧ (appLogic E w).2.m_state ≠ stateCodes.FAILURE
      ∧ (appLogic E w).2.trace = w.trace ++ [Event.getDeviceName] := by
  have key := appLogic_NODEVICE_absent E w h0 habs
  have ha := appLogic_of_NODEVICE_return E w 0 (by simp [h0]) key.1
  rw [ha]
  refine ⟨rfl, key.2.1, ?_, key.2.2⟩
  show (appLogic_NODEVICE E w).2.m_state ≠ _
  rw [key.2.1]
  decide

/-- C1 at a concrete input: udev reports `TTY_E_DEVNOTFOUND` to a controller in
`NODEVICE`. -/
theorem C1_absent_device_witness :
    (appLogic absentEnv (freshWorld stateCodes.NODEVICE 0)).1 = 0
      ∧ (appLogic absentEnv (freshWorld stateCodes.NODEVICE 0)).2.m_state = stateCodes.NODEVICE
      ∧ (appLogic absentEnv (freshWorld stateCodes.NODEVICE 0)).2.m_state ≠ stateCodes.FAILURE
      ∧ (appLogic absentEnv (freshWorld stateCodes.NODEVICE 0)).2.trace
        = (freshWorld stateCodes.NODEVICE 0).trace ++ [Event.getDeviceName] :=
  C1_absent_device_stays_NODEVICE absentEnv (freshWorld stateCodes.NODEVICE 0) rfl
    (Or.inl (by decide))

/-- C2. A poll tick that begins in `CONNECTED`, `READY` or `OPERATING` and whose
liveness test fails (the status exchange fails, or the first seven characters of
the reply are not `1TS0000`) returns `0` and ends in `NOTCONNECTED`, not in
`FAILURE`. -/
theorem C2_failed_liveness_demotes (E : Env) (w : World)
    (h0 : w.m_state = stateCodes.CONNECTED ∨ w.m_state = stateCodes.READY
      ∨ w.m_state = stateCodes.OPERATING)
    (hfail : (E.ttyWriteRead w.trace.length buffer_TS).1 ≠ E.TTY_E_NOERROR
      ∨ (E.ttyWriteRead w.trace.length buffer_TS).2.take 7 ≠ "1TS0000".toList) :
    (appLogic E w).1 = 0
      ∧ (appLogic E w).2.m_state = stateCodes.NOTCONNECTED
      ∧ (appLogic E w).2.m_state ≠ stateCodes.FAILURE := by
  have hc := appLogic_CONNECTED_fail E w h0 hfail
  have ha : appLogic E w = (0, appLogic_CONNECTED E w) := by
    rw [appLogic_of_connected E w h0, appLogic_ERROR_of_ne]
    · rfl
    · rw [hc.1]
      decide
  rw [ha]
  refine ⟨rfl, hc.1, ?_⟩
  show (appLogic_CONNECTED E w).m_state ≠ _
  rw [hc.1]
  decide

/-- C2 at a concrete input: a controller in `READY` whose status exchange times
out. -/
theorem C2_failed_liveness_witness :
    (appLogic deadEnv (freshWorld stateCodes.READY 0)).1 = 0
      ∧ (appLogic deadEnv (freshWorld stateCodes.READY 0)).2.m_state = stateCodes.NOTCONNECTED
      ∧ (appLogic deadEnv (freshWorld stateCodes.READY 0)).2.m_state ≠ stateCodes.FAILURE :=
  C2_failed_liveness_demotes deadEnv (freshWorld stateCodes.READY 0) (Or.inr (Or.inl rfl))
    (Or.inl (by decide))

/-- C4. For every current position and target with `|target - current| <= 0.05`
(an absolute difference) and every status reply that does not report motion,
`checkPosition` returns `0` and sets the state to `READY`. -/
theorem C4_within_tolerance_READY (E : Env) (w : World) (current : ℚ)
    (hrv : (E.ttyWriteRead w.trace.length buffer_TS).1 = E.TTY_E_NOERROR)
    (hout : (E.ttyWriteRead w.trace.length buffer_TS).2.take 9 ≠ "1TS000028".toList)
    (hband : |w.m_target - current| ≤ 0.05) :
    (checkPosition E w current).1 = 0
      ∧ (checkPosition E w current).2.m_state = stateCodes.READY :=
  ⟨(checkPosition_reached E w current hrv hout hband).1,
    (checkPosition_reached E w current hrv hout hband).2.1⟩

/-- C4 at the example of the claim: status reply `1TS00000A`, position `10.02`,
target `10`, starting in `OPERATING`. -/
theorem C4_within_tolerance_witness :
    (checkPosition stoppedAt10_02 (freshWorld stateCodes.OPERATING 10) 10.02).1 = 0
      ∧ (checkPosition stoppedAt10_02 (freshWorld stateCodes.OPERATING 10) 10.02).2.m_state
        = stateCodes.READY :=
  C4_within_tolerance_READY stoppedAt10_02 (freshWorld stateCodes.OPERATING 10) 10.02
    (by decide) (by decide) (by norm_num [freshWorld, abs_le])

/-- C5. A poll tick that begins in `OPERATING` in which both status queries of
the tick (its first and its fourth exchange) return a reply that begins
`1TS000028` ends in `OPERATING` and returns `0`, and its `checkPosition` returns
`0`, whatever the position read and the target are. -/
theorem C5_moving_stays_OPERATING (E : Env) (w : World)
    (h0 : w.m_state = stateCodes.OPERATING)
    (hrv : (E.ttyWriteRead w.trace.length buffer_TS).1 = E.TTY_E_NOERROR)
    (hout : (E.ttyWriteRead w.trace.length buffer_TS).2.take 9 = "1TS000028".toList)
    (hrv2 : (E.ttyWriteRead (w.trace.length + 3) buffer_TS).1 = E.TTY_E_NOERROR)
    (hout2 : (E.ttyWriteRead (w.trace.length + 3) buffer_TS).2.take 9 = "1TS000028".toList) :
    (appLogic E w).2.m_state = stateCodes.OPERATING
      ∧ (appLogic E w).1 = 0
      ∧ (checkPosition E (appLogic_beforeCheck E w) (appLogic_current E w)).1 = 0 :=
  appLogic_OPERATING_moving E w h0 hrv hout hrv2 hout2

/-- C5 at a concrete input: the stage reports `1TS000028` while the position
read, `9.5`, is far from the target `10`. -/
theorem C5_moving_witness :
    (appLogic movingEnv (freshWorld stateCodes.OPERATING 10)).2.m_state = stateCodes.OPERATING
      ∧ (appLogic movingEnv (freshWorld stateCodes.OPERATING 10)).1 = 0
      ∧ (checkPosition movingEnv
          (appLogic_beforeCheck movingEnv (freshWorld stateCodes.OPERATING 10))
          (appLogic_current movingEnv (freshWorld stateCodes.OPERATING 10))).1 = 0 :=
  C5_moving_stays_OPERATING movingEnv (freshWorld stateCodes.OPERATING 10) rfl
    (by decide) (by decide) (by decide) (by decide)

/-- C6. `getLastError` returns `0` ("no error") if and only if the exchange
succeeded and the reply has the character `'@'` at offset 3; in every other case,
in particular for a character at offset 3 that no case handles, it returns
`-1`. -/
theorem C6_no_error_iff_at (E : Env) (w : World) (errorString : Str) :
    ((getLastError E w errorString).1 = 0 ↔
        ((E.ttyWriteRead w.trace.length buffer_TE).1 = E.TTY_E_NOERROR
          ∧ (E.ttyWriteRead w.trace.length buffer_TE).2[3]? = some '@'))
      ∧ ((getLastError E w errorString).1 = 0 ∨ (getLastError E w errorString).1 = -1) := by
  by_cases hrv : (E.ttyWriteRead w.trace.length buffer_TE).1 = E.TTY_E_NOERROR
  · cases hc : (E.ttyWriteRead w.trace.length buffer_TE).2[3]? with
    | none =>
      rw [getLastError_short E w errorString hrv hc]
      simp
    | some c =>
      rw [(getLastError_char E w errorString c hrv hc).1]
      by_cases h : c = '@'
      · simp [h, hrv]
      · simp [h]
  · rw [(getLastError_transport E w errorString hrv).1]
    simp [hrv]

/-- C7, the claim refuted: no set of exactly 18 characters is the set of the
characters that `getLastError` recognises. -/
theorem C7_counterexample_not_eighteen :
    ¬ ∃ S : Finset Char, S.card = 18 ∧ ∀ c : Char, c ∈ S ↔ recognised c := by
  rintro ⟨S, hcard, hS⟩
  have hEq : S = caseLabels.toFinset := by
    ext c
    rw [hS c, recognised_iff, List.mem_toFinset]
  rw [hEq, List.toFinset_card_of_nodup (by decide)] at hcard
  exact absurd hcard (by decide)

/-- C7 as amended. The alphabet of device error characters that `getLastError`
recognises has exactly 19 members: the characters `c`, other than `'@'`, for
which a reply with `c` at offset 3 makes `getLastError` return `-1` and set
`errorString` to the non-empty description of `c` are the 19 distinct case labels
`A` to `N`, `S`, `U`, `V`, `W`, `X`, and the descriptions of different labels
differ. -/
theorem C7_nineteen_codes :
    (∀ c : Char, recognised c ↔ c ∈ caseLabels)
      ∧ caseLabels.Nodup
      ∧ caseLabels.length = 19
      ∧ (caseLabels.map errorSwitch).Nodup :=
  ⟨recognised_iff, by decide, rfl, by decide⟩

/-- C8, the code at the failing input: the exchange succeeds with the reply
`1TEZ`, and `getLastError` returns `-1` while the caller's empty `errorString`
is still empty. -/
theorem C8_unknown_code_leaves_errorString :
    (getLastError unknownCodeEnv (freshWorld stateCodes.READY 0) []).1 = -1
      ∧ (getLastError unknownCodeEnv (freshWorld stateCodes.READY 0) []).2.1 = [] := by
  decide

/-- C9. For every target above zero delivered to the callback of the `position`
property while the state is `READY`, the callback returns, exactly one
move-absolute frame, carrying that target, is written to the transport (followed
by the error query when the write succeeds, and by nothing otherwise), `m_target`
is that target, and when the write succeeds the state is `OPERATING`. -/
theorem C9_submit_while_READY (E : Env) (w : World) (ipRecv : IndiProperty) (t : ℚ)
    (hname : ipRecv.name = m_indiP_position_name)
    (htarget : ipRecv.target = some t) (hpos : 0 < t)
    (hs : w.m_state = stateCodes.READY) :
    ∃ (rv : Int) (w1 : World),
      newCallBack_m_indiP_position E w ipRecv = some (rv, w1)
        ∧ w1.m_target = t
        ∧ w1.trace = w.trace ++ Event.ttyWrite (buffer_PA E t) ::
            (if E.ttyWrite w.trace.length (buffer_PA E t) = E.TTY_E_NOERROR
              then [Event.ttyWriteRead buffer_TE] else [])
        ∧ (E.ttyWrite w.trace.length (buffer_PA E t) = E.TTY_E_NOERROR →
            w1.m_state = stateCodes.OPERATING) := by
  have hne : t ≠ -99 := by
    intro h
    rw [h] at hpos
    exact absurd hpos (by norm_num)
  have heff : (if ipRecv.target.getD (-99) = -99 then ipRecv.current.getD (-99)
      else ipRecv.target.getD (-99)) = t := by
    rw [htarget]
    simp [hne]
  obtain ⟨rv, w1, h1, h2, h3, h4, -⟩ :=
    newCallBack_move E w ipRecv t hname heff hpos (by rw [hs]; decide)
  exact ⟨rv, w1, h1, h2, h3, h4⟩

/-- C9 at a concrete input: target `10` submitted to a controller in `READY`
whose transport accepts the write. -/
theorem C9_submit_witness :
    ∃ (rv : Int) (w1 : World),
      newCallBack_m_indiP_position stoppedAt9_5 (freshWorld stateCodes.READY 0)
          (notification none (some 10)) = some (rv, w1)
        ∧ w1.m_target = 10
        ∧ w1.trace = (freshWorld stateCodes.READY 0).trace
            ++ Event.ttyWrite (buffer_PA stoppedAt9_5 10) ::
            (if stoppedAt9_5.ttyWrite (freshWorld stateCodes.READY 0).trace.length
                (buffer_PA stoppedAt9_5 10) = stoppedAt9_5.TTY_E_NOERROR
              then [Event.ttyWriteRead buffer_TE] else [])
        ∧ (stoppedAt9_5.ttyWrite (freshWorld stateCodes.READY 0).trace.length
              (buffer_PA stoppedAt9_5 10) = stoppedAt9_5.TTY_E_NOERROR →
            w1.m_state = stateCodes.OPERATING) :=
  C9_submit_while_READY stoppedAt9_5 (freshWorld stateCodes.READY 0)
    (notification none (some 10)) 10 rfl rfl (by norm_num) rfl

/-- C10, the claim refuted: a notification whose target element is `-99` (at or
below zero) and whose current element is `10` makes the callback write a
move-absolute frame and set `m_target` to `10`. -/
theorem C10_counterexample_sentinel_target :
    (-99 : ℚ) ≤ 0
      ∧ ∃ (rv : Int) (w1 : World),
        newCallBack_m_indiP_position stoppedAt9_5 (freshWorld stateCodes.READY 0)
            (notification (some 10) (some (-99))) = some (rv, w1)
          ∧ w1.m_target = 10
          ∧ w1.m_target ≠ (freshWorld stateCodes.READY 0).m_target
          ∧ w1.m_state = stateCodes.OPERATING
          ∧ w1.trace = [Event.ttyWrite (buffer_PA stoppedAt9_5 10),
              Event.ttyWriteRead buffer_TE] := by
  refine ⟨by norm_num, ?_⟩
  obtain ⟨rv, w1, h1, h2, h3, h4, -⟩ := newCallBack_move stoppedAt9_5
    (freshWorld stateCodes.READY 0) (notification (some 10) (some (-99))) 10 rfl
    (by simp [notification]) (by norm_num) (by decide)
  refine ⟨rv, w1, h1, h2, ?_, h4 rfl, ?_⟩
  · rw [h2]
    norm_num [freshWorld]
  · rw [h3]
    rfl

/-- C10 as amended. For every notification for the `position` property whose
target element is at or below zero, except one whose target element is exactly
`-99` while its current element is above zero, the callback returns `0`, writes
no frame, and leaves the state and `m_target` (the whole world) unchanged,
whatever the current element is. -/
theorem C10_nonpositive_target_ignored (E : Env) (w : World) (ipRecv : IndiProperty) (t : ℚ)
    (hname : ipRecv.name = m_indiP_position_name)
    (htarget : ipRecv.target = some t) (hle : t ≤ 0)
    (hsentinel : t = -99 → ipRecv.current.getD (-99) ≤ 0) :
    newCallBack_m_indiP_position E w ipRecv = some (0, w) := by
  apply newCallBack_ignore E w ipRecv hname
  rw [htarget]
  by_cases h : t = -99
  · simpa [h] using hsentinel h
  · simpa [h] using hle

/-- C10 as amended, at a concrete input: target element `0`, current element
`7`. -/
theorem C10_nonpositive_target_witness :
    newCallBack_m_indiP_position stoppedAt9_5 (freshWorld stateCodes.READY 0)
        (notification (some 7) (some 0))
      = some (0, freshWorld stateCodes.READY 0) :=
  C10_nonpositive_target_ignored stoppedAt9_5 (freshWorld stateCodes.READY 0)
    (notification (some 7) (some 0)) 0 rfl rfl (le_refl 0) (by norm_num)

/-! ## Lemmas on states and traces -/

theorem Extends.refl (P : Event → Prop) (w : World) : Extends P w w :=
  ⟨[], by simp, by simp⟩

theorem Extends.same {P : Event → Prop} {w w1 w2 : World} (h : Extends P w w1)
    (ht : w2.trace = w1.trace) : Extends P w w2 := by
  obtain ⟨l, hl, hP⟩ := h
  exact ⟨l, by rw [ht, hl], hP⟩

theorem Extends.step {P : Event → Prop} {w w1 w2 : World} (h : Extends P w w1) (e : Event)
    (ht : w2.trace = w1.trace ++ [e]) (he : P e) : Extends P w w2 := by
  obtain ⟨l, hl, hP⟩ := h
  refine ⟨l ++ [e], by rw [ht, hl, List.append_assoc], ?_⟩
  intro x hx
  rcases List.mem_append.mp hx with hx | hx
  · exact hP x hx
  · rw [List.mem_singleton.mp hx]
    exact he

theorem Extends.trans {P : Event → Prop} {w w1 w2 : World} (h : Extends P w w1)
    (h2 : Extends P w1 w2) : Extends P w w2 := by
  obtain ⟨l, hl, hP⟩ := h
  obtain ⟨l2, hl2, hP2⟩ := h2
  refine ⟨l ++ l2, by rw [hl2, hl, List.append_assoc], ?_⟩
  intro x hx
  rcases List.mem_append.mp hx with hx | hx
  · exact hP x hx
  · exact hP2 x hx

theorem Extends.mono {P Q : Event → Prop} {w w1 : World} (h : Extends P w w1)
    (hPQ : ∀ e, P e → Q e) : Extends Q w w1 := by
  obtain ⟨l, hl, hP⟩ := h
  exact ⟨l, hl, fun e he => hPQ e (hP e he)⟩

/-- The added events of an extension are the trace after the old length. -/
theorem Extends.drop {P : Event → Prop} {w w1 : World} (h : Extends P w w1) :
    ∀ e ∈ w1.trace.drop w.trace.length, P e := by
  obtain ⟨l, hl, hP⟩ := h
  rw [hl, List.drop_left]
  exact hP

/-- The two outcomes of `setUpMoving`. -/
theorem setUpMoving_spec (E : Env) (w : World) :
    (setUpMoving E w).2.trace = w.trace ++ [Event.ttyWrite buffer_OR]
      ∧ (setUpMoving E w).2.m_target = w.m_target
      ∧ (E.ttyWrite w.trace.length buffer_OR = E.TTY_E_NOERROR →
          (setUpMoving E w).1 = 0 ∧ (setUpMoving E w).2.m_state = stateCodes.READY)
      ∧ (E.ttyWrite w.trace.length buffer_OR ≠ E.TTY_E_NOERROR →
          (setUpMoving E w).1 = -1 ∧ (setUpMoving E w).2.m_state = w.m_state) := by
  unfold setUpMoving
  simp only [ttyWrite_rv]
  by_cases h : E.ttyWrite w.trace.length buffer_OR = E.TTY_E_NOERROR
  · rw [if_neg (not_not.mpr h)]
    exact ⟨by simp, by simp, fun _ => ⟨rfl, by simp⟩, fun h1 => absurd h h1⟩
  · rw [if_pos h]
    exact ⟨by simp, by simp, fun h1 => absurd h1 h, fun _ => ⟨rfl, by simp⟩⟩

/-- The liveness test passes exactly when the exchange succeeds with a reply
that starts `1TS0000`; otherwise it returns `-1`. -/
theorem testConnection_rv (E : Env) (w : World) :
    ((testConnection E w).1 = 0 ↔
        ((E.ttyWriteRead w.trace.length buffer_TS).1 = E.TTY_E_NOERROR
          ∧ (E.ttyWriteRead w.trace.length buffer_TS).2.take 7 = "1TS0000".toList))
      ∧ ((testConnection E w).1 = 0 ∨ (testConnection E w).1 = -1) := by
  unfold testConnection
  simp only [ttyWriteRead_rv, ttyWriteRead_output]
  by_cases h1 : (E.ttyWriteRead w.trace.length buffer_TS).1 = E.TTY_E_NOERROR
  · rw [if_neg (not_not.mpr h1)]
    by_cases h2 : (E.ttyWriteRead w.trace.length buffer_TS).2.take 7 = "1TS0000".toList
    · rw [if_pos h2]
      exact ⟨⟨fun _ => ⟨h1, h2⟩, fun _ => rfl⟩, Or.inl rfl⟩
    · rw [if_neg h2]
      exact ⟨⟨fun h => absurd (show (-1 : Int) = 0 from h) (by decide),
        fun h => absurd h.2 h2⟩, Or.inr rfl⟩
  · rw [if_pos h1]
    exact ⟨⟨fun h => absurd (show (-1 : Int) = 0 from h) (by decide),
      fun h => absurd h.1 h1⟩, Or.inr rfl⟩

/-- A passed liveness test in `CONNECTED` runs `setUpMoving`. -/
theorem testConnection_pass_CONNECTED (E : Env) (w : World)
    (hrv : (E.ttyWriteRead w.trace.length buffer_TS).1 = E.TTY_E_NOERROR)
    (hout : (E.ttyWriteRead w.trace.length buffer_TS).2.take 7 = "1TS0000".toList)
    (hs : w.m_state = stateCodes.CONNECTED) :
    testConnection E w = (0, (setUpMoving E (ttyWriteRead E w buffer_TS).2.2).2) := by
  unfold testConnection
  simp only [ttyWriteRead_rv, ttyWriteRead_output, ttyWriteRead_m_state]
  rw [if_neg (not_not.mpr hrv), if_pos hout, if_pos hs]

/-- The liveness test keeps the target; it keeps the state, or takes `CONNECTED`
to `READY`; its events are the status query and at most the home command. -/
theorem testConnection_general (E : Env) (w : World) :
    (testConnection E w).2.m_target = w.m_target
      ∧ ((testConnection E w).2.m_state = w.m_state
        ∨ (w.m_state = stateCodes.CONNECTED
          ∧ (testConnection E w).2.m_state = stateCodes.READY))
      ∧ ((testConnection E w).2.trace = w.trace ++ [Event.ttyWriteRead buffer_TS]
        ∨ (w.m_state = stateCodes.CONNECTED ∧ (testConnection E w).1 = 0
          ∧ (testConnection E w).2.trace
            = w.trace ++ [Event.ttyWriteRead buffer_TS, Event.ttyWrite buffer_OR])) := by
  by_cases hp : (E.ttyWriteRead w.trace.length buffer_TS).1 = E.TTY_E_NOERROR
      ∧ (E.ttyWriteRead w.trace.length buffer_TS).2.take 7 = "1TS0000".toList
  · by_cases hs : w.m_state = stateCodes.CONNECTED
    · have ht := testConnection_pass_CONNECTED E w hp.1 hp.2 hs
      have hm := setUpMoving_spec E (ttyWriteRead E w buffer_TS).2.2
      rw [ht]
      refine ⟨by rw [hm.2.1]; simp, ?_, Or.inr ⟨hs, rfl, by rw [hm.1]; simp⟩⟩
      by_cases hw : E.ttyWrite (ttyWriteRead E w buffer_TS).2.2.trace.length buffer_OR
          = E.TTY_E_NOERROR
      · exact Or.inr ⟨hs, (hm.2.2.1 hw).2⟩
      · exact Or.inl (by rw [(hm.2.2.2 hw).2]; simp)
    · rw [testConnection_pass E w hp.1 hp.2 hs]
      exact ⟨by simp, Or.inl (by simp), Or.inl (by simp)⟩
  · have hf := testConnection_fail E w (by
      by_cases h1 : (E.ttyWriteRead w.trace.length buffer_TS).1 = E.TTY_E_NOERROR
      · exact Or.inr (fun h2 => hp ⟨h1, h2⟩)
      · exact Or.inl h1)
    exact ⟨hf.2.2.1, Or.inl hf.2.1, Or.inl hf.2.2.2⟩

/-- The check keeps the target; it keeps the state or sets `READY`; it is one
status query. -/
theorem checkPosition_general (E : Env) (w : World) (c : ℚ) :
    (checkPosition E w c).2.m_target = w.m_target
      ∧ ((checkPosition E w c).2.m_state = w.m_state
        ∨ (checkPosition E w c).2.m_state = stateCodes.READY)
      ∧ (checkPosition E w c).2.trace = w.trace ++ [Event.ttyWriteRead buffer_TS] := by
  unfold checkPosition
  simp only []
  split_ifs <;> simp

/-- The world before the check, in terms of the world after the liveness
test. -/
theorem appLogic_beforeCheck_general (E : Env) (w : World) :
    (appLogic_beforeCheck E w).m_state = (testConnection E w).2.m_state
      ∧ (appLogic_beforeCheck E w).m_target = (testConnection E w).2.m_target
      ∧ (appLogic_beforeCheck E w).trace = (testConnection E w).2.trace
          ++ [Event.ttyWriteRead buffer_TP, Event.ttyWriteRead buffer_TE] := by
  unfold appLogic_beforeCheck
  simp only []
  refine ⟨?_, ?_, ?_⟩ <;> split_ifs <;> simp

/-- A failed liveness test, in terms of the return value of `testConnection`. -/
theorem testConnection_ne_zero (E : Env) (w : World) (h : (testConnection E w).1 ≠ 0) :
    (E.ttyWriteRead w.trace.length buffer_TS).1 ≠ E.TTY_E_NOERROR
      ∨ (E.ttyWriteRead w.trace.length buffer_TS).2.take 7 ≠ "1TS0000".toList := by
  by_cases h1 : (E.ttyWriteRead w.trace.length buffer_TS).1 = E.TTY_E_NOERROR
  · exact Or.inr (fun h2 => h ((testConnection_rv E w).1.mpr ⟨h1, h2⟩))
  · exact Or.inl h1

/-- The state after the `CONNECTED` block of a tick that starts in a connected
state. -/
theorem appLogic_CONNECTED_state (E : Env) (w : World)
    (h0 : w.m_state = stateCodes.CONNECTED ∨ w.m_state = stateCodes.READY
      ∨ w.m_state = stateCodes.OPERATING) :
    (appLogic_CONNECTED E w).m_state = stateCodes.NOTCONNECTED
      ∨ (appLogic_CONNECTED E w).m_state = stateCodes.CONNECTED
      ∨ (appLogic_CONNECTED E w).m_state = stateCodes.READY
      ∨ (appLogic_CONNECTED E w).m_state = stateCodes.OPERATING := by
  by_cases ht : (testConnection E w).1 = 0
  · rw [appLogic_CONNECTED_split E w h0 ht, (appLogic_afterCheck_frame E _).1]
    rcases (checkPosition_general E (appLogic_beforeCheck E w) (appLogic_current E w)).2.1
      with hc | hc
    · rw [hc, (appLogic_beforeCheck_general E w).1]
      rcases (testConnection_general E w).2.1 with hs | hs
      · rw [hs]
        exact Or.inr h0
      · rw [hs.2]
        exact Or.inr (Or.inr (Or.inl rfl))
    · rw [hc]
      exact Or.inr (Or.inr (Or.inl rfl))
  · exact Or.inl (appLogic_CONNECTED_fail E w h0 (testConnection_ne_zero E w ht)).1

/-- A tick that starts in a connected state ends in the state its `CONNECTED`
block leaves, and returns `0`. -/
theorem appLogic_connected_eq (E : Env) (w : World)
    (h0 : w.m_state = stateCodes.CONNECTED ∨ w.m_state = stateCodes.READY
      ∨ w.m_state = stateCodes.OPERATING) :
    appLogic E w = (0, appLogic_CONNECTED E w) := by
  rw [appLogic_of_connected E w h0, appLogic_ERROR_of_ne]
  · rfl
  · rcases appLogic_CONNECTED_state E w h0 with h | h | h | h <;> rw [h] <;> decide

/-- The four ways the callback runs. -/
theorem newCallBack_cases (E : Env) (w : World) (ipRecv : IndiProperty) :
    newCallBack_m_indiP_position E w ipRecv = some (-1, w)
      ∨ newCallBack_m_indiP_position E w ipRecv = some (0, w)
      ∨ (w.m_state = stateCodes.OPERATING ∧ newCallBack_m_indiP_position E w ipRecv = none)
      ∨ (w.m_state ≠ stateCodes.OPERATING ∧ ∃ (rv : Int) (w1 : World),
          newCallBack_m_indiP_position E w ipRecv = some (rv, w1)
            ∧ (w1.m_state = stateCodes.OPERATING ∨ w1.m_state = w.m_state)) := by
  by_cases hname : ipRecv.name = m_indiP_position_name
  · by_cases hle : (if ipRecv.target.getD (-99) = -99 then ipRecv.current.getD (-99)
        else ipRecv.target.getD (-99)) ≤ 0
    · exact Or.inr (Or.inl (newCallBack_ignore E w ipRecv hname hle))
    · by_cases hs : w.m_state = stateCodes.OPERATING
      · refine Or.inr (Or.inr (Or.inl ⟨hs, ?_⟩))
        unfold newCallBack_m_indiP_position
        simp only [hname, if_true, hle, if_false, hs]
      · obtain ⟨rv, w1, h1, -, -, h4, h5⟩ := newCallBack_move E w ipRecv _ hname rfl
          (not_le.mp hle) hs
        refine Or.inr (Or.inr (Or.inr ⟨hs, rv, w1, h1, ?_⟩))
        by_cases hw : E.ttyWrite w.trace.length (buffer_PA E
            (if ipRecv.target.getD (-99) = -99 then ipRecv.current.getD (-99)
              else ipRecv.target.getD (-99))) = E.TTY_E_NOERROR
        · exact Or.inl (h4 hw)
        · exact Or.inr (h5 hw).1
  · left
    unfold newCallBack_m_indiP_position
    simp only [hname, if_false]

/-- C11. For every poll tick and every target submission that begins in
`CONNECTED`, `READY` or `OPERATING`, and for every behaviour of the transport,
the resulting state is one of `NOTCONNECTED`, `CONNECTED`, `READY`, `OPERATING`.
The tick always returns; the submission returns unless it begins in `OPERATING`,
where it waits in its loop, the state being `OPERATING` meanwhile. -/
theorem C11_connected_states_closed (E : Env) (w : World) (ipRecv : IndiProperty)
    (h0 : w.m_state = stateCodes.CONNECTED ∨ w.m_state = stateCodes.READY
      ∨ w.m_state = stateCodes.OPERATING) :
    ((appLogic E w).2.m_state = stateCodes.NOTCONNECTED
        ∨ (appLogic E w).2.m_state = stateCodes.CONNECTED
        ∨ (appLogic E w).2.m_state = stateCodes.READY
        ∨ (appLogic E w).2.m_state = stateCodes.OPERATING)
      ∧ (∀ (rv : Int) (w1 : World), newCallBack_m_indiP_position E w ipRecv = some (rv, w1) →
          (w1.m_state = stateCodes.NOTCONNECTED ∨ w1.m_state = stateCodes.CONNECTED
            ∨ w1.m_state = stateCodes.READY ∨ w1.m_state = stateCodes.OPERATING))
      ∧ (newCallBack_m_indiP_position E w ipRecv = none → w.m_state = stateCodes.OPERATING)
      ∧ (w.m_state ≠ stateCodes.OPERATING →
          ∃ (rv : Int) (w1 : World), newCallBack_m_indiP_position E w ipRecv = some (rv, w1)) := by
  refine ⟨?_, ?_, ?_, ?_⟩
  · rw [appLogic_connected_eq E w h0]
    exact appLogic_CONNECTED_state E w h0
  · intro rv w1 hcb
    rcases newCallBack_cases E w ipRecv with h | h | h | h
    · rw [h] at hcb
      cases hcb
      exact Or.inr h0
    · rw [h] at hcb
      cases hcb
      exact Or.inr h0
    · rw [h.2] at hcb
      cases hcb
    · obtain ⟨-, rv2, w2, h2, hst⟩ := h
      rw [h2] at hcb
      cases hcb
      rcases hst with hst | hst
      · exact Or.inr (Or.inr (Or.inr hst))
      · rw [hst]
        exact Or.inr h0
  · intro hnone
    rcases newCallBack_cases E w ipRecv with h | h | h | h
    · rw [h] at hnone
      cases hnone
    · rw [h] at hnone
      cases hnone
    · exact h.1
    · obtain ⟨-, rv2, w2, h2, -⟩ := h
      rw [h2] at hnone
      cases hnone
  · intro hs
    rcases newCallBack_cases E w ipRecv with h | h | h | h
    · exact ⟨_, _, h⟩
    · exact ⟨_, _, h⟩
    · exact absurd h.1 hs
    · obtain ⟨-, rv2, w2, h2, -⟩ := h
      exact ⟨_, _, h2⟩

/-- C11 at a concrete input: a tick and a submission of target `10` on a stopped
stage in `READY`. -/
theorem C11_connected_states_witness :
    ((appLogic stoppedAt9_5 (freshWorld stateCodes.READY 0)).2.m_state = stateCodes.NOTCONNECTED
        ∨ (appLogic stoppedAt9_5 (freshWorld stateCodes.READY 0)).2.m_state
          = stateCodes.CONNECTED
        ∨ (appLogic stoppedAt9_5 (freshWorld stateCodes.READY 0)).2.m_state = stateCodes.READY
        ∨ (appLogic stoppedAt9_5 (freshWorld stateCodes.READY 0)).2.m_state
          = stateCodes.OPERATING)
      ∧ (∀ (rv : Int) (w1 : World),
          newCallBack_m_indiP_position stoppedAt9_5 (freshWorld stateCodes.READY 0)
            (notification none (some 10)) = some (rv, w1) →
          (w1.m_state = stateCodes.NOTCONNECTED ∨ w1.m_state = stateCodes.CONNECTED
            ∨ w1.m_state = stateCodes.READY ∨ w1.m_state = stateCodes.OPERATING))
      ∧ (newCallBack_m_indiP_position stoppedAt9_5 (freshWorld stateCodes.READY 0)
            (notification none (some 10)) = none →
          (freshWorld stateCodes.READY 0).m_state = stateCodes.OPERATING)
      ∧ ((freshWorld stateCodes.READY 0).m_state ≠ stateCodes.OPERATING →
          ∃ (rv : Int) (w1 : World),
            newCallBack_m_indiP_position stoppedAt9_5 (freshWorld stateCodes.READY 0)
              (notification none (some 10)) = some (rv, w1)) :=
  C11_connected_states_closed stoppedAt9_5 (freshWorld stateCodes.READY 0)
    (notification none (some 10)) (Or.inr (Or.inl rfl))

@[simp] theorem afterConnect_m_state (E : Env) (w : World) :
    (afterConnect E w).m_state = w.m_state := rfl

@[simp] theorem afterConnect_m_target (E : Env) (w : World) :
    (afterConnect E w).m_target = w.m_target := rfl

@[simp] theorem afterConnect_trace (E : Env) (w : World) :
    (afterConnect E w).trace
      = w.trace ++ [Event.euidCalled, Event.connect, Event.euidReal] := by
  simp [afterConnect, euidReal, connect, euidCalled]

@[simp] theorem getDeviceName_m_target (E : Env) (w : World) :
    (getDeviceName E w).2.m_target = w.m_target := rfl

theorem afterConnect_length (E : Env) (w : World) :
    (afterConnect E w).trace.length = w.trace.length + 3 := by
  simp

theorem connect_rv (E : Env) (w : World) :
    (connect E (euidCalled w)).1 = E.connect (w.trace.length + 1) := by
  simp [connect, euidCalled]

/-- The `NODEVICE` block does nothing outside `NODEVICE`. -/
theorem appLogic_NODEVICE_skip (E : Env) (w : World) (h : w.m_state ≠ stateCodes.NODEVICE) :
    appLogic_NODEVICE E w = (none, w) := by
  unfold appLogic_NODEVICE
  rw [if_neg h]

/-- The `NOTCONNECTED` block does nothing outside `NOTCONNECTED`. -/
theorem appLogic_NOTCONNECTED_skip (E : Env) (w : World)
    (h : w.m_state ≠ stateCodes.NOTCONNECTED) :
    appLogic_NOTCONNECTED E w = (none, w) := by
  unfold appLogic_NOTCONNECTED
  rw [if_neg h]

/-- The `CONNECTED` block does nothing outside the three connected states. -/
theorem appLogic_CONNECTED_skip (E : Env) (w : World)
    (h1 : w.m_state ≠ stateCodes.CONNECTED) (h2 : w.m_state ≠ stateCodes.READY)
    (h3 : w.m_state ≠ stateCodes.OPERATING) :
    appLogic_CONNECTED E w = w := by
  unfold appLogic_CONNECTED
  rw [if_neg (by simp [h1, h2, h3])]

/-- The `NODEVICE` block when the discovery mechanism fails. -/
theorem appLogic_NODEVICE_fatal (E : Env) (w : World)
    (h0 : w.m_state = stateCodes.NODEVICE)
    (hrv : (E.getDeviceName w.trace.length).1 < 0
      ∧ (E.getDeviceName w.trace.length).1 ≠ E.TTY_E_DEVNOTFOUND
      ∧ (E.getDeviceName w.trace.length).1 ≠ E.TTY_E_NODEVNAMES) :
    (appLogic_NODEVICE E w).1 = some (-1)
      ∧ (appLogic_NODEVICE E w).2.m_state = stateCodes.FAILURE
      ∧ (appLogic_NODEVICE E w).2.trace = w.trace ++ [Event.getDeviceName] := by
  unfold appLogic_NODEVICE
  rw [if_pos h0]
  simp only [getDeviceName_rv]
  rw [if_pos hrv]
  refine ⟨rfl, ?_, ?_⟩ <;> split_ifs <;> simp

/-- The `NODEVICE` block when udev lists the device. -/
theorem appLogic_NODEVICE_found (E : Env) (w : World)
    (h0 : w.m_state = stateCodes.NODEVICE)
    (hrv : 0 ≤ (E.getDeviceName w.trace.length).1)
    (h1 : (E.getDeviceName w.trace.length).1 ≠ E.TTY_E_DEVNOTFOUND)
    (h2 : (E.getDeviceName w.trace.length).1 ≠ E.TTY_E_NODEVNAMES) :
    (appLogic_NODEVICE E w).1 = none
      ∧ (appLogic_NODEVICE E w).2.m_state = stateCodes.NOTCONNECTED
      ∧ (appLogic_NODEVICE E w).2.m_target = w.m_target
      ∧ (appLogic_NODEVICE E w).2.trace = w.trace ++ [Event.getDeviceName] := by
  unfold appLogic_NODEVICE
  rw [if_pos h0]
  simp only [getDeviceName_rv]
  rw [if_neg (fun h => absurd h.1 (not_lt.mpr hrv)), if_neg (by simp [h1, h2])]
  refine ⟨rfl, ?_, ?_, ?_⟩ <;> split_ifs <;> simp [callCommand]

/-- The `NOTCONNECTED` block when `connect` fails and the discovery mechanism
fails. -/
theorem appLogic_NOTCONNECTED_fatal (E : Env) (w : World)
    (h0 : w.m_state = stateCodes.NOTCONNECTED)
    (hc : E.connect (w.trace.length + 1) < 0)
    (hrv : (E.getDeviceName (w.trace.length + 3)).1 < 0
      ∧ (E.getDeviceName (w.trace.length + 3)).1 ≠ E.TTY_E_DEVNOTFOUND
      ∧ (E.getDeviceName (w.trace.length + 3)).1 ≠ E.TTY_E_NODEVNAMES) :
    (appLogic_NOTCONNECTED E w).1 = some (-1)
      ∧ (appLogic_NOTCONNECTED E w).2.m_state = stateCodes.FAILURE
      ∧ (appLogic_NOTCONNECTED E w).2.trace = w.trace
          ++ [Event.euidCalled, Event.connect, Event.euidReal, Event.getDeviceName] := by
  unfold appLogic_NOTCONNECTED
  rw [if_pos h0]
  simp only [connect_rv, getDeviceName_rv]
  rw [if_pos hc]
  change (if _ then _ else _ : Option Int × World).1 = _ ∧ _
  simp only [← afterConnect.eq_1, afterConnect_length]
  rw [if_pos hrv]
  refine ⟨rfl, ?_, ?_⟩ <;> split_ifs <;> simp


/-- The `NOTCONNECTED` block when `connect` fails and udev does not list the
device. -/
theorem appLogic_NOTCONNECTED_absent (E : Env) (w : World)
    (h0 : w.m_state = stateCodes.NOTCONNECTED)
    (hc : E.connect (w.trace.length + 1) < 0)
    (habs : (E.getDeviceName (w.trace.length + 3)).1 = E.TTY_E_DEVNOTFOUND
      ∨ (E.getDeviceName (w.trace.length + 3)).1 = E.TTY_E_NODEVNAMES) :
    (appLogic_NOTCONNECTED E w).1 = some 0
      ∧ (appLogic_NOTCONNECTED E w).2.m_state = stateCodes.NODEVICE
      ∧ (appLogic_NOTCONNECTED E w).2.trace = w.trace
          ++ [Event.euidCalled, Event.connect, Event.euidReal, Event.getDeviceName] := by
  have h1 : ¬ ((E.getDeviceName (w.trace.length + 3)).1 < 0
      ∧ (E.getDeviceName (w.trace.length + 3)).1 ≠ E.TTY_E_DEVNOTFOUND
      ∧ (E.getDeviceName (w.trace.length + 3)).1 ≠ E.TTY_E_NODEVNAMES) := by
    rintro ⟨-, h2, h3⟩
    rcases habs with h | h
    · exact h2 h
    · exact h3 h
  unfold appLogic_NOTCONNECTED
  rw [if_pos h0]
  simp only [connect_rv, getDeviceName_rv]
  rw [if_pos hc]
  change (if _ then _ else _ : Option Int × World).1 = _ ∧ _
  simp only [← afterConnect.eq_1, afterConnect_length]
  rw [if_neg h1, if_pos habs]
  refine ⟨rfl, ?_, ?_⟩ <;> split_ifs <;> simp

/-- The `NOTCONNECTED` block when `connect` fails although udev lists the
device. -/
theorem appLogic_NOTCONNECTED_found (E : Env) (w : World)
    (h0 : w.m_state = stateCodes.NOTCONNECTED)
    (hc : E.connect (w.trace.length + 1) < 0)
    (hrv : 0 ≤ (E.getDeviceName (w.trace.length + 3)).1)
    (h1 : (E.getDeviceName (w.trace.length + 3)).1 ≠ E.TTY_E_DEVNOTFOUND)
    (h2 : (E.getDeviceName (w.trace.length + 3)).1 ≠ E.TTY_E_NODEVNAMES) :
    (appLogic_NOTCONNECTED E w).1 = some (-1)
      ∧ (appLogic_NOTCONNECTED E w).2.m_state = stateCodes.FAILURE
      ∧ (appLogic_NOTCONNECTED E w).2.trace = w.trace
          ++ [Event.euidCalled, Event.connect, Event.euidReal, Event.getDeviceName] := by
  unfold appLogic_NOTCONNECTED
  rw [if_pos h0]
  simp only [connect_rv, getDeviceName_rv]
  rw [if_pos hc]
  change (if _ then _ else _ : Option Int × World).1 = _ ∧ _
  simp only [← afterConnect.eq_1, afterConnect_length]
  rw [if_neg (fun h => absurd h.1 (not_lt.mpr hrv)), if_neg (by simp [h1, h2])]
  refine ⟨rfl, ?_, ?_⟩ <;> split_ifs <;> simp

/-- The `NOTCONNECTED` block when `connect` succeeds and the liveness test
passes: the state is `CONNECTED` and the status query is the only exchange. -/
theorem appLogic_NOTCONNECTED_pass (E : Env) (w : World)
    (h0 : w.m_state = stateCodes.NOTCONNECTED)
    (hc : ¬ E.connect (w.trace.length + 1) < 0)
    (hrv : (E.ttyWriteRead (w.trace.length + 3) buffer_TS).1 = E.TTY_E_NOERROR)
    (hout : (E.ttyWriteRead (w.trace.length + 3) buffer_TS).2.take 7 = "1TS0000".toList) :
    (appLogic_NOTCONNECTED E w).1 = none
      ∧ (appLogic_NOTCONNECTED E w).2.m_state = stateCodes.CONNECTED
      ∧ (appLogic_NOTCONNECTED E w).2.m_target = w.m_target
      ∧ (appLogic_NOTCONNECTED E w).2.trace = w.trace
          ++ [Event.euidCalled, Event.connect, Event.euidReal, Event.ttyWriteRead buffer_TS] := by
  have ht := testConnection_pass E (afterConnect E w)
    (by rw [afterConnect_length]; exact hrv) (by rw [afterConnect_length]; exact hout)
    (by rw [afterConnect_m_state, h0]; decide)
  unfold appLogic_NOTCONNECTED
  rw [if_pos h0]
  simp only [connect_rv]
  rw [if_neg hc]
  simp only [← afterConnect.eq_1, ht, if_true, state_m_state]
  refine ⟨trivial, ?_, ?_, ?_⟩ <;> split_ifs <;> simp

/-- The `NOTCONNECTED` block when `connect` succeeds and the liveness test
fails: the state stays `NOTCONNECTED`. -/
theorem appLogic_NOTCONNECTED_fail (E : Env) (w : World)
    (h0 : w.m_state = stateCodes.NOTCONNECTED)
    (hc : ¬ E.connect (w.trace.length + 1) < 0)
    (hfail : (E.ttyWriteRead (w.trace.length + 3) buffer_TS).1 ≠ E.TTY_E_NOERROR
      ∨ (E.ttyWriteRead (w.trace.length + 3) buffer_TS).2.take 7 ≠ "1TS0000".toList) :
    (appLogic_NOTCONNECTED E w).1 = none
      ∧ (appLogic_NOTCONNECTED E w).2.m_state = stateCodes.NOTCONNECTED
      ∧ (appLogic_NOTCONNECTED E w).2.trace = w.trace
          ++ [Event.euidCalled, Event.connect, Event.euidReal, Event.ttyWriteRead buffer_TS,
            Event.ttyWriteRead buffer_TE] := by
  obtain ⟨t1, t2, -, t4⟩ := testConnection_fail E (afterConnect E w)
    (by rw [afterConnect_length]; exact hfail)
  have hne : ¬ ((-1 : Int) = 0) := by decide
  have hst : ∀ w1 : World, w1.m_state = stateCodes.NOTCONNECTED →
      ¬ w1.m_state = stateCodes.CONNECTED := by
    intro w1 h
    rw [h]
    decide
  unfold appLogic_NOTCONNECTED
  rw [if_pos h0]
  simp only [connect_rv]
  rw [if_neg hc]
  simp only [← afterConnect.eq_1, t1, hne, if_false]
  rw [if_neg]
  · refine ⟨rfl, ?_, ?_⟩ <;> split_ifs <;> simp [t2, t4, h0]
  · apply hst
    split_ifs <;> simp [t2, h0]

/-- A tick whose `NODEVICE` block falls through and whose `NOTCONNECTED` block
returns. -/
theorem appLogic_of_NOTCONNECTED_return (E : Env) (w : World) (rv : Int)
    (hI : w.m_state ≠ stateCodes.INITIALIZED)
    (h1 : (appLogic_NODEVICE E w).1 = none)
    (h2 : (appLogic_NOTCONNECTED E (appLogic_NODEVICE E w).2).1 = some rv) :
    appLogic E w = (rv, (appLogic_NOTCONNECTED E (appLogic_NODEVICE E w).2).2) := by
  unfold appLogic
  rw [if_neg hI]
  simp only [h1, h2]

/-- A tick whose first two blocks fall through. -/
theorem appLogic_fall (E : Env) (w : World)
    (hI : w.m_state ≠ stateCodes.INITIALIZED)
    (h1 : (appLogic_NODEVICE E w).1 = none)
    (h2 : (appLogic_NOTCONNECTED E (appLogic_NODEVICE E w).2).1 = none) :
    appLogic E w
      = ((appLogic_ERROR E (appLogic_CONNECTED E
            (appLogic_NOTCONNECTED E (appLogic_NODEVICE E w).2).2)).1.getD 0,
          (appLogic_ERROR E (appLogic_CONNECTED E
            (appLogic_NOTCONNECTED E (appLogic_NODEVICE E w).2).2)).2) := by
  unfold appLogic
  rw [if_neg hI]
  simp only [h1, h2]
  cases (appLogic_ERROR E (appLogic_CONNECTED E
    (appLogic_NOTCONNECTED E (appLogic_NODEVICE E w).2).2)).1 <;> rfl

/-- A tick that starts in `ERROR` is its `ERROR` block. -/
theorem appLogic_of_ERROR (E : Env) (w : World) (h0 : w.m_state = stateCodes.ERROR) :
    appLogic E w = ((appLogic_ERROR E w).1.getD 0, (appLogic_ERROR E w).2) := by
  have e1 := appLogic_NODEVICE_skip E w (by rw [h0]; decide)
  have e2 := appLogic_NOTCONNECTED_skip E w (by rw [h0]; decide)
  have e3 := appLogic_CONNECTED_skip E w (by rw [h0]; decide) (by rw [h0]; decide)
    (by rw [h0]; decide)
  rw [appLogic_fall E w (by rw [h0]; decide) (by rw [e1]) (by rw [e1, e2]), e1, e2, e3]

/-- The `ERROR` block when udev lists the device: `FAILURE`, and the block does
not return from the tick. -/
theorem appLogic_ERROR_found (E : Env) (w : World)
    (h0 : w.m_state = stateCodes.ERROR)
    (hrv : 0 ≤ (E.getDeviceName w.trace.length).1)
    (h1 : (E.getDeviceName w.trace.length).1 ≠ E.TTY_E_DEVNOTFOUND)
    (h2 : (E.getDeviceName w.trace.length).1 ≠ E.TTY_E_NODEVNAMES) :
    (appLogic_ERROR E w).1 = none
      ∧ (appLogic_ERROR E w).2.m_state = stateCodes.FAILURE
      ∧ (appLogic_ERROR E w).2.trace = w.trace ++ [Event.getDeviceName] := by
  unfold appLogic_ERROR
  rw [if_pos h0]
  simp only [getDeviceName_rv]
  rw [if_neg (fun h => absurd h.1 (not_lt.mpr hrv)), if_neg (by simp [h1, h2])]
  refine ⟨rfl, ?_, ?_⟩ <;> split_ifs <;> simp

/-- The `ERROR` block when udev does not list the device: `NODEVICE`, return
`0`. -/
theorem appLogic_ERROR_absent (E : Env) (w : World)
    (h0 : w.m_state = stateCodes.ERROR)
    (habs : (E.getDeviceName w.trace.length).1 = E.TTY_E_DEVNOTFOUND
      ∨ (E.getDeviceName w.trace.length).1 = E.TTY_E_NODEVNAMES) :
    (appLogic_ERROR E w).1 = some 0
      ∧ (appLogic_ERROR E w).2.m_state = stateCodes.NODEVICE
      ∧ (appLogic_ERROR E w).2.trace = w.trace ++ [Event.getDeviceName] := by
  have h1 : ¬ ((E.getDeviceName w.trace.length).1 < 0
      ∧ (E.getDeviceName w.trace.length).1 ≠ E.TTY_E_DEVNOTFOUND
      ∧ (E.getDeviceName w.trace.length).1 ≠ E.TTY_E_NODEVNAMES) := by
    rintro ⟨-, h2, h3⟩
    rcases habs with h | h
    · exact h2 h
    · exact h3 h
  unfold appLogic_ERROR
  rw [if_pos h0]
  simp only [getDeviceName_rv]
  rw [if_neg h1, if_pos habs]
  refine ⟨rfl, ?_, ?_⟩ <;> split_ifs <;> simp

/-- A tick in `ERROR` with the device listed ends in `FAILURE`. -/
theorem appLogic_ERROR_tick_found (E : Env) (w : World)
    (h0 : w.m_state = stateCodes.ERROR)
    (hrv : 0 ≤ (E.getDeviceName w.trace.length).1)
    (h1 : (E.getDeviceName w.trace.length).1 ≠ E.TTY_E_DEVNOTFOUND)
    (h2 : (E.getDeviceName w.trace.length).1 ≠ E.TTY_E_NODEVNAMES) :
    (appLogic E w).1 = 0 ∧ (appLogic E w).2.m_state = stateCodes.FAILURE := by
  have hb := appLogic_ERROR_found E w h0 hrv h1 h2
  rw [appLogic_of_ERROR E w h0, hb.1]
  exact ⟨rfl, hb.2.1⟩

/-- C12, the claim refuted: a tick that begins in `ERROR` and whose re-discovery
succeeds (udev returns `0` and the device name) ends in `FAILURE`, not in
`NOTCONNECTED`. -/
theorem C12_counterexample_rediscovery_FAILURE :
    (freshWorld stateCodes.ERROR 0).m_state = stateCodes.ERROR
      ∧ stoppedAt9_5.getDeviceName 0 = (0, "/dev/ttyUSB0".toList)
      ∧ (appLogic stoppedAt9_5 (freshWorld stateCodes.ERROR 0)).2.m_state = stateCodes.FAILURE
      ∧ (appLogic stoppedAt9_5 (freshWorld stateCodes.ERROR 0)).2.m_state
        ≠ stateCodes.NOTCONNECTED := by
  have h := appLogic_ERROR_tick_found stoppedAt9_5 (freshWorld stateCodes.ERROR 0) rfl
    (by decide) (by decide) (by decide)
  refine ⟨rfl, rfl, h.2, ?_⟩
  rw [h.2]
  decide

/-- C12 as amended. For every poll tick that begins in `ERROR`: if identity
re-discovery succeeds (a code that is not negative and is not an absence code)
the state becomes `FAILURE` and the tick returns `0`, and if re-discovery
reports the device absent the state becomes `NODEVICE` and the tick returns
`0`. -/
theorem C12_ERROR_tick (E : Env) (w : World) (h0 : w.m_state = stateCodes.ERROR) :
    ((0 ≤ (E.getDeviceName w.trace.length).1
          ∧ (E.getDeviceName w.trace.length).1 ≠ E.TTY_E_DEVNOTFOUND
          ∧ (E.getDeviceName w.trace.length).1 ≠ E.TTY_E_NODEVNAMES) →
        (appLogic E w).2.m_state = stateCodes.FAILURE ∧ (appLogic E w).1 = 0)
      ∧ (((E.getDeviceName w.trace.length).1 = E.TTY_E_DEVNOTFOUND
          ∨ (E.getDeviceName w.trace.length).1 = E.TTY_E_NODEVNAMES) →
        (appLogic E w).2.m_state = stateCodes.NODEVICE ∧ (appLogic E w).1 = 0) := by
  refine ⟨fun h => ?_, fun h => ?_⟩
  · exact ⟨(appLogic_ERROR_tick_found E w h0 h.1 h.2.1 h.2.2).2,
      (appLogic_ERROR_tick_found E w h0 h.1 h.2.1 h.2.2).1⟩
  · have hb := appLogic_ERROR_absent E w h0 h
    rw [appLogic_of_ERROR E w h0, hb.1]
    exact ⟨hb.2.1, rfl⟩

/-- C12 as amended, at concrete inputs: from `ERROR`, a listed device gives
`FAILURE` and an unlisted one gives `NODEVICE`. -/
theorem C12_ERROR_tick_witness :
    ((appLogic stoppedAt9_5 (freshWorld stateCodes.ERROR 0)).2.m_state = stateCodes.FAILURE
        ∧ (appLogic stoppedAt9_5 (freshWorld stateCodes.ERROR 0)).1 = 0)
      ∧ ((appLogic absentEnv (freshWorld stateCodes.ERROR 0)).2.m_state = stateCodes.NODEVICE
        ∧ (appLogic absentEnv (freshWorld stateCodes.ERROR 0)).1 = 0) :=
  ⟨(C12_ERROR_tick stoppedAt9_5 (freshWorld stateCodes.ERROR 0) rfl).1
      ⟨by decide, by decide, by decide⟩,
    (C12_ERROR_tick absentEnv (freshWorld stateCodes.ERROR 0) rfl).2 (Or.inl (by decide))⟩

/-- A tick that starts in `NOTCONNECTED` and whose `NOTCONNECTED` block
returns. -/
theorem appLogic_NOTCONNECTED_return (E : Env) (w : World) (rv : Int)
    (h0 : w.m_state = stateCodes.NOTCONNECTED)
    (h : (appLogic_NOTCONNECTED E w).1 = some rv) :
    appLogic E w = (rv, (appLogic_NOTCONNECTED E w).2) := by
  have e1 := appLogic_NODEVICE_skip E w (by rw [h0]; decide)
  rw [appLogic_of_NOTCONNECTED_return E w rv (by rw [h0]; decide) (by rw [e1])
    (by rw [e1]; exact h), e1]

/-- A tick that starts in `NOTCONNECTED` and whose `NOTCONNECTED` block falls
through with `NOTCONNECTED` or a connected state returns `0` after its
`CONNECTED` block. -/
theorem appLogic_NOTCONNECTED_fall (E : Env) (w : World)
    (h0 : w.m_state = stateCodes.NOTCONNECTED)
    (h : (appLogic_NOTCONNECTED E w).1 = none)
    (hs : (appLogic_NOTCONNECTED E w).2.m_state = stateCodes.NOTCONNECTED
      ∨ (appLogic_NOTCONNECTED E w).2.m_state = stateCodes.CONNECTED) :
    appLogic E w = (0, appLogic_CONNECTED E (appLogic_NOTCONNECTED E w).2) := by
  have e1 := appLogic_NODEVICE_skip E w (by rw [h0]; decide)
  rw [appLogic_fall E w (by rw [h0]; decide) (by rw [e1]) (by rw [e1]; exact h), e1,
    appLogic_ERROR_of_ne]
  · rfl
  · rcases hs with hs | hs
    · rw [appLogic_CONNECTED_skip E _ (by rw [hs]; decide) (by rw [hs]; decide)
        (by rw [hs]; decide), hs]
      decide
    · rcases appLogic_CONNECTED_state E _ (Or.inl hs) with h | h | h | h <;> rw [h] <;> decide

/-- A tick that starts in `NODEVICE`, finds the device and fails to open it. -/
theorem appLogic_NODEVICE_then_return (E : Env) (w : World) (rv : Int)
    (h0 : w.m_state = stateCodes.NODEVICE)
    (hf : foundCode E (E.getDeviceName w.trace.length).1)
    (h : (appLogic_NOTCONNECTED E (appLogic_NODEVICE E w).2).1 = some rv) :
    appLogic E w = (rv, (appLogic_NOTCONNECTED E (appLogic_NODEVICE E w).2).2) :=
  appLogic_of_NOTCONNECTED_return E w rv (by rw [h0]; decide)
    (appLogic_NODEVICE_found E w h0 hf.1 hf.2.1 hf.2.2).1 h

/-- C13. A discovery-mechanism error is fatal while absence is not.  In every
poll tick in which `getDeviceName` is consulted in the `NODEVICE` block, or in
the `NOTCONNECTED` block after a failed `connect` (in a tick that begins in
`NOTCONNECTED`, or in one that begins in `NODEVICE` and has just found the
device): a negative code other than `TTY_E_DEVNOTFOUND` and `TTY_E_NODEVNAMES`
makes the state `FAILURE` and the tick return `-1`, and either of those two
codes makes the state `NODEVICE` and the tick return `0`. -/
theorem C13_discovery_error_fatal (E : Env) (w : World) :
    (w.m_state = stateCodes.NODEVICE →
        (fatalCode E (E.getDeviceName w.trace.length).1 →
          (appLogic E w).1 = -1 ∧ (appLogic E w).2.m_state = stateCodes.FAILURE)
        ∧ (absentCode E (E.getDeviceName w.trace.length).1 →
          (appLogic E w).1 = 0 ∧ (appLogic E w).2.m_state = stateCodes.NODEVICE))
      ∧ (w.m_state = stateCodes.NOTCONNECTED → E.connect (w.trace.length + 1) < 0 →
        (fatalCode E (E.getDeviceName (w.trace.length + 3)).1 →
          (appLogic E w).1 = -1 ∧ (appLogic E w).2.m_state = stateCodes.FAILURE)
        ∧ (absentCode E (E.getDeviceName (w.trace.length + 3)).1 →
          (appLogic E w).1 = 0 ∧ (appLogic E w).2.m_state = stateCodes.NODEVICE))
      ∧ (w.m_state = stateCodes.NODEVICE → foundCode E (E.getDeviceName w.trace.length).1 →
          E.connect (w.trace.length + 2) < 0 →
        (fatalCode E (E.getDeviceName (w.trace.length + 4)).1 →
          (appLogic E w).1 = -1 ∧ (appLogic E w).2.m_state = stateCodes.FAILURE)
        ∧ (absentCode E (E.getDeviceName (w.trace.length + 4)).1 →
          (appLogic E w).1 = 0 ∧ (appLogic E w).2.m_state = stateCodes.NODEVICE)) := by
  refine ⟨fun h0 => ⟨fun h => ?_, fun h => ?_⟩, fun h0 hc => ⟨fun h => ?_, fun h => ?_⟩,
    fun h0 hf hc => ?_⟩
  · have hb := appLogic_NODEVICE_fatal E w h0 h
    rw [appLogic_of_NODEVICE_return E w (-1) (by rw [h0]; decide) hb.1]
    exact ⟨rfl, hb.2.1⟩
  · have hb := appLogic_NODEVICE_absent E w h0 h
    rw [appLogic_of_NODEVICE_return E w 0 (by rw [h0]; decide) hb.1]
    exact ⟨rfl, hb.2.1⟩
  · have hb := appLogic_NOTCONNECTED_fatal E w h0 hc h
    rw [appLogic_NOTCONNECTED_return E w (-1) h0 hb.1]
    exact ⟨rfl, hb.2.1⟩
  · have hb := appLogic_NOTCONNECTED_absent E w h0 hc h
    rw [appLogic_NOTCONNECTED_return E w 0 h0 hb.1]
    exact ⟨rfl, hb.2.1⟩
  · have hn := appLogic_NODEVICE_found E w h0 hf.1 hf.2.1 hf.2.2
    have hl : (appLogic_NODEVICE E w).2.trace.length = w.trace.length + 1 := by
      rw [hn.2.2.2]
      simp
    refine ⟨fun h => ?_, fun h => ?_⟩
    · have hb := appLogic_NOTCONNECTED_fatal E (appLogic_NODEVICE E w).2 hn.2.1
        (by rw [hl]; exact hc) (by rw [hl]; exact h)
      rw [appLogic_NODEVICE_then_return E w (-1) h0 hf hb.1]
      exact ⟨rfl, hb.2.1⟩
    · have hb := appLogic_NOTCONNECTED_absent E (appLogic_NODEVICE E w).2 hn.2.1
        (by rw [hl]; exact hc) (by rw [hl]; exact h)
      rw [appLogic_NODEVICE_then_return E w 0 h0 hf hb.1]
      exact ⟨rfl, hb.2.1⟩

/-- C13 at concrete inputs, one for each of its six cases: the discovery code is
`-42032` (mechanism failure) or `-42033` (`TTY_E_DEVNOTFOUND`), in `NODEVICE`, in
`NOTCONNECTED` after a failed `connect`, and in `NODEVICE` after the device was
found and could not be opened. -/
theorem C13_discovery_error_witness :
    ((appLogic brokenUdevEnv (freshWorld stateCodes.NODEVICE 0)).1 = -1
        ∧ (appLogic brokenUdevEnv (freshWorld stateCodes.NODEVICE 0)).2.m_state
          = stateCodes.FAILURE)
      ∧ ((appLogic absentEnv (freshWorld stateCodes.NODEVICE 0)).1 = 0
        ∧ (appLogic absentEnv (freshWorld stateCodes.NODEVICE 0)).2.m_state
          = stateCodes.NODEVICE)
      ∧ ((appLogic brokenUdevBusyEnv (freshWorld stateCodes.NOTCONNECTED 0)).1 = -1
        ∧ (appLogic brokenUdevBusyEnv (freshWorld stateCodes.NOTCONNECTED 0)).2.m_state
          = stateCodes.FAILURE)
      ∧ ((appLogic unpluggedEnv (freshWorld stateCodes.NOTCONNECTED 0)).1 = 0
        ∧ (appLogic unpluggedEnv (freshWorld stateCodes.NOTCONNECTED 0)).2.m_state
          = stateCodes.NODEVICE)
      ∧ ((appLogic breakingUdevEnv (freshWorld stateCodes.NODEVICE 0)).1 = -1
        ∧ (appLogic breakingUdevEnv (freshWorld stateCodes.NODEVICE 0)).2.m_state
          = stateCodes.FAILURE)
      ∧ ((appLogic vanishingEnv (freshWorld stateCodes.NODEVICE 0)).1 = 0
        ∧ (appLogic vanishingEnv (freshWorld stateCodes.NODEVICE 0)).2.m_state
          = stateCodes.NODEVICE) :=
  ⟨((C13_discovery_error_fatal brokenUdevEnv (freshWorld stateCodes.NODEVICE 0)).1 rfl).1
      (by decide),
    ((C13_discovery_error_fatal absentEnv (freshWorld stateCodes.NODEVICE 0)).1 rfl).2
      (by decide),
    ((C13_discovery_error_fatal brokenUdevBusyEnv (freshWorld stateCodes.NOTCONNECTED 0)).2.1
      rfl (by decide)).1 (by decide),
    ((C13_discovery_error_fatal unpluggedEnv (freshWorld stateCodes.NOTCONNECTED 0)).2.1
      rfl (by decide)).2 (by decide),
    ((C13_discovery_error_fatal breakingUdevEnv (freshWorld stateCodes.NODEVICE 0)).2.2
      rfl (by decide) (by decide)).1 (by decide),
    ((C13_discovery_error_fatal vanishingEnv (freshWorld stateCodes.NODEVICE 0)).2.2
      rfl (by decide) (by decide)).2 (by decide)⟩

/-- C14. For every poll tick that begins in `NOTCONNECTED`: when `connect` fails
while re-discovery still finds the device, the tick returns `-1`, the state is
`FAILURE`, and the calls of the tick are `euidCalled`, `connect`, `euidReal` and
`getDeviceName` (no liveness query); when `connect` succeeds, the liveness query
is sent in the same tick, right after `euidReal`, and the `NOTCONNECTED` block
leaves the state `CONNECTED` if the test passes and `NOTCONNECTED` if it fails,
in which case the tick ends in `NOTCONNECTED` and returns `0`. -/
theorem C14_NOTCONNECTED_tick (E : Env) (w : World)
    (h0 : w.m_state = stateCodes.NOTCONNECTED) :
    (E.connect (w.trace.length + 1) < 0 →
        foundCode E (E.getDeviceName (w.trace.length + 3)).1 →
        (appLogic E w).1 = -1
          ∧ (appLogic E w).2.m_state = stateCodes.FAILURE
          ∧ (appLogic E w).2.trace = w.trace
            ++ [Event.euidCalled, Event.connect, Event.euidReal, Event.getDeviceName])
      ∧ (¬ E.connect (w.trace.length + 1) < 0 →
        (allClear E (w.trace.length + 3) →
          (appLogic_NOTCONNECTED E w).2.m_state = stateCodes.CONNECTED
            ∧ (appLogic_NOTCONNECTED E w).2.trace = w.trace
              ++ [Event.euidCalled, Event.connect, Event.euidReal,
                Event.ttyWriteRead buffer_TS]
            ∧ appLogic E w = (0, appLogic_CONNECTED E (appLogic_NOTCONNECTED E w).2))
        ∧ (¬ allClear E (w.trace.length + 3) →
          (appLogic_NOTCONNECTED E w).2.m_state = stateCodes.NOTCONNECTED
            ∧ (appLogic E w).2.m_state = stateCodes.NOTCONNECTED
            ∧ (appLogic E w).1 = 0
            ∧ (appLogic E w).2.trace = w.trace
              ++ [Event.euidCalled, Event.connect, Event.euidReal,
                Event.ttyWriteRead buffer_TS, Event.ttyWriteRead buffer_TE])) := by
  refine ⟨fun hc hf => ?_, fun hc => ⟨fun hp => ?_, fun hp => ?_⟩⟩
  · have hb := appLogic_NOTCONNECTED_found E w h0 hc hf.1 hf.2.1 hf.2.2
    rw [appLogic_NOTCONNECTED_return E w (-1) h0 hb.1]
    exact ⟨rfl, hb.2.1, hb.2.2⟩
  · have hb := appLogic_NOTCONNECTED_pass E w h0 hc hp.1 hp.2
    exact ⟨hb.2.1, hb.2.2.2, appLogic_NOTCONNECTED_fall E w h0 hb.1 (Or.inr hb.2.1)⟩
  · have hfail : (E.ttyWriteRead (w.trace.length + 3) buffer_TS).1 ≠ E.TTY_E_NOERROR
        ∨ (E.ttyWriteRead (w.trace.length + 3) buffer_TS).2.take 7 ≠ "1TS0000".toList := by
      by_cases h1 : (E.ttyWriteRead (w.trace.length + 3) buffer_TS).1 = E.TTY_E_NOERROR
      · exact Or.inr (fun h2 => hp ⟨h1, h2⟩)
      · exact Or.inl h1
    have hb := appLogic_NOTCONNECTED_fail E w h0 hc hfail
    have hskip := appLogic_CONNECTED_skip E (appLogic_NOTCONNECTED E w).2
      (by rw [hb.2.1]; decide) (by rw [hb.2.1]; decide) (by rw [hb.2.1]; decide)
    rw [appLogic_NOTCONNECTED_fall E w h0 hb.1 (Or.inl hb.2.1), hskip]
    exact ⟨hb.2.1, hb.2.1, rfl, hb.2.2⟩

/-- C14 at concrete inputs: a listed device that cannot be opened; a device that
opens and answers all-clear; a device that opens and answers `1TS00200A`. -/
theorem C14_NOTCONNECTED_tick_witness :
    ((appLogic busyPortEnv (freshWorld stateCodes.NOTCONNECTED 0)).1 = -1
        ∧ (appLogic busyPortEnv (freshWorld stateCodes.NOTCONNECTED 0)).2.m_state
          = stateCodes.FAILURE
        ∧ (appLogic busyPortEnv (freshWorld stateCodes.NOTCONNECTED 0)).2.trace
          = (freshWorld stateCodes.NOTCONNECTED 0).trace
            ++ [Event.euidCalled, Event.connect, Event.euidReal, Event.getDeviceName])
      ∧ ((appLogic_NOTCONNECTED stoppedAt9_5 (freshWorld stateCodes.NOTCONNECTED 0)).2.m_state
          = stateCodes.CONNECTED
        ∧ (appLogic_NOTCONNECTED stoppedAt9_5 (freshWorld stateCodes.NOTCONNECTED 0)).2.trace
          = (freshWorld stateCodes.NOTCONNECTED 0).trace
            ++ [Event.euidCalled, Event.connect, Event.euidReal, Event.ttyWriteRead buffer_TS]
        ∧ appLogic stoppedAt9_5 (freshWorld stateCodes.NOTCONNECTED 0)
          = (0, appLogic_CONNECTED stoppedAt9_5
              (appLogic_NOTCONNECTED stoppedAt9_5 (freshWorld stateCodes.NOTCONNECTED 0)).2))
      ∧ ((appLogic_NOTCONNECTED faultyStatusEnv
            (freshWorld stateCodes.NOTCONNECTED 0)).2.m_state = stateCodes.NOTCONNECTED
        ∧ (appLogic faultyStatusEnv (freshWorld stateCodes.NOTCONNECTED 0)).2.m_state
          = stateCodes.NOTCONNECTED
        ∧ (appLogic faultyStatusEnv (freshWorld stateCodes.NOTCONNECTED 0)).1 = 0
        ∧ (appLogic faultyStatusEnv (freshWorld stateCodes.NOTCONNECTED 0)).2.trace
          = (freshWorld stateCodes.NOTCONNECTED 0).trace
            ++ [Event.euidCalled, Event.connect, Event.euidReal,
              Event.ttyWriteRead buffer_TS, Event.ttyWriteRead buffer_TE]) :=
  ⟨(C14_NOTCONNECTED_tick busyPortEnv (freshWorld stateCodes.NOTCONNECTED 0) rfl).1
      (by decide) (by decide),
    ((C14_NOTCONNECTED_tick stoppedAt9_5 (freshWorld stateCodes.NOTCONNECTED 0) rfl).2
      (by decide)).1 (by decide),
    ((C14_NOTCONNECTED_tick faultyStatusEnv (freshWorld stateCodes.NOTCONNECTED 0) rfl).2
      (by decide)).2 (by decide)⟩

/-- A tick in `FAILURE` does nothing and returns `0`. -/
theorem appLogic_FAILURE (E : Env) (w : World) (h0 : w.m_state = stateCodes.FAILURE) :
    appLogic E w = (0, w) := by
  have e1 := appLogic_NODEVICE_skip E w (by rw [h0]; decide)
  have e2 := appLogic_NOTCONNECTED_skip E w (by rw [h0]; decide)
  have e3 := appLogic_CONNECTED_skip E w (by rw [h0]; decide) (by rw [h0]; decide)
    (by rw [h0]; decide)
  have e4 := appLogic_ERROR_of_ne E w (by rw [h0]; decide)
  rw [appLogic_fall E w (by rw [h0]; decide) (by rw [e1]) (by rw [e1, e2]), e1, e2, e3, e4]
  rfl

/-- The callback outside `OPERATING`: it returns, and it changes the state only
to `OPERATING`, and only when the write of a move-absolute frame for a target
above zero succeeds. -/
theorem newCallBack_state (E : Env) (w : World) (ipRecv : IndiProperty)
    (hs : w.m_state ≠ stateCodes.OPERATING) :
    ∃ (rv : Int) (w1 : World),
      newCallBack_m_indiP_position E w ipRecv = some (rv, w1)
        ∧ (w1.m_state = w.m_state
          ∨ (w1.m_state = stateCodes.OPERATING ∧ ∃ t : ℚ, 0 < t
            ∧ E.ttyWrite w.trace.length (buffer_PA E t) = E.TTY_E_NOERROR
            ∧ w1.trace = w.trace
              ++ [Event.ttyWrite (buffer_PA E t), Event.ttyWriteRead buffer_TE])) := by
  by_cases hname : ipRecv.name = m_indiP_position_name
  · by_cases hle : (if ipRecv.target.getD (-99) = -99 then ipRecv.current.getD (-99)
        else ipRecv.target.getD (-99)) ≤ 0
    · exact ⟨0, w, newCallBack_ignore E w ipRecv hname hle, Or.inl rfl⟩
    · obtain ⟨rv, w1, h1, -, h3, h4, h5⟩ := newCallBack_move E w ipRecv _ hname rfl
        (not_le.mp hle) hs
      refine ⟨rv, w1, h1, ?_⟩
      by_cases hw : E.ttyWrite w.trace.length (buffer_PA E
          (if ipRecv.target.getD (-99) = -99 then ipRecv.current.getD (-99)
            else ipRecv.target.getD (-99))) = E.TTY_E_NOERROR
      · refine Or.inr ⟨h4 hw, _, not_le.mp hle, hw, ?_⟩
        rw [h3, if_pos hw]
      · exact Or.inl (h5 hw).1
  · refine ⟨-1, w, ?_, Or.inl rfl⟩
    unfold newCallBack_m_indiP_position
    simp only [hname, if_false]

/-- C15, the claim refuted: in `FAILURE`, a submission of target `10` whose
move-absolute write succeeds returns with the state `OPERATING`. -/
theorem C15_counterexample_submission_leaves_FAILURE :
    (freshWorld stateCodes.FAILURE 0).m_state = stateCodes.FAILURE
      ∧ ∃ (rv : Int) (w1 : World),
        newCallBack_m_indiP_position stoppedAt9_5 (freshWorld stateCodes.FAILURE 0)
            (notification none (some 10)) = some (rv, w1)
          ∧ w1.m_state = stateCodes.OPERATING
          ∧ w1.m_state ≠ stateCodes.FAILURE := by
  obtain ⟨rv, w1, h1, -, -, h4, -⟩ := newCallBack_move stoppedAt9_5
    (freshWorld stateCodes.FAILURE 0) (notification none (some 10)) 10 rfl
    (by norm_num [notification]) (by norm_num) (by decide)
  refine ⟨rfl, rv, w1, h1, h4 rfl, ?_⟩
  rw [h4 rfl]
  decide

/-- C15 as amended. Once the state is `FAILURE`, a poll tick of `appLogic`
returns `0` and changes nothing: not the state, and it performs no discovery, no
connect and no transport I/O.  A target submission through the position callback
returns.  When it is for the `position` property, its target (the target
element, or the current element when the target element is missing or `-99`) is
above zero and the write of the move-absolute frame for that target succeeds, the
state is `OPERATING` afterwards; in every other case it is still `FAILURE`. -/
theorem C15_FAILURE_tick_terminal (E : Env) (w : World) (ipRecv : IndiProperty)
    (h0 : w.m_state = stateCodes.FAILURE) :
    appLogic E w = (0, w)
      ∧ ∃ (rv : Int) (w1 : World),
        newCallBack_m_indiP_position E w ipRecv = some (rv, w1)
          ∧ ((ipRecv.name = m_indiP_position_name
              ∧ 0 < (if ipRecv.target.getD (-99) = -99 then ipRecv.current.getD (-99)
                else ipRecv.target.getD (-99))
              ∧ E.ttyWrite w.trace.length (buffer_PA E
                (if ipRecv.target.getD (-99) = -99 then ipRecv.current.getD (-99)
                  else ipRecv.target.getD (-99))) = E.TTY_E_NOERROR) →
            w1.m_state = stateCodes.OPERATING
              ∧ w1.trace = w.trace ++ [Event.ttyWrite (buffer_PA E
                  (if ipRecv.target.getD (-99) = -99 then ipRecv.current.getD (-99)
                    else ipRecv.target.getD (-99))), Event.ttyWriteRead buffer_TE])
          ∧ (¬ (ipRecv.name = m_indiP_position_name
              ∧ 0 < (if ipRecv.target.getD (-99) = -99 then ipRecv.current.getD (-99)
                else ipRecv.target.getD (-99))
              ∧ E.ttyWrite w.trace.length (buffer_PA E
                (if ipRecv.target.getD (-99) = -99 then ipRecv.current.getD (-99)
                  else ipRecv.target.getD (-99))) = E.TTY_E_NOERROR) →
            w1.m_state = stateCodes.FAILURE) := by
  refine ⟨appLogic_FAILURE E w h0, ?_⟩
  have hs : w.m_state ≠ stateCodes.OPERATING := by rw [h0]; decide
  by_cases hname : ipRecv.name = m_indiP_position_name
  · by_cases hle : (if ipRecv.target.getD (-99) = -99 then ipRecv.current.getD (-99)
        else ipRecv.target.getD (-99)) ≤ 0
    · exact ⟨0, w, newCallBack_ignore E w ipRecv hname hle,
        fun h => absurd h.2.1 (not_lt.mpr hle), fun _ => h0⟩
    · obtain ⟨rv, w1, h1, -, h3, h4, h5⟩ := newCallBack_move E w ipRecv _ hname rfl
        (not_le.mp hle) hs
      refine ⟨rv, w1, h1, fun h => ⟨h4 h.2.2, ?_⟩, fun h => ?_⟩
      · rw [h3, if_pos h.2.2]
      · have hw : E.ttyWrite w.trace.length (buffer_PA E
            (if ipRecv.target.getD (-99) = -99 then ipRecv.current.getD (-99)
              else ipRecv.target.getD (-99))) ≠ E.TTY_E_NOERROR :=
          fun hw => h ⟨hname, not_le.mp hle, hw⟩
        rw [(h5 hw).1, h0]
  · refine ⟨-1, w, ?_, fun h => absurd h.1 hname, fun _ => h0⟩
    unfold newCallBack_m_indiP_position
    simp only [hname, if_false]

/-- C15 as amended, at concrete inputs: a tick in `FAILURE`; a submission of
target `10` in `FAILURE` on a port that accepts no write, which leaves
`FAILURE`; and the same submission on a port that accepts the write, which ends
in `OPERATING`. -/
theorem C15_FAILURE_tick_witness :
    appLogic writeFailsEnv (freshWorld stateCodes.FAILURE 0)
        = (0, freshWorld stateCodes.FAILURE 0)
      ∧ (∃ (rv : Int) (w1 : World),
        newCallBack_m_indiP_position writeFailsEnv (freshWorld stateCodes.FAILURE 0)
            (notification none (some 10)) = some (rv, w1)
          ∧ w1.m_state = stateCodes.FAILURE)
      ∧ (∃ (rv : Int) (w1 : World),
        newCallBack_m_indiP_position stoppedAt9_5 (freshWorld stateCodes.FAILURE 0)
            (notification none (some 10)) = some (rv, w1)
          ∧ w1.m_state = stateCodes.OPERATING) := by
  obtain ⟨ht, rv, w1, h1, -, h3⟩ := C15_FAILURE_tick_terminal writeFailsEnv
    (freshWorld stateCodes.FAILURE 0) (notification none (some 10)) rfl
  obtain ⟨-, rv2, w2, h4, h5, -⟩ := C15_FAILURE_tick_terminal stoppedAt9_5
    (freshWorld stateCodes.FAILURE 0) (notification none (some 10)) rfl
  refine ⟨ht, ⟨rv, w1, h1, h3 ?_⟩, ⟨rv2, w2, h4, (h5 ⟨rfl, ?_, rfl⟩).1⟩⟩
  · intro h
    exact absurd h.2.2 (by decide)
  · norm_num [notification]

/-- The calls of the `CONNECTED` block after those of its liveness test: the
error query when the test fails; the position query, the error query, the status
query and the error query when it passes. -/
theorem appLogic_CONNECTED_trace (E : Env) (w : World)
    (h0 : w.m_state = stateCodes.CONNECTED ∨ w.m_state = stateCodes.READY
      ∨ w.m_state = stateCodes.OPERATING) :
    (appLogic_CONNECTED E w).trace = (testConnection E w).2.trace ++
      (if (testConnection E w).1 = 0 then
        [Event.ttyWriteRead buffer_TP, Event.ttyWriteRead buffer_TE,
          Event.ttyWriteRead buffer_TS, Event.ttyWriteRead buffer_TE]
      else [Event.ttyWriteRead buffer_TE]) := by
  by_cases ht : (testConnection E w).1 = 0
  · rw [appLogic_CONNECTED_split E w h0 ht, (appLogic_afterCheck_frame E _).2.2,
      (checkPosition_general E _ _).2.2, (appLogic_beforeCheck_general E w).2.2, if_pos ht]
    simp
  · rw [if_neg ht]
    unfold appLogic_CONNECTED
    simp only [h0, if_true, ne_eq, ht, not_false_eq_true]
    split_ifs <;> simp

/-- The calls of a tick that starts in `CONNECTED` with an all-clear reply. -/
theorem appLogic_CONNECTED_tick_trace (E : Env) (w : World)
    (h0 : w.m_state = stateCodes.CONNECTED) (hp : allClear E w.trace.length) :
    (appLogic E w).2.trace = w.trace ++
      [Event.ttyWriteRead buffer_TS, Event.ttyWrite buffer_OR, Event.ttyWriteRead buffer_TP,
        Event.ttyWriteRead buffer_TE, Event.ttyWriteRead buffer_TS,
        Event.ttyWriteRead buffer_TE] := by
  have ht := testConnection_pass_CONNECTED E w hp.1 hp.2 h0
  rw [appLogic_connected_eq E w (Or.inl h0)]
  show (appLogic_CONNECTED E w).trace = _
  rw [appLogic_CONNECTED_trace E w (Or.inl h0), ht, if_pos rfl,
    (setUpMoving_spec E _).1]
  simp

/-- A tick that starts in `READY` or `OPERATING` makes no `ttyWrite`. -/
theorem appLogic_no_write (E : Env) (w : World)
    (h0 : w.m_state = stateCodes.READY ∨ w.m_state = stateCodes.OPERATING) :
    ∀ e ∈ (appLogic E w).2.trace.drop w.trace.length, ∀ b : Str, e ≠ Event.ttyWrite b := by
  have hs : w.m_state ≠ stateCodes.CONNECTED := by rcases h0 with h | h <;> rw [h] <;> decide
  have htr : (testConnection E w).2.trace = w.trace ++ [Event.ttyWriteRead buffer_TS] := by
    rcases (testConnection_general E w).2.2 with h | h
    · exact h
    · exact absurd h.1 hs
  rw [appLogic_connected_eq E w (Or.inr h0)]
  show ∀ e ∈ (appLogic_CONNECTED E w).trace.drop w.trace.length, _
  rw [appLogic_CONNECTED_trace E w (Or.inr h0), htr, List.append_assoc, List.drop_left]
  intro e he b
  split_ifs at he <;> simp at he <;> rcases he with rfl | rfl | rfl | rfl | rfl <;> simp

/-- C16. A poll tick that begins in `CONNECTED` and whose liveness reply is
all-clear writes exactly one home command, right after the status query;
`setUpMoving` returns `0` and sets the state to `READY` when that write succeeds,
and returns `-1` leaving the state unchanged when it fails; a tick that begins in
`READY` or `OPERATING` writes no home command (it makes no `ttyWrite` at all). -/
theorem C16_home_command (E : Env) (w : World) :
    (w.m_state = stateCodes.CONNECTED → allClear E w.trace.length →
        (appLogic E w).2.trace = w.trace ++
          [Event.ttyWriteRead buffer_TS, Event.ttyWrite buffer_OR,
            Event.ttyWriteRead buffer_TP, Event.ttyWriteRead buffer_TE,
            Event.ttyWriteRead buffer_TS, Event.ttyWriteRead buffer_TE])
      ∧ (E.ttyWrite w.trace.length buffer_OR = E.TTY_E_NOERROR →
          (setUpMoving E w).1 = 0 ∧ (setUpMoving E w).2.m_state = stateCodes.READY)
      ∧ (E.ttyWrite w.trace.length buffer_OR ≠ E.TTY_E_NOERROR →
          (setUpMoving E w).1 = -1 ∧ (setUpMoving E w).2.m_state = w.m_state)
      ∧ ((w.m_state = stateCodes.READY ∨ w.m_state = stateCodes.OPERATING) →
          ∀ e ∈ (appLogic E w).2.trace.drop w.trace.length, ∀ b : Str,
            e ≠ Event.ttyWrite b) :=
  ⟨appLogic_CONNECTED_tick_trace E w, (setUpMoving_spec E w).2.2.1,
    (setUpMoving_spec E w).2.2.2, appLogic_no_write E w⟩

/-- C16 at concrete inputs: a tick in `CONNECTED` on a stopped stage; a home
command that is accepted and one that is refused; a tick in `READY`. -/
theorem C16_home_command_witness :
    (appLogic stoppedAt9_5 (freshWorld stateCodes.CONNECTED 0)).2.trace
        = (freshWorld stateCodes.CONNECTED 0).trace ++
          [Event.ttyWriteRead buffer_TS, Event.ttyWrite buffer_OR,
            Event.ttyWriteRead buffer_TP, Event.ttyWriteRead buffer_TE,
            Event.ttyWriteRead buffer_TS, Event.ttyWriteRead buffer_TE]
      ∧ ((setUpMoving stoppedAt9_5 (freshWorld stateCodes.CONNECTED 0)).1 = 0
        ∧ (setUpMoving stoppedAt9_5 (freshWorld stateCodes.CONNECTED 0)).2.m_state
          = stateCodes.READY)
      ∧ ((setUpMoving writeFailsEnv (freshWorld stateCodes.CONNECTED 0)).1 = -1
        ∧ (setUpMoving writeFailsEnv (freshWorld stateCodes.CONNECTED 0)).2.m_state
          = (freshWorld stateCodes.CONNECTED 0).m_state)
      ∧ (∀ e ∈ (appLogic stoppedAt9_5 (freshWorld stateCodes.READY 0)).2.trace.drop
            (freshWorld stateCodes.READY 0).trace.length, ∀ b : Str, e ≠ Event.ttyWrite b) :=
  ⟨(C16_home_command stoppedAt9_5 (freshWorld stateCodes.CONNECTED 0)).1 rfl (by decide),
    (C16_home_command stoppedAt9_5 (freshWorld stateCodes.CONNECTED 0)).2.1 (by decide),
    (C16_home_command writeFailsEnv (freshWorld stateCodes.CONNECTED 0)).2.2.1 (by decide),
    (C16_home_command stoppedAt9_5 (freshWorld stateCodes.READY 0)).2.2.2 (Or.inl rfl)⟩

/-- A tick that starts in a connected state, passes the liveness test, and finds
the stage stopped with a computed difference within the tolerance: the check
returns `0` and the tick ends in `READY`. -/
theorem appLogic_connected_reached_band (E : Env) (w : World)
    (h0 : w.m_state = stateCodes.CONNECTED ∨ w.m_state = stateCodes.READY
      ∨ w.m_state = stateCodes.OPERATING)
    (ht : (testConnection E w).1 = 0)
    (hrv2 : (E.ttyWriteRead (appLogic_beforeCheck E w).trace.length buffer_TS).1
      = E.TTY_E_NOERROR)
    (hout2 : (E.ttyWriteRead (appLogic_beforeCheck E w).trace.length buffer_TS).2.take 9
      ≠ "1TS000028".toList)
    (hband : |ieee754.toDouble (w.m_target - appLogic_current E w)| ≤ error_band) :
    (checkPosition E (appLogic_beforeCheck E w) (appLogic_current E w)).1 = 0
      ∧ (appLogic E w).2.m_state = stateCodes.READY := by
  have hc := checkPosition_reached_band E (appLogic_beforeCheck E w) (appLogic_current E w)
    hrv2 hout2
    (by rw [(appLogic_beforeCheck_general E w).2.1, (testConnection_general E w).1]
        exact hband)
  refine ⟨hc.1, ?_⟩
  rw [appLogic_connected_eq E w h0]
  show (appLogic_CONNECTED E w).m_state = _
  rw [appLogic_CONNECTED_split E w h0 ht, (appLogic_afterCheck_frame E _).1]
  exact hc.2.1

/-- A tick that starts in a connected state, passes the liveness test, and finds
the stage stopped within the tolerance of the target ends in `READY`. -/
theorem appLogic_connected_reached (E : Env) (w : World)
    (h0 : w.m_state = stateCodes.CONNECTED ∨ w.m_state = stateCodes.READY
      ∨ w.m_state = stateCodes.OPERATING)
    (ht : (testConnection E w).1 = 0)
    (hrv2 : (E.ttyWriteRead (appLogic_beforeCheck E w).trace.length buffer_TS).1
      = E.TTY_E_NOERROR)
    (hout2 : (E.ttyWriteRead (appLogic_beforeCheck E w).trace.length buffer_TS).2.take 9
      ≠ "1TS000028".toList)
    (hband : |w.m_target - appLogic_current E w| ≤ 0.05) :
    (appLogic E w).2.m_state = stateCodes.READY :=
  (appLogic_connected_reached_band E w h0 ht hrv2 hout2
    (within_error_band _ (hband.trans (by norm_num)))).2

/-- C3, the claim refuted.  At its own example (the tick begins in `OPERATING`,
the liveness test passes, the status reply is `1TS00000A`, not moving, the
position read is `9.5`, the target is `10`, the difference exceeds `0.05`) the
state after the tick is not `ERROR`.  And with the stage stopped at `0` and the
target `13421773/268435456`, the `float` nearest to `0.05`, the difference
exceeds `0.05` and yet `checkPosition` returns `0` and the tick ends in
`READY`. -/
theorem C3_counterexample_state_not_ERROR :
    (freshWorld stateCodes.OPERATING 10).m_state = stateCodes.OPERATING
      ∧ stoppedAt9_5.ttyWriteRead 0 buffer_TS = (stoppedAt9_5.TTY_E_NOERROR, "1TS00000A".toList)
      ∧ stoppedAt9_5.ttyWriteRead 3 buffer_TS = (stoppedAt9_5.TTY_E_NOERROR, "1TS00000A".toList)
      ∧ appLogic_current stoppedAt9_5 (freshWorld stateCodes.OPERATING 10) = 9.5
      ∧ |(10 : ℚ) - 9.5| > 0.05
      ∧ (appLogic stoppedAt9_5 (freshWorld stateCodes.OPERATING 10)).2.m_state
        ≠ stateCodes.ERROR
      ∧ stoppedAt0.ttyWriteRead 0 buffer_TS = (stoppedAt0.TTY_E_NOERROR, "1TS00000A".toList)
      ∧ stoppedAt0.ttyWriteRead 3 buffer_TS = (stoppedAt0.TTY_E_NOERROR, "1TS00000A".toList)
      ∧ appLogic_current stoppedAt0 (freshWorld stateCodes.OPERATING (13421773 / 268435456)) = 0
      ∧ |(13421773 / 268435456 : ℚ) - 0| > 0.05
      ∧ (checkPosition stoppedAt0
          (appLogic_beforeCheck stoppedAt0 (freshWorld stateCodes.OPERATING (13421773 / 268435456)))
          (appLogic_current stoppedAt0
            (freshWorld stateCodes.OPERATING (13421773 / 268435456)))).1 = 0
      ∧ (appLogic stoppedAt0 (freshWorld stateCodes.OPERATING (13421773 / 268435456))).2.m_state
        = stateCodes.READY := by
  refine ⟨rfl, rfl, rfl, rfl, by norm_num [abs_of_pos], ?_, rfl, rfl, rfl,
    by norm_num [abs_of_pos], ?_⟩
  · have h := (appLogic_OPERATING_mismatch stoppedAt9_5 (freshWorld stateCodes.OPERATING 10) rfl
      (by decide) (by decide) (by decide) (by decide)
      (by
        rw [show appLogic_current stoppedAt9_5 (freshWorld stateCodes.OPERATING 10) = 9.5
          from rfl]
        exact beyond_error_band_half _ (by norm_num [freshWorld, abs_of_pos]))).2.1
    rw [h]
    decide
  · exact appLogic_connected_reached_band stoppedAt0
      (freshWorld stateCodes.OPERATING (13421773 / 268435456)) (Or.inr (Or.inr rfl))
      (by decide) (by decide) (by decide)
      (by
        rw [show appLogic_current stoppedAt0
          (freshWorld stateCodes.OPERATING (13421773 / 268435456)) = 0 from rfl]
        exact within_error_band _ (by norm_num [freshWorld, abs_of_pos]))

/-- C3 as amended. A poll tick that begins in `OPERATING` with a passing liveness
test, in which the status reply to `checkPosition` does not say the stage is
moving and the difference between the target and the position read in the tick,
taken in `double` as `checkPosition` takes it, exceeds in magnitude the
tolerance `error_band`, the `float` nearest to `0.05`: `checkPosition` returns
`-1`, the error "There's been an error with movement." is logged, the tick
returns `0`, and the state after the tick is still `OPERATING`.  The tolerance is
`13421773/268435456`, and a difference of magnitude `1/2` or more exceeds it. -/
theorem C3_mismatch_logged_state_kept (E : Env) (w : World)
    (h0 : w.m_state = stateCodes.OPERATING)
    (hrv : (E.ttyWriteRead w.trace.length buffer_TS).1 = E.TTY_E_NOERROR)
    (hout : (E.ttyWriteRead w.trace.length buffer_TS).2.take 7 = "1TS0000".toList)
    (hrv2 : (E.ttyWriteRead (w.trace.length + 3) buffer_TS).1 = E.TTY_E_NOERROR)
    (hout2 : (E.ttyWriteRead (w.trace.length + 3) buffer_TS).2.take 9 ≠ "1TS000028".toList)
    (hband : |ieee754.toDouble (w.m_target - appLogic_current E w)| > error_band) :
    (checkPosition E (appLogic_beforeCheck E w) (appLogic_current E w)).1 = -1
      ∧ (appLogic E w).2.m_state = stateCodes.OPERATING
      ∧ (appLogic E w).1 = 0
      ∧ (⟨LogKind.software_error, 335, "There's been an error with movement.".toList⟩ :
          LogEntry) ∈ (appLogic E w).2.logs
      ∧ error_band = 13421773 / 268435456
      ∧ ∀ x : ℚ, 1 / 2 ≤ |x| → |ieee754.toDouble x| > error_band :=
  ⟨(appLogic_OPERATING_mismatch E w h0 hrv hout hrv2 hout2 hband).1,
    (appLogic_OPERATING_mismatch E w h0 hrv hout hrv2 hout2 hband).2.1,
    (appLogic_OPERATING_mismatch E w h0 hrv hout hrv2 hout2 hband).2.2.1,
    (appLogic_OPERATING_mismatch E w h0 hrv hout hrv2 hout2 hband).2.2.2,
    error_band_eq, beyond_error_band_half⟩

/-- C3 as amended, at the example of the claim: position `9.5`, target `10`,
status reply `1TS00000A`. -/
theorem C3_mismatch_witness :
    (checkPosition stoppedAt9_5
        (appLogic_beforeCheck stoppedAt9_5 (freshWorld stateCodes.OPERATING 10))
        (appLogic_current stoppedAt9_5 (freshWorld stateCodes.OPERATING 10))).1 = -1
      ∧ (appLogic stoppedAt9_5 (freshWorld stateCodes.OPERATING 10)).2.m_state
        = stateCodes.OPERATING
      ∧ (appLogic stoppedAt9_5 (freshWorld stateCodes.OPERATING 10)).1 = 0
      ∧ (⟨LogKind.software_error, 335, "There's been an error with movement.".toList⟩ :
          LogEntry) ∈ (appLogic stoppedAt9_5 (freshWorld stateCodes.OPERATING 10)).2.logs
      ∧ error_band = 13421773 / 268435456
      ∧ ∀ x : ℚ, 1 / 2 ≤ |x| → |ieee754.toDouble x| > error_band :=
  C3_mismatch_logged_state_kept stoppedAt9_5 (freshWorld stateCodes.OPERATING 10) rfl
    (by decide) (by decide) (by decide) (by decide)
    (by
      rw [show appLogic_current stoppedAt9_5 (freshWorld stateCodes.OPERATING 10) = 9.5 from rfl]
      exact beyond_error_band_half _ (by norm_num [freshWorld, abs_of_pos]))

/-- C17, the code at the failing input: the tick begins in `CONNECTED` with
target `9.5`, the liveness reply is all-clear, the write of the home command
fails with `-42013`, the stage reports `1TS00000A` at `9.5`, and the tick ends in
`READY`. -/
theorem C17_READY_without_homing :
    (freshWorld stateCodes.CONNECTED 9.5).m_state = stateCodes.CONNECTED
      ∧ writeFailsEnv.ttyWrite 1 buffer_OR ≠ writeFailsEnv.TTY_E_NOERROR
      ∧ (setUpMoving writeFailsEnv
          (ttyWriteRead writeFailsEnv (freshWorld stateCodes.CONNECTED 9.5) buffer_TS).2.2).1
        = -1
      ∧ (appLogic writeFailsEnv (freshWorld stateCodes.CONNECTED 9.5)).2.trace =
          [Event.ttyWriteRead buffer_TS, Event.ttyWrite buffer_OR,
            Event.ttyWriteRead buffer_TP, Event.ttyWriteRead buffer_TE,
            Event.ttyWriteRead buffer_TS, Event.ttyWriteRead buffer_TE]
      ∧ (appLogic writeFailsEnv (freshWorld stateCodes.CONNECTED 9.5)).2.m_state
        = stateCodes.READY := by
  refine ⟨rfl, by decide, by decide, ?_, ?_⟩
  · exact appLogic_CONNECTED_tick_trace writeFailsEnv (freshWorld stateCodes.CONNECTED 9.5)
      rfl (by decide)
  · exact appLogic_connected_reached writeFailsEnv (freshWorld stateCodes.CONNECTED 9.5)
      (Or.inl rfl) (by decide) (by decide) (by decide)
      (by
        rw [show appLogic_current writeFailsEnv (freshWorld stateCodes.CONNECTED 9.5) = 9.5
          from rfl]
        norm_num [freshWorld])

/-- C18, the code at the failing input: the status exchange succeeds with an
empty reply, the position `10.02` is within `0.05` of the target `10`, and
`checkPosition` returns `0` and sets the state to `READY`. -/
theorem C18_empty_status_reply_taken_as_stopped :
    emptyStatusEnv.ttyWriteRead 0 buffer_TS = (emptyStatusEnv.TTY_E_NOERROR, [])
      ∧ (checkPosition emptyStatusEnv (freshWorld stateCodes.OPERATING 10) 10.02).1 = 0
      ∧ (checkPosition emptyStatusEnv (freshWorld stateCodes.OPERATING 10) 10.02).2.m_state
        = stateCodes.READY := by
  have h := checkPosition_reached emptyStatusEnv (freshWorld stateCodes.OPERATING 10) 10.02
    (by decide) (by decide) (by norm_num [freshWorld, abs_le])
  exact ⟨rfl, h.1, h.2.1⟩

/-- The three outcomes of `getPosition`. -/
theorem getPosition_spec (E : Env) (w : World) (current : ℚ) :
    (((E.ttyWriteRead w.trace.length buffer_TP).1 ≠ E.TTY_E_NOERROR
        ∨ (E.ttyWriteRead w.trace.length buffer_TP).2.length < 3
        ∨ E.stof ((E.ttyWriteRead w.trace.length buffer_TP).2.drop 3) = none) →
      (getPosition E w current).1 = -1 ∧ (getPosition E w current).2.1 = current)
    ∧ (∀ v : ℚ, (E.ttyWriteRead w.trace.length buffer_TP).1 = E.TTY_E_NOERROR →
      3 ≤ (E.ttyWriteRead w.trace.length buffer_TP).2.length →
      E.stof ((E.ttyWriteRead w.trace.length buffer_TP).2.drop 3) = some v →
      (getPosition E w current).1 = 0 ∧ (getPosition E w current).2.1 = v) := by
  unfold getPosition
  simp only [ttyWriteRead_rv, ttyWriteRead_output]
  refine ⟨fun h => ?_, fun v h1 h2 h3 => ?_⟩
  · by_cases hrv : (E.ttyWriteRead w.trace.length buffer_TP).1 = E.TTY_E_NOERROR
    · rw [if_neg (not_not.mpr hrv)]
      by_cases hlen : (E.ttyWriteRead w.trace.length buffer_TP).2.length < 3
      · rw [if_pos hlen]
        exact ⟨rfl, rfl⟩
      · rw [if_neg hlen]
        rcases h with h | h | h
        · exact absurd hrv h
        · exact absurd h hlen
        · rw [h]
          exact ⟨rfl, rfl⟩
    · rw [if_pos hrv]
      exact ⟨rfl, rfl⟩
  · rw [if_neg (not_not.mpr h1), if_neg (not_lt.mpr h2), h3]
    exact ⟨rfl, rfl⟩

/-- C19. For every position reply that is shorter than the three-character
header, or whose remainder after the first three characters does not parse as a
number (`std::stof` throws), `getPosition` returns `-1` and leaves the caller's
`current` unchanged; when the exchange succeeds and the remainder parses, it
returns `0` with `current` set to the parsed value.  The function is total:
every exception is caught inside it. -/
theorem C19_getPosition_decoding (E : Env) (w : World) (current : ℚ) :
    (((E.ttyWriteRead w.trace.length buffer_TP).2.length < 3
        ∨ E.stof ((E.ttyWriteRead w.trace.length buffer_TP).2.drop 3) = none) →
      (getPosition E w current).1 = -1 ∧ (getPosition E w current).2.1 = current)
    ∧ (∀ v : ℚ, (E.ttyWriteRead w.trace.length buffer_TP).1 = E.TTY_E_NOERROR →
      3 ≤ (E.ttyWriteRead w.trace.length buffer_TP).2.length →
      E.stof ((E.ttyWriteRead w.trace.length buffer_TP).2.drop 3) = some v →
      (getPosition E w current).1 = 0 ∧ (getPosition E w current).2.1 = v) :=
  ⟨fun h => (getPosition_spec E w current).1 (Or.inr h), (getPosition_spec E w current).2⟩

/-- C19 at concrete inputs: the replies `1T` (too short) and `1TPxyz` (no
number) leave `current` at `-99` with return `-1`; the reply `1TP9.5` sets it to
`9.5` with return `0`. -/
theorem C19_getPosition_witness :
    ((getPosition shortPositionEnv (freshWorld stateCodes.READY 0) (-99)).1 = -1
        ∧ (getPosition shortPositionEnv (freshWorld stateCodes.READY 0) (-99)).2.1 = -99)
      ∧ ((getPosition garbledPositionEnv (freshWorld stateCodes.READY 0) (-99)).1 = -1
        ∧ (getPosition garbledPositionEnv (freshWorld stateCodes.READY 0) (-99)).2.1 = -99)
      ∧ ((getPosition stoppedAt9_5 (freshWorld stateCodes.READY 0) (-99)).1 = 0
        ∧ (getPosition stoppedAt9_5 (freshWorld stateCodes.READY 0) (-99)).2.1 = 9.5) :=
  ⟨(C19_getPosition_decoding shortPositionEnv (freshWorld stateCodes.READY 0) (-99)).1
      (Or.inl (by decide)),
    (C19_getPosition_decoding garbledPositionEnv (freshWorld stateCodes.READY 0) (-99)).1
      (Or.inr (by decide)),
    (C19_getPosition_decoding stoppedAt9_5 (freshWorld stateCodes.READY 0) (-99)).2 9.5
      (by decide) (by decide) rfl⟩

/-! ## The frames on the line -/

theorem Extends.of_eq {P : Event → Prop} {w w1 : World} (l : List Event)
    (h : w1.trace = w.trace ++ l) (hP : ∀ e ∈ l, P e) : Extends P w w1 :=
  ⟨l, h, hP⟩

theorem getLastError_ext (E : Env) (w : World) (s : Str) :
    Extends (frameOK E) w (getLastError E w s).2.2 :=
  Extends.of_eq [Event.ttyWriteRead buffer_TE] (getLastError_trace E w s) (by simp [frameOK])

theorem checkPosition_ext (E : Env) (w : World) (c : ℚ) :
    Extends (frameOK E) w (checkPosition E w c).2 :=
  Extends.of_eq [Event.ttyWriteRead buffer_TS] (checkPosition_general E w c).2.2
    (by simp [frameOK])

theorem testConnection_ext (E : Env) (w : World) :
    Extends (frameOK E) w (testConnection E w).2 := by
  rcases (testConnection_general E w).2.2 with h | h
  · exact Extends.of_eq _ h (by simp [frameOK])
  · exact Extends.of_eq _ h.2.2 (by simp [frameOK])

/-- The events of a move: the move-absolute frame, then the error query when
the write succeeded. -/
theorem frameOK_move (E : Env) (pos : ℚ) (c : Prop) [Decidable c] :
    ∀ e ∈ Event.ttyWrite (buffer_PA E pos) ::
      (if c then [Event.ttyWriteRead buffer_TE] else []), frameOK E e := by
  intro e he
  by_cases hc : c
  · rw [if_pos hc] at he
    simp only [List.mem_cons, List.mem_singleton, List.not_mem_nil, or_false] at he
    rcases he with rfl | rfl
    · exact Or.inr ⟨pos, rfl⟩
    · exact Or.inr (Or.inr rfl)
  · rw [if_neg hc] at he
    simp only [List.mem_singleton] at he
    rw [he]
    exact Or.inr ⟨pos, rfl⟩

theorem moveToPosition_ext (E : Env) (w : World) (pos : ℚ) :
    Extends (frameOK E) w (moveToPosition E w pos).2 :=
  Extends.of_eq _ (moveToPosition_spec E w pos).2.1 (frameOK_move E pos _)

theorem newCallBack_ext (E : Env) (w : World) (ipRecv : IndiProperty) (rv : Int) (w1 : World)
    (h : newCallBack_m_indiP_position E w ipRecv = some (rv, w1)) :
    Extends (frameOK E) w w1 := by
  by_cases hname : ipRecv.name = m_indiP_position_name
  · by_cases hle : (if ipRecv.target.getD (-99) = -99 then ipRecv.current.getD (-99)
        else ipRecv.target.getD (-99)) ≤ 0
    · rw [newCallBack_ignore E w ipRecv hname hle] at h
      cases h
      exact Extends.refl _ _
    · by_cases hs : w.m_state = stateCodes.OPERATING
      · rcases newCallBack_cases E w ipRecv with h1 | h1 | h1 | h1
        · rw [h1] at h
          cases h
          exact Extends.refl _ _
        · rw [h1] at h
          cases h
          exact Extends.refl _ _
        · rw [h1.2] at h
          cases h
        · exact absurd hs h1.1
      · obtain ⟨rv2, w2, h1, -, h3, -, -⟩ := newCallBack_move E w ipRecv _ hname rfl
          (not_le.mp hle) hs
        rw [h1] at h
        cases h
        exact Extends.of_eq _ h3 (frameOK_move E _ _)
  · have h1 : newCallBack_m_indiP_position E w ipRecv = some (-1, w) := by
      unfold newCallBack_m_indiP_position
      simp only [hname, if_false]
    rw [h1] at h
    cases h
    exact Extends.refl _ _

theorem appLogic_CONNECTED_ext (E : Env) (w : World) :
    Extends (frameOK E) w (appLogic_CONNECTED E w) := by
  by_cases h0 : w.m_state = stateCodes.CONNECTED ∨ w.m_state = stateCodes.READY
      ∨ w.m_state = stateCodes.OPERATING
  · refine (testConnection_ext E w).trans (Extends.of_eq _ (appLogic_CONNECTED_trace E w h0) ?_)
    intro e he
    split_ifs at he <;> simp at he <;> rcases he with rfl | rfl | rfl | rfl | rfl <;>
      simp [frameOK]
  · have hw : appLogic_CONNECTED E w = w := by
      unfold appLogic_CONNECTED
      rw [if_neg h0]
    rw [hw]
    exact Extends.refl _ _

/-- The calls of the `NODEVICE` block: none, or one discovery. -/
theorem appLogic_NODEVICE_trace (E : Env) (w : World) :
    (appLogic_NODEVICE E w).2.trace = w.trace
      ∨ (appLogic_NODEVICE E w).2.trace = w.trace ++ [Event.getDeviceName] := by
  unfold appLogic_NODEVICE
  simp only []
  split_ifs <;> simp [callCommand]

/-- The calls of the `ERROR` block: none, or one discovery. -/
theorem appLogic_ERROR_trace (E : Env) (w : World) :
    (appLogic_ERROR E w).2.trace = w.trace
      ∨ (appLogic_ERROR E w).2.trace = w.trace ++ [Event.getDeviceName] := by
  unfold appLogic_ERROR
  simp only []
  split_ifs <;> simp

/-- The calls of the `NOTCONNECTED` block: none; the opening of the port and a
discovery; or the opening of the port and the liveness test, followed by the
error query when the test fails. -/
theorem appLogic_NOTCONNECTED_trace (E : Env) (w : World) :
    (appLogic_NOTCONNECTED E w).2.trace = w.trace
      ∨ (appLogic_NOTCONNECTED E w).2.trace = w.trace
          ++ [Event.euidCalled, Event.connect, Event.euidReal, Event.getDeviceName]
      ∨ (appLogic_NOTCONNECTED E w).2.trace = (testConnection E (afterConnect E w)).2.trace
      ∨ (appLogic_NOTCONNECTED E w).2.trace = (testConnection E (afterConnect E w)).2.trace
          ++ [Event.ttyWriteRead buffer_TE] := by
  unfold appLogic_NOTCONNECTED
  simp only [← afterConnect.eq_1]
  split_ifs <;> simp

theorem appLogic_NODEVICE_ext (E : Env) (w : World) :
    Extends (frameOK E) w (appLogic_NODEVICE E w).2 := by
  rcases appLogic_NODEVICE_trace E w with h | h
  · exact Extends.of_eq [] (by rw [h]; simp) (by simp)
  · exact Extends.of_eq _ h (by simp [frameOK])

theorem appLogic_ERROR_ext (E : Env) (w : World) :
    Extends (frameOK E) w (appLogic_ERROR E w).2 := by
  rcases appLogic_ERROR_trace E w with h | h
  · exact Extends.of_eq [] (by rw [h]; simp) (by simp)
  · exact Extends.of_eq _ h (by simp [frameOK])

theorem appLogic_NOTCONNECTED_ext (E : Env) (w : World) :
    Extends (frameOK E) w (appLogic_NOTCONNECTED E w).2 := by
  have ha : Extends (frameOK E) w (afterConnect E w) :=
    Extends.of_eq _ (afterConnect_trace E w) (by simp [frameOK])
  rcases appLogic_NOTCONNECTED_trace E w with h | h | h | h
  · exact Extends.of_eq [] (by rw [h]; simp) (by simp)
  · exact Extends.of_eq _ h (by simp [frameOK])
  · exact (ha.trans (testConnection_ext E _)).same h
  · exact (ha.trans (testConnection_ext E _)).step _ h (by simp [frameOK])

/-- Every call that a poll tick adds to the trace carries a frame of the
source. -/
theorem appLogic_ext (E : Env) (w : World) : Extends (frameOK E) w (appLogic E w).2 := by
  by_cases hI : w.m_state = stateCodes.INITIALIZED
  · have h : appLogic E w
        = (-1, log w LogKind.text_log 211 "In appLogic but in state INITIALIZED.".toList) := by
      unfold appLogic
      rw [if_pos hI]
    rw [h]
    exact (Extends.refl _ w).same (by simp)
  · cases h1 : (appLogic_NODEVICE E w).1 with
    | some rv =>
      rw [appLogic_of_NODEVICE_return E w rv hI h1]
      exact appLogic_NODEVICE_ext E w
    | none =>
      cases h2 : (appLogic_NOTCONNECTED E (appLogic_NODEVICE E w).2).1 with
      | some rv =>
        rw [appLogic_of_NOTCONNECTED_return E w rv hI h1 h2]
        exact (appLogic_NODEVICE_ext E w).trans (appLogic_NOTCONNECTED_ext E _)
      | none =>
        rw [appLogic_fall E w hI h1 h2]
        exact (((appLogic_NODEVICE_ext E w).trans (appLogic_NOTCONNECTED_ext E _)).trans
          (appLogic_CONNECTED_ext E _)).trans (appLogic_ERROR_ext E _)

/-- C20, the claim refuted: the status query that `testConnection` sends is
`1TS` followed by four characters, CR LF CR LF, not by the two-character
terminator alone. -/
theorem C20_counterexample_status_frame :
    (testConnection stoppedAt9_5 (freshWorld stateCodes.READY 0)).2.trace
        = [Event.ttyWriteRead ("1TS".toList ++ "\r\n\r\n".toList)]
      ∧ "1TS".toList ++ "\r\n\r\n".toList ≠ "1TS".toList ++ "\r\n".toList := by
  decide

/-- C20 as amended. Every frame the controller writes to the device, in a poll
tick or in a target submission, is the command text addressed to controller 1
(`1TS`, `1TP`, `1TE` for the queries, `1OR` or `1PA` followed by the text of the
position for the writes) followed by the four characters CR LF CR LF, the
two-character terminator twice, and nothing else. -/
theorem C20_frames_end_in_doubled_terminator (E : Env) (w : World) (ipRecv : IndiProperty) :
    (∀ e ∈ (appLogic E w).2.trace.drop w.trace.length, frameOK E e)
      ∧ (∀ (rv : Int) (w1 : World), newCallBack_m_indiP_position E w ipRecv = some (rv, w1) →
          ∀ e ∈ w1.trace.drop w.trace.length, frameOK E e)
      ∧ buffer_TS = "1TS".toList ++ "\r\n\r\n".toList
      ∧ buffer_TP = "1TP".toList ++ "\r\n\r\n".toList
      ∧ buffer_TE = "1TE".toList ++ "\r\n\r\n".toList
      ∧ buffer_OR = "1OR".toList ++ "\r\n\r\n".toList
      ∧ (∀ pos : ℚ, buffer_PA E pos = "1PA".toList ++ E.to_string pos ++ "\r\n\r\n".toList) :=
  ⟨(appLogic_ext E w).drop, fun rv w1 h => (newCallBack_ext E w ipRecv rv w1 h).drop,
    rfl, rfl, rfl, rfl, fun _ => rfl⟩

/-! ## Further lemmas -/

/-- The return value of `getLastError`: `0` exactly for a successful exchange
with `'@'` at offset 3, `-1` otherwise. -/
theorem getLastError_zero_iff (E : Env) (w : World) (s : Str) :
    ((getLastError E w s).1 = 0 ↔
        ((E.ttyWriteRead w.trace.length buffer_TE).1 = E.TTY_E_NOERROR
          ∧ (E.ttyWriteRead w.trace.length buffer_TE).2[3]? = some '@'))
      ∧ ((getLastError E w s).1 = 0 ∨ (getLastError E w s).1 = -1) := by
  by_cases hrv : (E.ttyWriteRead w.trace.length buffer_TE).1 = E.TTY_E_NOERROR
  · cases hc : (E.ttyWriteRead w.trace.length buffer_TE).2[3]? with
    | none =>
      rw [getLastError_short E w s hrv hc]
      simp
    | some c =>
      rw [(getLastError_char E w s c hrv hc).1]
      by_cases h : c = '@'
      · simp [h, hrv]
      · simp [h]
  · rw [(getLastError_transport E w s hrv).1]
    simp [hrv]

/-- The return value of `moveToPosition`. -/
theorem moveToPosition_rv (E : Env) (w : World) (pos : ℚ) :
    ((moveToPosition E w pos).1 = 0 ↔
        (E.ttyWrite w.trace.length (buffer_PA E pos) = E.TTY_E_NOERROR
          ∧ (E.ttyWriteRead (w.trace.length + 1) buffer_TE).1 = E.TTY_E_NOERROR
          ∧ (E.ttyWriteRead (w.trace.length + 1) buffer_TE).2[3]? = some '@'))
      ∧ ((moveToPosition E w pos).1 = 0 ∨ (moveToPosition E w pos).1 = -1) := by
  unfold moveToPosition
  simp only [ttyWrite_rv]
  by_cases hw : E.ttyWrite w.trace.length (buffer_PA E pos) = E.TTY_E_NOERROR
  · rw [if_neg (not_not.mpr hw)]
    have hl : (state (ttyWrite E w (buffer_PA E pos)).2 stateCodes.OPERATING).trace.length
        = w.trace.length + 1 := by simp
    have hg := getLastError_zero_iff E
      (state (ttyWrite E w (buffer_PA E pos)).2 stateCodes.OPERATING) []
    rw [hl] at hg
    by_cases he : (getLastError E
        (state (ttyWrite E w (buffer_PA E pos)).2 stateCodes.OPERATING) []).1 = 0
    · rw [if_pos he]
      exact ⟨⟨fun _ => ⟨hw, hg.1.mp he⟩, fun _ => rfl⟩, Or.inl rfl⟩
    · rw [if_neg he]
      exact ⟨⟨fun h => absurd (show (-1 : Int) = 0 from h) (by decide),
        fun h => absurd (hg.1.mpr h.2) he⟩, Or.inr rfl⟩
  · rw [if_pos hw]
    exact ⟨⟨fun h => absurd (show (-1 : Int) = 0 from h) (by decide),
      fun h => absurd h.1 hw⟩, Or.inr rfl⟩

/-- C21, the code at the failing input: the write of the move-absolute frame
for position `10` succeeds, the device then answers the error query with `1TEC`,
and `moveToPosition` returns `-1`, with the frame on the line and the state
`OPERATING`. -/
theorem C21_write_ok_returns_error :
    rejectedMoveEnv.ttyWrite (freshWorld stateCodes.READY 0).trace.length
        (buffer_PA rejectedMoveEnv 10) = rejectedMoveEnv.TTY_E_NOERROR
      ∧ rejectedMoveEnv.ttyWriteRead 1 buffer_TE
        = (rejectedMoveEnv.TTY_E_NOERROR, "1TEC".toList)
      ∧ (moveToPosition rejectedMoveEnv (freshWorld stateCodes.READY 0) 10).1 = -1
      ∧ (moveToPosition rejectedMoveEnv (freshWorld stateCodes.READY 0) 10).2.trace
        = [Event.ttyWrite (buffer_PA rejectedMoveEnv 10), Event.ttyWriteRead buffer_TE]
      ∧ (moveToPosition rejectedMoveEnv (freshWorld stateCodes.READY 0) 10).2.m_state
        = stateCodes.OPERATING := by
  decide

/-- The callback depends on the notification through its name and through the
target that it takes from it, `current` standing in for a `target` of `-99`. -/
theorem newCallBack_congr (E : Env) (w : World) (ip1 ip2 : IndiProperty)
    (hname : ip1.name = ip2.name)
    (heff : (if ip1.target.getD (-99) = -99 then ip1.current.getD (-99)
        else ip1.target.getD (-99))
      = (if ip2.target.getD (-99) = -99 then ip2.current.getD (-99)
        else ip2.target.getD (-99))) :
    newCallBack_m_indiP_position E w ip1 = newCallBack_m_indiP_position E w ip2 := by
  unfold newCallBack_m_indiP_position
  simp only [hname, heff]

/-- C30. A notification for the `position` property whose target element is
missing, or equals the sentinel `-99`, and whose current element is `c > 0` is
handled exactly as a submission of target `c`, whatever the current element of
that submission: outside `OPERATING` the callback returns with `m_target = c`
after writing the move-absolute frame for `c`.  If both elements are missing the
callback returns `0` and changes nothing. -/
theorem C30_missing_target_falls_back (E : Env) (w : World) (c : ℚ) (hc : 0 < c) :
    (∀ x : Option ℚ,
        newCallBack_m_indiP_position E w (notification (some c) none)
          = newCallBack_m_indiP_position E w (notification x (some c)))
      ∧ (∀ x : Option ℚ,
        newCallBack_m_indiP_position E w (notification (some c) (some (-99)))
          = newCallBack_m_indiP_position E w (notification x (some c)))
      ∧ (w.m_state ≠ stateCodes.OPERATING →
        ∃ (rv : Int) (w1 : World),
          newCallBack_m_indiP_position E w (notification (some c) none) = some (rv, w1)
            ∧ w1.m_target = c
            ∧ w1.trace = w.trace ++ Event.ttyWrite (buffer_PA E c) ::
                (if E.ttyWrite w.trace.length (buffer_PA E c) = E.TTY_E_NOERROR
                  then [Event.ttyWriteRead buffer_TE] else []))
      ∧ newCallBack_m_indiP_position E w (notification none none) = some (0, w) := by
  have hne : c ≠ -99 := by
    intro h
    rw [h] at hc
    exact absurd hc (by norm_num)
  refine ⟨fun x => ?_, fun x => ?_, fun hs => ?_, ?_⟩
  · exact newCallBack_congr E w _ _ rfl (by simp [notification, hne])
  · exact newCallBack_congr E w _ _ rfl (by simp [notification, hne])
  · obtain ⟨rv, w1, h1, h2, h3, -, -⟩ := newCallBack_move E w
      (notification (some c) none) c rfl (by simp [notification]) hc hs
    exact ⟨rv, w1, h1, h2, h3⟩
  · exact newCallBack_ignore E w (notification none none) rfl (by norm_num [notification])

/-- C30 at a concrete input: current element `10`, target element missing. -/
theorem C30_missing_target_witness :
    (∀ x : Option ℚ,
        newCallBack_m_indiP_position stoppedAt9_5 (freshWorld stateCodes.READY 0)
            (notification (some 10) none)
          = newCallBack_m_indiP_position stoppedAt9_5 (freshWorld stateCodes.READY 0)
            (notification x (some 10)))
      ∧ (∀ x : Option ℚ,
        newCallBack_m_indiP_position stoppedAt9_5 (freshWorld stateCodes.READY 0)
            (notification (some 10) (some (-99)))
          = newCallBack_m_indiP_position stoppedAt9_5 (freshWorld stateCodes.READY 0)
            (notification x (some 10)))
      ∧ ((freshWorld stateCodes.READY 0).m_state ≠ stateCodes.OPERATING →
        ∃ (rv : Int) (w1 : World),
          newCallBack_m_indiP_position stoppedAt9_5 (freshWorld stateCodes.READY 0)
              (notification (some 10) none) = some (rv, w1)
            ∧ w1.m_target = 10
            ∧ w1.trace = (freshWorld stateCodes.READY 0).trace
                ++ Event.ttyWrite (buffer_PA stoppedAt9_5 10) ::
                (if stoppedAt9_5.ttyWrite (freshWorld stateCodes.READY 0).trace.length
                    (buffer_PA stoppedAt9_5 10) = stoppedAt9_5.TTY_E_NOERROR
                  then [Event.ttyWriteRead buffer_TE] else []))
      ∧ newCallBack_m_indiP_position stoppedAt9_5 (freshWorld stateCodes.READY 0)
          (notification none none) = some (0, freshWorld stateCodes.READY 0) :=
  C30_missing_target_falls_back stoppedAt9_5 (freshWorld stateCodes.READY 0) 10 (by norm_num)

/-- A tick from `NOTCONNECTED` in which the port opens, both liveness tests pass
and the home command is accepted. -/
theorem appLogic_NOTCONNECTED_to_READY (E : Env) (w : World)
    (h0 : w.m_state = stateCodes.NOTCONNECTED)
    (hc : ¬ E.connect (w.trace.length + 1) < 0)
    (hp1 : allClear E (w.trace.length + 3))
    (hp2 : allClear E (w.trace.length + 4))
    (hw : E.ttyWrite (w.trace.length + 5) buffer_OR = E.TTY_E_NOERROR) :
    (appLogic E w).1 = 0
      ∧ (appLogic E w).2.m_state = stateCodes.READY
      ∧ (appLogic E w).2.trace = w.trace ++
          [Event.euidCalled, Event.connect, Event.euidReal,
            Event.ttyWriteRead buffer_TS,
            Event.ttyWriteRead buffer_TS, Event.ttyWrite buffer_OR,
            Event.ttyWriteRead buffer_TP, Event.ttyWriteRead buffer_TE,
            Event.ttyWriteRead buffer_TS, Event.ttyWriteRead buffer_TE] := by
  have hb := appLogic_NOTCONNECTED_pass E w h0 hc hp1.1 hp1.2
  have hl2 : (appLogic_NOTCONNECTED E w).2.trace.length = w.trace.length + 4 := by
    rw [hb.2.2.2]
    simp
  have hconn : (appLogic_NOTCONNECTED E w).2.m_state = stateCodes.CONNECTED
      ∨ (appLogic_NOTCONNECTED E w).2.m_state = stateCodes.READY
      ∨ (appLogic_NOTCONNECTED E w).2.m_state = stateCodes.OPERATING := Or.inl hb.2.1
  have ht := testConnection_pass_CONNECTED E (appLogic_NOTCONNECTED E w).2
    (by rw [hl2]; exact hp2.1) (by rw [hl2]; exact hp2.2) hb.2.1
  have hm := setUpMoving_spec E (ttyWriteRead E (appLogic_NOTCONNECTED E w).2 buffer_TS).2.2
  have hl3 : (ttyWriteRead E (appLogic_NOTCONNECTED E w).2 buffer_TS).2.2.trace.length
      = w.trace.length + 5 := by
    rw [ttyWriteRead_trace, List.length_append, hl2]
    rfl
  have hready := (hm.2.2.1 (by rw [hl3]; exact hw)).2
  have ht1 : (testConnection E (appLogic_NOTCONNECTED E w).2).1 = 0 := by rw [ht]
  rw [appLogic_NOTCONNECTED_fall E w h0 hb.1 (Or.inr hb.2.1)]
  refine ⟨rfl, ?_, ?_⟩
  · show (appLogic_CONNECTED E _).m_state = _
    rw [appLogic_CONNECTED_split E _ hconn ht1, (appLogic_afterCheck_frame E _).1]
    rcases (checkPosition_general E (appLogic_beforeCheck E (appLogic_NOTCONNECTED E w).2)
      (appLogic_current E (appLogic_NOTCONNECTED E w).2)).2.1 with h | h
    · rw [h, (appLogic_beforeCheck_general E _).1, ht]
      exact hready
    · exact h
  · show (appLogic_CONNECTED E _).trace = _
    rw [appLogic_CONNECTED_trace E _ hconn, if_pos ht1, ht, hm.1, ttyWriteRead_trace, hb.2.2.2]
    simp

/-- C29. A single poll tick takes the controller from `NOTCONNECTED` to `READY`:
when `connect` succeeds, both liveness replies of the tick begin `1TS0000` and
the write of the home command succeeds, the liveness query is sent twice, the
home command once, after the second liveness query and not after the first, and
the tick returns `0` in `READY`, whatever the position and error replies and the
reply to the status query of `checkPosition` (the third `1TS` of the tick) are. -/
theorem C29_NOTCONNECTED_to_READY (E : Env) (w : World)
    (h0 : w.m_state = stateCodes.NOTCONNECTED)
    (hc : ¬ E.connect (w.trace.length + 1) < 0)
    (hp1 : allClear E (w.trace.length + 3))
    (hp2 : allClear E (w.trace.length + 4))
    (hw : E.ttyWrite (w.trace.length + 5) buffer_OR = E.TTY_E_NOERROR) :
    (appLogic E w).1 = 0
      ∧ (appLogic E w).2.m_state = stateCodes.READY
      ∧ (appLogic E w).2.trace = w.trace ++
          [Event.euidCalled, Event.connect, Event.euidReal,
            Event.ttyWriteRead buffer_TS,
            Event.ttyWriteRead buffer_TS, Event.ttyWrite buffer_OR,
            Event.ttyWriteRead buffer_TP, Event.ttyWriteRead buffer_TE,
            Event.ttyWriteRead buffer_TS, Event.ttyWriteRead buffer_TE] :=
  appLogic_NOTCONNECTED_to_READY E w h0 hc hp1 hp2 hw

/-- C29 at a concrete input: a stage stopped at `9.5` with target `0`, far off
target, is taken from `NOTCONNECTED` to `READY`. -/
theorem C29_NOTCONNECTED_to_READY_witness :
    (appLogic stoppedAt9_5 (freshWorld stateCodes.NOTCONNECTED 0)).1 = 0
      ∧ (appLogic stoppedAt9_5 (freshWorld stateCodes.NOTCONNECTED 0)).2.m_state
        = stateCodes.READY
      ∧ (appLogic stoppedAt9_5 (freshWorld stateCodes.NOTCONNECTED 0)).2.trace
        = (freshWorld stateCodes.NOTCONNECTED 0).trace ++
          [Event.euidCalled, Event.connect, Event.euidReal,
            Event.ttyWriteRead buffer_TS,
            Event.ttyWriteRead buffer_TS, Event.ttyWrite buffer_OR,
            Event.ttyWriteRead buffer_TP, Event.ttyWriteRead buffer_TE,
            Event.ttyWriteRead buffer_TS, Event.ttyWriteRead buffer_TE] :=
  C29_NOTCONNECTED_to_READY stoppedAt9_5 (freshWorld stateCodes.NOTCONNECTED 0) rfl
    (by decide) (by decide) (by decide) (by decide)

theorem withErrorReply_TS (E : Env) (r : Str) (n : Nat) :
    (withErrorReply E r).ttyWriteRead n buffer_TS = E.ttyWriteRead n buffer_TS := rfl

theorem withErrorReply_TP (E : Env) (r : Str) (n : Nat) :
    (withErrorReply E r).ttyWriteRead n buffer_TP = E.ttyWriteRead n buffer_TP := rfl

theorem withErrorReply_TE (E : Env) (r : Str) (n : Nat) :
    (withErrorReply E r).ttyWriteRead n buffer_TE = (E.TTY_E_NOERROR, r) := rfl

theorem testConnection_withErrorReply (E : Env) (r : Str) (w : World) :
    testConnection (withErrorReply E r) w = testConnection E w := rfl

theorem getPosition_withErrorReply (E : Env) (r : Str) (w : World) (c : ℚ) :
    getPosition (withErrorReply E r) w c = getPosition E w c := rfl

theorem checkPosition_withErrorReply (E : Env) (r : Str) (w : World) (c : ℚ) :
    checkPosition (withErrorReply E r) w c = checkPosition E w c := rfl

/-- An error query answered with a character that is neither `'@'` nor a case
label: `-1`, and the error string as the caller passed it. -/
theorem getLastError_unknown (E : Env) (w : World) (s : Str) (c : Char)
    (hrv : (E.ttyWriteRead w.trace.length buffer_TE).1 = E.TTY_E_NOERROR)
    (hc : (E.ttyWriteRead w.trace.length buffer_TE).2[3]? = some c)
    (hat : c ≠ '@') (hmem : c ∉ caseLabels) :
    getLastError E w s = (-1, s, (ttyWriteRead E w buffer_TE).2.2) := by
  unfold getLastError
  simp only [ttyWriteRead_rv, ttyWriteRead_output, hrv, hc, ne_eq, not_true_eq_false, if_false,
    hat, errorSwitch_of_not_mem c hmem]

/-- An error query answered with `'@'`: `0`, and the error string as the caller
passed it. -/
theorem getLastError_at (E : Env) (w : World) (s : Str)
    (hrv : (E.ttyWriteRead w.trace.length buffer_TE).1 = E.TTY_E_NOERROR)
    (hc : (E.ttyWriteRead w.trace.length buffer_TE).2[3]? = some '@') :
    getLastError E w s = (0, s, (ttyWriteRead E w buffer_TE).2.2) := by
  unfold getLastError
  simp only [ttyWriteRead_rv, ttyWriteRead_output, hrv, hc, ne_eq, not_true_eq_false, if_false,
    if_true]

theorem ttyWriteRead_withErrorReply_world (E : Env) (r : Str) (w : World) (b : Str) :
    (ttyWriteRead (withErrorReply E r) w b).2.2 = (ttyWriteRead E w b).2.2 := rfl

/-- The `CONNECTED` block after a passed liveness test treats an error reply
with an unhandled character as it treats a reply with `'@'`. -/
theorem appLogic_CONNECTED_unknown_as_at (E : Env) (w : World) (r1 r2 : Str) (c : Char)
    (h0 : w.m_state = stateCodes.CONNECTED ∨ w.m_state = stateCodes.READY
      ∨ w.m_state = stateCodes.OPERATING)
    (ht : (testConnection E w).1 = 0)
    (hr1 : r1[3]? = some c) (hat : c ≠ '@') (hmem : c ∉ caseLabels)
    (hr2 : r2[3]? = some '@') :
    appLogic_CONNECTED (withErrorReply E r1) w = appLogic_CONNECTED (withErrorReply E r2) w := by
  have g1 : ∀ (x : World) (s : Str), getLastError (withErrorReply E r1) x s
      = (-1, s, (ttyWriteRead E x buffer_TE).2.2) := fun x s =>
    getLastError_unknown (withErrorReply E r1) x s c rfl hr1 hat hmem
  have g2 : ∀ (x : World) (s : Str), getLastError (withErrorReply E r2) x s
      = (0, s, (ttyWriteRead E x buffer_TE).2.2) := fun x s =>
    getLastError_at (withErrorReply E r2) x s rfl hr2
  unfold appLogic_CONNECTED
  simp only [h0, if_true, testConnection_withErrorReply, getPosition_withErrorReply,
    checkPosition_withErrorReply, ht, ne_eq, not_true_eq_false, if_false, g1, g2,
    List.length_nil, and_false, false_and]

/-- C27, the claim refuted: in a tick that begins in `READY` and whose liveness
test fails, an error reply `1TEZ` adds a `software_error` log entry (source line
315, with the empty error string) that the reply `1TE@` does not add; the
resulting state is `NOTCONNECTED` for both. -/
theorem C27_counterexample_failed_liveness_logs :
    (⟨LogKind.software_error, 315, []⟩ : LogEntry)
        ∈ (appLogic (withErrorReply deadEnv "1TEZ".toList) (freshWorld stateCodes.READY 0)).2.logs
      ∧ (⟨LogKind.software_error, 315, []⟩ : LogEntry)
        ∉ (appLogic (withErrorReply deadEnv "1TE@".toList) (freshWorld stateCodes.READY 0)).2.logs
      ∧ (appLogic (withErrorReply deadEnv "1TEZ".toList) (freshWorld stateCodes.READY 0)).2.logs
        ≠ (appLogic (withErrorReply deadEnv "1TE@".toList)
            (freshWorld stateCodes.READY 0)).2.logs := by
  decide

/-- C27 as amended. For every reply to the error query whose character at
offset 3 is neither `'@'` nor a recognised code, `getLastError` returns `-1` and
leaves the caller's error string unmodified.  A polling tick that begins in
`CONNECTED`, `READY` or `OPERATING` and whose liveness test passes handles such
a reply exactly as it handles an `'@'` reply: the return value and the whole
resulting world, the log and the state among them, are the same.  When the
liveness test fails the resulting state is still the same. -/
theorem C27_unknown_code_in_passing_tick (E : Env) (w : World) (r1 r2 : Str) (c : Char)
    (hr1 : r1[3]? = some c) (hat : c ≠ '@') (hmem : c ∉ caseLabels)
    (hr2 : r2[3]? = some '@') :
    (∀ s : Str, (getLastError (withErrorReply E r1) w s).1 = -1
        ∧ (getLastError (withErrorReply E r1) w s).2.1 = s)
      ∧ ((w.m_state = stateCodes.CONNECTED ∨ w.m_state = stateCodes.READY
          ∨ w.m_state = stateCodes.OPERATING) →
        ((testConnection E w).1 = 0 →
          appLogic (withErrorReply E r1) w = appLogic (withErrorReply E r2) w)
        ∧ (appLogic (withErrorReply E r1) w).2.m_state
          = (appLogic (withErrorReply E r2) w).2.m_state) := by
  refine ⟨fun s => ?_, fun h0 => ?_⟩
  · rw [getLastError_unknown (withErrorReply E r1) w s c rfl hr1 hat hmem]
    exact ⟨rfl, rfl⟩
  · have hpass : (testConnection E w).1 = 0 →
        appLogic (withErrorReply E r1) w = appLogic (withErrorReply E r2) w := by
      intro ht
      rw [appLogic_connected_eq _ w h0, appLogic_connected_eq _ w h0,
        appLogic_CONNECTED_unknown_as_at E w r1 r2 c h0 ht hr1 hat hmem hr2]
    refine ⟨hpass, ?_⟩
    by_cases ht : (testConnection E w).1 = 0
    · rw [hpass ht]
    · have hf := testConnection_ne_zero E w ht
      rw [appLogic_connected_eq _ w h0, appLogic_connected_eq _ w h0]
      show (appLogic_CONNECTED _ w).m_state = (appLogic_CONNECTED _ w).m_state
      rw [(appLogic_CONNECTED_fail (withErrorReply E r1) w h0 hf).1,
        (appLogic_CONNECTED_fail (withErrorReply E r2) w h0 hf).1]

/-- C27 as amended, at a concrete input: the replies `1TEZ` and `1TE@` in a tick
that begins in `OPERATING` on a stage stopped at `9.5`. -/
theorem C27_unknown_code_witness :
    (∀ s : Str,
        (getLastError (withErrorReply stoppedAt9_5 "1TEZ".toList)
          (freshWorld stateCodes.OPERATING 10) s).1 = -1
        ∧ (getLastError (withErrorReply stoppedAt9_5 "1TEZ".toList)
          (freshWorld stateCodes.OPERATING 10) s).2.1 = s)
      ∧ appLogic (withErrorReply stoppedAt9_5 "1TEZ".toList) (freshWorld stateCodes.OPERATING 10)
        = appLogic (withErrorReply stoppedAt9_5 "1TE@".toList)
            (freshWorld stateCodes.OPERATING 10) :=
  ⟨(C27_unknown_code_in_passing_tick stoppedAt9_5 (freshWorld stateCodes.OPERATING 10)
      "1TEZ".toList "1TE@".toList 'Z' rfl (by decide) (by decide) rfl).1,
    ((C27_unknown_code_in_passing_tick stoppedAt9_5 (freshWorld stateCodes.OPERATING 10)
      "1TEZ".toList "1TE@".toList 'Z' rfl (by decide) (by decide) rfl).2
      (Or.inr (Or.inr rfl))).1 (by decide)⟩

/-- A successful `appStartup` leaves `NODEVICE` or `NOTCONNECTED`. -/
theorem appStartup_state (w : World) (h : (appStartup w).1 = 0) :
    (appStartup w).2.m_state = stateCodes.NODEVICE
      ∨ (appStartup w).2.m_state = stateCodes.NOTCONNECTED := by
  unfold appStartup at h ⊢
  simp only [] at h ⊢
  split_ifs at h ⊢
  · exact absurd (show (-1 : Int) = 0 from h) (by decide)
  · exact Or.inl (by simp)
  · exact Or.inr (by simp)

theorem getLastError_ne_ERROR (E : Env) (w : World) (s : Str)
    (h : w.m_state ≠ stateCodes.ERROR) :
    (getLastError E w s).2.2.m_state ≠ stateCodes.ERROR := by
  rw [getLastError_m_state]
  exact h

theorem getPosition_ne_ERROR (E : Env) (w : World) (c : ℚ)
    (h : w.m_state ≠ stateCodes.ERROR) :
    (getPosition E w c).2.2.m_state ≠ stateCodes.ERROR := by
  rw [getPosition_m_state]
  exact h

theorem setUpMoving_ne_ERROR (E : Env) (w : World) (h : w.m_state ≠ stateCodes.ERROR) :
    (setUpMoving E w).2.m_state ≠ stateCodes.ERROR := by
  by_cases hw : E.ttyWrite w.trace.length buffer_OR = E.TTY_E_NOERROR
  · rw [((setUpMoving_spec E w).2.2.1 hw).2]
    decide
  · rw [((setUpMoving_spec E w).2.2.2 hw).2]
    exact h

theorem testConnection_ne_ERROR (E : Env) (w : World) (h : w.m_state ≠ stateCodes.ERROR) :
    (testConnection E w).2.m_state ≠ stateCodes.ERROR := by
  rcases (testConnection_general E w).2.1 with hs | hs
  · rw [hs]
    exact h
  · rw [hs.2]
    decide

theorem checkPosition_ne_ERROR (E : Env) (w : World) (c : ℚ)
    (h : w.m_state ≠ stateCodes.ERROR) :
    (checkPosition E w c).2.m_state ≠ stateCodes.ERROR := by
  rcases (checkPosition_general E w c).2.1 with hs | hs
  · rw [hs]
    exact h
  · rw [hs]
    decide

theorem moveToPosition_ne_ERROR (E : Env) (w : World) (pos : ℚ)
    (h : w.m_state ≠ stateCodes.ERROR) :
    (moveToPosition E w pos).2.m_state ≠ stateCodes.ERROR := by
  by_cases hw : E.ttyWrite w.trace.length (buffer_PA E pos) = E.TTY_E_NOERROR
  · rw [(moveToPosition_spec E w pos).2.2.1 hw]
    decide
  · rw [((moveToPosition_spec E w pos).2.2.2 hw).1]
    exact h

theorem newCallBack_ne_ERROR (E : Env) (w : World) (ipRecv : IndiProperty) (rv : Int)
    (w1 : World) (h : w.m_state ≠ stateCodes.ERROR)
    (hcb : newCallBack_m_indiP_position E w ipRecv = some (rv, w1)) :
    w1.m_state ≠ stateCodes.ERROR := by
  rcases newCallBack_cases E w ipRecv with h1 | h1 | h1 | h1
  · rw [h1] at hcb
    cases hcb
    exact h
  · rw [h1] at hcb
    cases hcb
    exact h
  · rw [h1.2] at hcb
    cases hcb
  · obtain ⟨-, rv2, w2, h2, hst⟩ := h1
    rw [h2] at hcb
    cases hcb
    rcases hst with hst | hst
    · rw [hst]
      decide
    · rw [hst]
      exact h

theorem appLogic_NODEVICE_ne_ERROR (E : Env) (w : World) (h : w.m_state ≠ stateCodes.ERROR) :
    (appLogic_NODEVICE E w).2.m_state ≠ stateCodes.ERROR := by
  unfold appLogic_NODEVICE
  simp only []
  split_ifs <;> simp [callCommand, h]

theorem appLogic_NOTCONNECTED_ne_ERROR (E : Env) (w : World)
    (h : w.m_state ≠ stateCodes.ERROR) :
    (appLogic_NOTCONNECTED E w).2.m_state ≠ stateCodes.ERROR := by
  have ht := testConnection_ne_ERROR E (afterConnect E w) (by simpa using h)
  unfold appLogic_NOTCONNECTED
  simp only [← afterConnect.eq_1]
  split_ifs <;> simp [h, ht]

theorem appLogic_CONNECTED_ne_ERROR (E : Env) (w : World) (h : w.m_state ≠ stateCodes.ERROR) :
    (appLogic_CONNECTED E w).m_state ≠ stateCodes.ERROR := by
  by_cases h0 : w.m_state = stateCodes.CONNECTED ∨ w.m_state = stateCodes.READY
      ∨ w.m_state = stateCodes.OPERATING
  · rcases appLogic_CONNECTED_state E w h0 with h1 | h1 | h1 | h1 <;> rw [h1] <;> decide
  · have hw : appLogic_CONNECTED E w = w := by
      unfold appLogic_CONNECTED
      rw [if_neg h0]
    rw [hw]
    exact h

/-- A poll tick that does not begin in `ERROR` does not end in `ERROR`. -/
theorem appLogic_ne_ERROR (E : Env) (w : World) (h : w.m_state ≠ stateCodes.ERROR) :
    (appLogic E w).2.m_state ≠ stateCodes.ERROR := by
  by_cases hI : w.m_state = stateCodes.INITIALIZED
  · have h1 : appLogic E w
        = (-1, log w LogKind.text_log 211 "In appLogic but in state INITIALIZED.".toList) := by
      unfold appLogic
      rw [if_pos hI]
    rw [h1]
    exact h
  · have hn := appLogic_NODEVICE_ne_ERROR E w h
    have hc := appLogic_NOTCONNECTED_ne_ERROR E _ hn
    cases h1 : (appLogic_NODEVICE E w).1 with
    | some rv =>
      rw [appLogic_of_NODEVICE_return E w rv hI h1]
      exact hn
    | none =>
      cases h2 : (appLogic_NOTCONNECTED E (appLogic_NODEVICE E w).2).1 with
      | some rv =>
        rw [appLogic_of_NOTCONNECTED_return E w rv hI h1 h2]
        exact hc
      | none =>
        rw [appLogic_fall E w hI h1 h2,
          appLogic_ERROR_of_ne E _ (appLogic_CONNECTED_ne_ERROR E _ hc)]
        exact appLogic_CONNECTED_ne_ERROR E _ hc

/-- No reachable world is in `ERROR`. -/
theorem Reachable_ne_ERROR (E : Env) (w : World) (h : Reachable E w) :
    w.m_state ≠ stateCodes.ERROR := by
  induction h with
  | startup w0 h0 =>
    rcases appStartup_state w0 h0 with h1 | h1 <;> rw [h1] <;> decide
  | tick w0 _ ih => exact appLogic_ne_ERROR E w0 ih
  | submit w0 ip rv w1 _ hcb ih => exact newCallBack_ne_ERROR E w0 ip rv w1 ih hcb

/-- C28. The state `ERROR` is never entered by the stage controller: from every
state other than `ERROR`, for every transport, discovery and property input, the
state after `appLogic`, after the position callback when it returns, and after
each helper (`testConnection`, `setUpMoving`, `moveToPosition`, `checkPosition`,
`getPosition`, `getLastError`) is not `ERROR`; hence no world reachable from a
successful `appStartup` by poll ticks and callbacks is in `ERROR`. -/
theorem C28_ERROR_never_entered (E : Env) (w : World) (h : w.m_state ≠ stateCodes.ERROR) :
    (appLogic E w).2.m_state ≠ stateCodes.ERROR
      ∧ (∀ (ipRecv : IndiProperty) (rv : Int) (w1 : World),
          newCallBack_m_indiP_position E w ipRecv = some (rv, w1) →
          w1.m_state ≠ stateCodes.ERROR)
      ∧ (testConnection E w).2.m_state ≠ stateCodes.ERROR
      ∧ (setUpMoving E w).2.m_state ≠ stateCodes.ERROR
      ∧ (∀ pos : ℚ, (moveToPosition E w pos).2.m_state ≠ stateCodes.ERROR)
      ∧ (∀ c : ℚ, (checkPosition E w c).2.m_state ≠ stateCodes.ERROR)
      ∧ (∀ c : ℚ, (getPosition E w c).2.2.m_state ≠ stateCodes.ERROR)
      ∧ (∀ s : Str, (getLastError E w s).2.2.m_state ≠ stateCodes.ERROR)
      ∧ (∀ w0 : World, Reachable E w0 → w0.m_state ≠ stateCodes.ERROR) :=
  ⟨appLogic_ne_ERROR E w h,
    fun ip rv w1 hcb => newCallBack_ne_ERROR E w ip rv w1 h hcb,
    testConnection_ne_ERROR E w h, setUpMoving_ne_ERROR E w h,
    fun pos => moveToPosition_ne_ERROR E w pos h,
    fun c => checkPosition_ne_ERROR E w c h,
    fun c => getPosition_ne_ERROR E w c h,
    fun s => getLastError_ne_ERROR E w s h,
    fun w0 h0 => Reachable_ne_ERROR E w0 h0⟩

/-- C28 at a concrete input: a stage stopped at `9.5`, the controller in
`OPERATING`. -/
theorem C28_ERROR_never_entered_witness :
    (appLogic stoppedAt9_5 (freshWorld stateCodes.OPERATING 10)).2.m_state ≠ stateCodes.ERROR
      ∧ (∀ (ipRecv : IndiProperty) (rv : Int) (w1 : World),
          newCallBack_m_indiP_position stoppedAt9_5 (freshWorld stateCodes.OPERATING 10) ipRecv
            = some (rv, w1) →
          w1.m_state ≠ stateCodes.ERROR)
      ∧ (testConnection stoppedAt9_5 (freshWorld stateCodes.OPERATING 10)).2.m_state
        ≠ stateCodes.ERROR
      ∧ (setUpMoving stoppedAt9_5 (freshWorld stateCodes.OPERATING 10)).2.m_state
        ≠ stateCodes.ERROR
      ∧ (∀ pos : ℚ, (moveToPosition stoppedAt9_5 (freshWorld stateCodes.OPERATING 10)
          pos).2.m_state ≠ stateCodes.ERROR)
      ∧ (∀ c : ℚ, (checkPosition stoppedAt9_5 (freshWorld stateCodes.OPERATING 10)
          c).2.m_state ≠ stateCodes.ERROR)
      ∧ (∀ c : ℚ, (getPosition stoppedAt9_5 (freshWorld stateCodes.OPERATING 10)
          c).2.2.m_state ≠ stateCodes.ERROR)
      ∧ (∀ s : Str, (getLastError stoppedAt9_5 (freshWorld stateCodes.OPERATING 10)
          s).2.2.m_state ≠ stateCodes.ERROR)
      ∧ (∀ w0 : World, Reachable stoppedAt9_5 w0 → w0.m_state ≠ stateCodes.ERROR) :=
  C28_ERROR_never_entered stoppedAt9_5 (freshWorld stateCodes.OPERATING 10) (by decide)

/-! ## A submission and the polling thread -/

/-- With no tick allowed during the wait, the callback with the polling thread
is the callback alone. -/
theorem newCallBack_polled_zero (E : Env) (w : World) (ipRecv : IndiProperty) :
    newCallBack_m_indiP_position E w ipRecv
      = match newCallBack_m_indiP_position_polled E w ipRecv 0 with
        | (some rv, w1) => some (rv, w1)
        | (none, _) => none := by
  unfold newCallBack_m_indiP_position newCallBack_m_indiP_position_polled
    newCallBack_m_indiP_position_enter
  by_cases hname : ipRecv.name = m_indiP_position_name
  · simp only [hname, if_true]
    by_cases hle : (if ipRecv.target.getD (-99) = -99 then ipRecv.current.getD (-99)
        else ipRecv.target.getD (-99)) ≤ 0
    · simp only [hle, if_true]
    · simp only [hle, if_false, newCallBack_m_indiP_position_wait]
      split_ifs <;> rfl
  · simp only [hname, if_false]

end smc100ccCtrl

namespace sysMonitor

/-! ## Thresholds -/

/-- The loop of `criticalCoreTemperature`, from a value `rv` of `0`, `1` or
`2`. -/
theorem criticalCoreTemperature_loop_rv (M : Monitor) (v : List ℚ) :
    ∀ (coreNum : Nat) (rv : Int) (out : List Str), (rv = 0 ∨ rv = 1 ∨ rv = 2) →
      (criticalCoreTemperature_loop M v coreNum rv out).1 =
        if v.any (fun t => decide (ieee754.toFloat (M.m_criticalCoreTemp : ℚ) ≤ t)) then 2
        else if rv = 2 then 2
        else if v.any (fun t => decide (ieee754.toFloat (M.m_warningCoreTemp : ℚ) ≤ t)) then 1
        else rv := by
  induction v with
  | nil =>
    intro coreNum rv out hrv
    rcases hrv with h | h | h <;> simp [criticalCoreTemperature_loop, h]
  | cons temp v ih =>
    intro coreNum rv out hrv
    unfold criticalCoreTemperature_loop
    by_cases hw : ieee754.toFloat (M.m_warningCoreTemp : ℚ) ≤ temp
        ∧ temp < ieee754.toFloat (M.m_criticalCoreTemp : ℚ)
    · rw [if_pos hw, ih _ _ _ (by rcases hrv with h | h | h <;> simp [h])]
      have hc : ¬ ieee754.toFloat (M.m_criticalCoreTemp : ℚ) ≤ temp := not_le.mpr hw.2
      rcases hrv with h | h | h <;> simp [h, hc, hw.1]
    · rw [if_neg hw]
      by_cases hc : ieee754.toFloat (M.m_criticalCoreTemp : ℚ) ≤ temp
      · rw [if_pos hc, ih _ _ _ (Or.inr (Or.inr rfl))]
        simp [hc]
      · rw [if_neg hc, ih _ _ _ hrv]
        have hw1 : ¬ ieee754.toFloat (M.m_warningCoreTemp : ℚ) ≤ temp :=
          fun h => hw ⟨h, not_le.mp hc⟩
        simp [hc, hw1]

/-- The loop of `criticalDiskTemperature`, from a value `rv` of `0`, `1` or
`2`. -/
theorem criticalDiskTemperature_loop_rv (M : Monitor) (v : List ℚ) :
    ∀ (rv : Int) (out : List Str), (rv = 0 ∨ rv = 1 ∨ rv = 2) →
      (criticalDiskTemperature_loop M v rv out).1 =
        if v.any (fun t => decide (ieee754.toFloat (M.m_criticalDiskTemp : ℚ) ≤ t)) then 2
        else if rv = 2 then 2
        else if v.any (fun t => decide (ieee754.toFloat (M.m_warningDiskTemp : ℚ) ≤ t)) then 1
        else rv := by
  induction v with
  | nil =>
    intro rv out hrv
    rcases hrv with h | h | h <;> simp [criticalDiskTemperature_loop, h]
  | cons temp v ih =>
    intro rv out hrv
    unfold criticalDiskTemperature_loop
    by_cases hw : ieee754.toFloat (M.m_warningDiskTemp : ℚ) ≤ temp
        ∧ temp < ieee754.toFloat (M.m_criticalDiskTemp : ℚ)
    · rw [if_pos hw, ih _ _ (by rcases hrv with h | h | h <;> simp [h])]
      have hc : ¬ ieee754.toFloat (M.m_criticalDiskTemp : ℚ) ≤ temp := not_le.mpr hw.2
      rcases hrv with h | h | h <;> simp [h, hc, hw.1]
    · rw [if_neg hw]
      by_cases hc : ieee754.toFloat (M.m_criticalDiskTemp : ℚ) ≤ temp
      · rw [if_pos hc, ih _ _ (Or.inr (Or.inr rfl))]
        simp [hc]
      · rw [if_neg hc, ih _ _ hrv]
        have hw1 : ¬ ieee754.toFloat (M.m_warningDiskTemp : ℚ) ≤ temp :=
          fun h => hw ⟨h, not_le.mp hc⟩
        simp [hc, hw1]

/-- The return value of `criticalCoreTemperature` is the alarm level of the core
thresholds as converted to `float`. -/
theorem criticalCoreTemperature_eq (M : Monitor) (v : List ℚ) :
    (criticalCoreTemperature M v).1
      = alarmLevel (ieee754.toFloat (M.m_warningCoreTemp : ℚ))
          (ieee754.toFloat (M.m_criticalCoreTemp : ℚ)) v := by
  unfold criticalCoreTemperature alarmLevel
  simp only []
  rw [criticalCoreTemperature_loop_rv M v 0 0 M.out (Or.inl rfl)]
  simp

/-- The return value of `criticalDiskTemperature` is the alarm level of the disk
thresholds as converted to `float`. -/
theorem criticalDiskTemperature_eq (M : Monitor) (v : List ℚ) :
    (criticalDiskTemperature M v).1
      = alarmLevel (ieee754.toFloat (M.m_warningDiskTemp : ℚ))
          (ieee754.toFloat (M.m_criticalDiskTemp : ℚ)) v := by
  unfold criticalDiskTemperature alarmLevel
  simp only []
  rw [criticalDiskTemperature_loop_rv M v 0 M.out (Or.inl rfl)]
  simp

/-- The alarm level in words. -/
theorem alarmLevel_spec (warn crit : ℚ) (v : List ℚ) :
    ((∃ t ∈ v, crit ≤ t) → alarmLevel warn crit v = 2)
      ∧ ((¬ ∃ t ∈ v, crit ≤ t) → (∃ t ∈ v, warn ≤ t) → alarmLevel warn crit v = 1)
      ∧ ((¬ ∃ t ∈ v, crit ≤ t) → (¬ ∃ t ∈ v, warn ≤ t) → alarmLevel warn crit v = 0) := by
  unfold alarmLevel
  refine ⟨fun h => ?_, fun h1 h2 => ?_, fun h1 h2 => ?_⟩
  · rw [if_pos]
    simpa using h
  · rw [if_neg, if_pos]
    · simpa using h2
    · simpa using h1
  · rw [if_neg, if_neg]
    · simpa using h2
    · simpa using h1

/-- The alarm level does not depend on the order of the list. -/
theorem alarmLevel_perm (warn crit : ℚ) (v v1 : List ℚ) (h : v.Perm v1) :
    alarmLevel warn crit v = alarmLevel warn crit v1 := by
  have hany : ∀ p : ℚ → Bool, v.any p = v1.any p := by
    intro p
    rw [Bool.eq_iff_iff, List.any_eq_true, List.any_eq_true]
    exact ⟨fun ⟨x, hx, hp⟩ => ⟨x, h.mem_iff.mp hx, hp⟩,
      fun ⟨x, hx, hp⟩ => ⟨x, h.mem_iff.mpr hx, hp⟩⟩
  unfold alarmLevel
  rw [hany, hany]

/-- The thresholds of a fresh monitor. -/
theorem freshMonitor_thresholds (warn crit : Int) :
    (freshMonitor warn crit).m_warningCoreTemp = warn
      ∧ (freshMonitor warn crit).m_criticalCoreTemp = crit
      ∧ (freshMonitor warn crit).m_warningDiskTemp = warn
      ∧ (freshMonitor warn crit).m_criticalDiskTemp = crit :=
  ⟨rfl, rfl, rfl, rfl⟩

/-- C23, the claim refuted: with the warning threshold `16777217`, the critical
threshold `33554432` and the one temperature `16777216`, no temperature is at or
above either threshold, and both functions return `1`: the comparison converts
the warning threshold to the `float` `16777216`. -/
theorem C23_counterexample_threshold_rounded :
    (¬ ∃ t ∈ [(16777216 : ℚ)], ((33554432 : Int) : ℚ) ≤ t)
      ∧ (¬ ∃ t ∈ [(16777216 : ℚ)], ((16777217 : Int) : ℚ) ≤ t)
      ∧ (criticalCoreTemperature (freshMonitor 16777217 33554432) [16777216]).1 = 1
      ∧ (criticalDiskTemperature (freshMonitor 16777217 33554432) [16777216]).1 = 1 := by
  have hw : ieee754.toFloat ((16777217 : Int) : ℚ) = 16777216 := by
    rw [show ((16777217 : Int) : ℚ) = 16777217 by norm_num]
    exact ieee754.toFloat_16777217
  have hc : ieee754.toFloat ((33554432 : Int) : ℚ) = 33554432 := by
    rw [show ((33554432 : Int) : ℚ) = 33554432 by norm_num]
    exact ieee754.roundBinary_of_representable 24 (-126) (by norm_num) _
      ⟨2 ^ 23, 25, by norm_num, by norm_num, by norm_num [abs_of_pos]⟩
  refine ⟨by norm_num, by norm_num, ?_, ?_⟩
  · rw [criticalCoreTemperature_eq]
    simp only [freshMonitor_thresholds, hw, hc]
    exact (alarmLevel_spec _ _ _).2.1 (by norm_num) (by norm_num)
  · rw [criticalDiskTemperature_eq]
    simp only [freshMonitor_thresholds, hw, hc]
    exact (alarmLevel_spec _ _ _).2.1 (by norm_num) (by norm_num)

/-- C23 as amended. For every list of temperatures and every warning and
critical threshold, each threshold taken as the `float` that the comparison
converts it to, `criticalCoreTemperature` and `criticalDiskTemperature` return
`2` if some temperature is at or above the critical threshold, otherwise `1` if
some temperature is at or above the warning threshold, otherwise `0`; in
particular `0` for the empty list, and the same value for every reordering of
the list.  A threshold of magnitude at most `2 ^ 24 = 16777216` is converted to
itself. -/
theorem C23_alarm_level (M : Monitor) (v : List ℚ) :
    (((∃ t ∈ v, ieee754.toFloat (M.m_criticalCoreTemp : ℚ) ≤ t) →
          (criticalCoreTemperature M v).1 = 2)
        ∧ ((¬ ∃ t ∈ v, ieee754.toFloat (M.m_criticalCoreTemp : ℚ) ≤ t) →
          (∃ t ∈ v, ieee754.toFloat (M.m_warningCoreTemp : ℚ) ≤ t) →
          (criticalCoreTemperature M v).1 = 1)
        ∧ ((¬ ∃ t ∈ v, ieee754.toFloat (M.m_criticalCoreTemp : ℚ) ≤ t) →
          (¬ ∃ t ∈ v, ieee754.toFloat (M.m_warningCoreTemp : ℚ) ≤ t) →
          (criticalCoreTemperature M v).1 = 0))
      ∧ (((∃ t ∈ v, ieee754.toFloat (M.m_criticalDiskTemp : ℚ) ≤ t) →
          (criticalDiskTemperature M v).1 = 2)
        ∧ ((¬ ∃ t ∈ v, ieee754.toFloat (M.m_criticalDiskTemp : ℚ) ≤ t) →
          (∃ t ∈ v, ieee754.toFloat (M.m_warningDiskTemp : ℚ) ≤ t) →
          (criticalDiskTemperature M v).1 = 1)
        ∧ ((¬ ∃ t ∈ v, ieee754.toFloat (M.m_criticalDiskTemp : ℚ) ≤ t) →
          (¬ ∃ t ∈ v, ieee754.toFloat (M.m_warningDiskTemp : ℚ) ≤ t) →
          (criticalDiskTemperature M v).1 = 0))
      ∧ (criticalCoreTemperature M []).1 = 0
      ∧ (criticalDiskTemperature M []).1 = 0
      ∧ (∀ v1 : List ℚ, v.Perm v1 →
          (criticalCoreTemperature M v1).1 = (criticalCoreTemperature M v).1
            ∧ (criticalDiskTemperature M v1).1 = (criticalDiskTemperature M v).1)
      ∧ (∀ n : Int, |n| ≤ 2 ^ 24 → ieee754.toFloat (n : ℚ) = n) := by
  refine ⟨?_, ?_, rfl, rfl, fun v1 h => ⟨?_, ?_⟩, ieee754.toFloat_int⟩
  · rw [criticalCoreTemperature_eq]
    exact alarmLevel_spec _ _ v
  · rw [criticalDiskTemperature_eq]
    exact alarmLevel_spec _ _ v
  · rw [criticalCoreTemperature_eq, criticalCoreTemperature_eq]
    exact (alarmLevel_perm _ _ v v1 h).symm
  · rw [criticalDiskTemperature_eq, criticalDiskTemperature_eq]
    exact (alarmLevel_perm _ _ v v1 h).symm

/-- C23 as amended, at concrete inputs: thresholds `80` and `100`, which are
converted to themselves; one core at `85` gives `1`, one disk at `101` gives
`2`. -/
theorem C23_alarm_level_witness :
    ieee754.toFloat ((80 : Int) : ℚ) = (80 : Int)
      ∧ ieee754.toFloat ((100 : Int) : ℚ) = (100 : Int)
      ∧ (criticalCoreTemperature (freshMonitor 80 100) [45, 85, 60]).1 = 1
      ∧ (criticalDiskTemperature (freshMonitor 80 100) [45, 101]).1 = 2 := by
  have h := C23_alarm_level (freshMonitor 80 100)
  have h80 := (h []).2.2.2.2.2 80 (by norm_num)
  have h100 := (h []).2.2.2.2.2 100 (by norm_num)
  refine ⟨h80, h100, ?_, ?_⟩
  · refine (h [45, 85, 60]).1.2.1 ?_ ⟨85, by simp, ?_⟩
    · simp only [freshMonitor_thresholds]
      rw [h100]
      norm_num
    · simp only [freshMonitor_thresholds]
      rw [h80]
      norm_num
  · refine (h [45, 101]).2.1.1 ⟨101, by simp, ?_⟩
    simp only [freshMonitor_thresholds]
    rw [h100]
    norm_num

/-! ## Parsing -/

/-- A `Mem:` line whose two numbers parse and whose quotient is finite, not
above `1` and not `0`: the quotient is stored and the return value is `0`. -/
theorem parseRamUsage_stored (stof : Str → Except Exn ℚ) (M : Monitor) (line : Str)
    (ramUsage : FloatVal) (t1 t2 : Str) (used total : ℚ)
    (hlen : 1 < line.length)
    (h0 : (tokens line)[0]? = some "Mem:".toList)
    (h1 : (tokens line)[1]? = some t1) (h2 : (tokens line)[2]? = some t2)
    (hused : stof t2 = Except.ok used) (htotal : stof t1 = Except.ok total)
    (hne : total ≠ 0) (hle : ¬ 1 < used / total) (hnz : used / total ≠ 0) :
    parseRamUsage stof M line ramUsage = (0, FloatVal.finite (used / total), M) := by
  unfold parseRamUsage
  rw [if_neg (not_le.mpr hlen)]
  simp only [h0, h1, h2, hused, htotal, ne_eq, not_true_eq_false, if_false, fdiv, hne,
    FloatVal.gt_one, FloatVal.eq_zero, decide_eq_true_eq, hle, hnz, or_self]

/-- C24, the code at the failing input: on the line `Mem: 100 -50 150`, with
`100` and `-50` as the values of the second and third fields, `parseRamUsage`
returns `0` and stores `-50/100`, which is below `0`. -/
theorem C24_negative_usage_accepted :
    parseRamUsage tableStof (freshMonitor 0 0) "Mem: 100 -50 150".toList (FloatVal.finite 0)
        = (0, FloatVal.finite (-50 / 100), freshMonitor 0 0)
      ∧ ((-50 : ℚ) / 100 < 0) :=
  ⟨parseRamUsage_stored tableStof (freshMonitor 0 0) "Mem: 100 -50 150".toList
      (FloatVal.finite 0) "100".toList "-50".toList (-50) 100 (by decide) (by decide)
      (by decide) (by decide) rfl rfl (by norm_num) (by norm_num) (by norm_num),
    by norm_num⟩

/-- A `df` line for the root path whose fifth field, without its last
character, parses as `v`: `v / 100` is stored as the root usage. -/
theorem parseDiskUsage_root (stof : Str → Except Exn ℚ) (M : Monitor) (line : Str)
    (rootUsage dataUsage bootUsage : ℚ) (t4 : Str) (v : ℚ)
    (hlen : 1 < line.length)
    (h5 : (tokens line)[5]? = some "/".toList) (h4 : (tokens line)[4]? = some t4)
    (hv : stof t4.dropLast = Except.ok v) :
    parseDiskUsage stof M line rootUsage dataUsage bootUsage
      = (0, v / 100, dataUsage, bootUsage, M) := by
  unfold parseDiskUsage parseDiskUsage_value
  rw [if_neg (not_le.mpr hlen)]
  simp only [h5, h4, hv, if_true, Option.getD_some]

/-- C25, the code at the failing input: on the `df` line
`/dev/sda1 1000 390 610 39% /`, `parseDiskUsage` returns `0` and stores `39/100`
as the root usage, not `39`. -/
theorem C25_usage_stored_as_fraction :
    parseDiskUsage tableStof (freshMonitor 0 0) "/dev/sda1 1000 390 610 39% /".toList 0 0 0
        = (0, 39 / 100, 0, 0, freshMonitor 0 0)
      ∧ ((39 : ℚ) / 100 ≠ 39) :=
  ⟨parseDiskUsage_root tableStof (freshMonitor 0 0) "/dev/sda1 1000 390 610 39% /".toList
      0 0 0 "39%".toList 39 (by decide) (by decide) (by decide) rfl,
    by norm_num⟩

/-- A line that starts `Core ` and has fewer than 17 characters: `substr(17, 4)`
throws `std::out_of_range`, which nothing catches. -/
theorem parseCPUTemperatures_short (stof : Str → Except Exn ℚ) (M : Monitor) (line : Str)
    (temps : ℚ) (hlen : 1 < line.length) (hcore : line.take 5 = "Core ".toList)
    (hshort : line.length < 17) :
    parseCPUTemperatures stof M line temps = Except.error Exn.out_of_range := by
  unfold parseCPUTemperatures
  rw [if_neg (not_le.mpr hlen), if_pos hcore, if_pos hshort]

/-- C26, the code at the failing input: on the line `Core 0:`, seven characters
long, `parseCPUTemperatures` does not return: `std::out_of_range` escapes. -/
theorem C26_short_core_line_raises :
    parseCPUTemperatures tableStof (freshMonitor 0 0) "Core 0:".toList 0
        = Except.error Exn.out_of_range
      ∧ ∀ r : Int × ℚ × Monitor,
        parseCPUTemperatures tableStof (freshMonitor 0 0) "Core 0:".toList 0 ≠ Except.ok r := by
  have h := parseCPUTemperatures_short tableStof (freshMonitor 0 0) "Core 0:".toList 0
    (by decide) (by decide) (by decide)
  refine ⟨h, fun r hr => ?_⟩
  rw [h] at hr
  cases hr

end sysMonitor
